import Mathlib

/-!
Residency tracking and command submission of the WDDM command stream receiver,
buffer objects (`runtime/mem_obj/buffer.cpp`) and timestamp packet containers
(`runtime/helpers/timestamp_packet.cpp`).

The unit tests of the WDDM command stream receiver (`unit_tests/os_interface/
windows/device_command_stream_tests.cpp`) drive the receiver, the residency
controller, the graphics allocation and the internal allocation storage
through headers they include.  The behaviour of these classes is modelled from
the specification, and every such definition says so in its doc comment; the
tests are the authority wherever they pin the behaviour down.

State is passed explicitly: a `CommandStreamReceiver` value holds the
receiver of one engine context together with the allocations it refers to
and a log of what the kernel-mode driver was asked to do.  The functions of
`buffer.cpp` and `timestamp_packet.cpp` are translated from their source; what
they ask of classes outside these files is an input of the model, and what
they do to them is recorded in the outcome.
-/

set_option autoImplicit false

namespace OCLRT

/-! ## Data model -/

/-- Identity of a graphics allocation (the `GraphicsAllocation *` of the tests). -/
abbrev AllocId := Nat

/-- Identifier of an engine (OS) context, `OsContext::getContextId()`. -/
abbrev ContextId := Nat

/-- Fence value returned by a submission, `FlushStamp`. -/
abbrev FlushStamp := Nat

/-- Allocation types named by the tests and by `buffer.cpp`
(`GraphicsAllocation::AllocationType`); `UNKNOWN` is the type of a freshly
created allocation. -/
inductive AllocationType where
  | UNKNOWN
  | BUFFER
  | BUFFER_HOST_MEMORY
  | BUFFER_COMPRESSED
  | LINEAR_STREAM
  | FILL_PATTERN
  deriving DecidableEq

/-- Throttle hint of a batch buffer, `QueueThrottle`. -/
inductive QueueThrottle where
  | LOW
  | MEDIUM
  | HIGH
  deriving DecidableEq

/-- Dispatch mode of the receiver, `DispatchMode`. -/
inductive DispatchMode where
  | ImmediateDispatch
  | BatchedDispatch
  deriving DecidableEq

/-- Preemption mode of the device, `PreemptionMode`. -/
inductive PreemptionMode where
  | Disabled
  | MidBatch
  | ThreadGroup
  | MidThread
  deriving DecidableEq

/-- Category tag of the internal allocation storage. -/
inductive AllocationUsage where
  | TEMPORARY_ALLOCATION
  | REUSABLE_ALLOCATION
  deriving DecidableEq

/-- Modelled from the spec: the memory pool of an allocation (`MemoryPool::Type`
of `memory_manager/memory_pool.h`, which `buffer.cpp` only queries through
`MemoryPool::isSystemMemoryPool`).  Section 3 classifies the pool as "system
memory vs. local/device memory"; `MemoryNull` is the pool of an allocation
that has none yet. -/
inductive MemoryPool where
  | MemoryNull
  | SystemMemory
  | LocalMemory
  deriving DecidableEq

/-- Modelled from the spec: `MemoryPool::isSystemMemoryPool(pool)`, the "system
memory vs. local/device memory" classification of section 3. -/
def MemoryPool.isSystemMemoryPool (pool : MemoryPool) : Bool :=
  match pool with
  | MemoryPool.SystemMemory => true
  | _ => false

/-- The part of the `Gmm` resource description `buffer.cpp` reads:
`memory->gmm->isRenderCompressed`. -/
structure Gmm where
  isRenderCompressed : Bool
  deriving DecidableEq

/-- Modelled from the spec: the graphics allocation (class `GraphicsAllocation` /
`WddmAllocation`, used by the tests through its header).  Section 3: identity data
(GPU address, optional CPU pointer, type) and per-engine-context state: the
task count the allocation must survive past, and its position in the
trim-candidate list.  The position is "a position in the trim-candidate list
(or a sentinel not-tracked value)": `none` stands for the sentinel
`trimListUnusedPosition`, `some i` for the index `i`.  `cpuPtr` is what
`getUnderlyingBuffer()` returns; `memoryPool`, `gmm` (`none` for a null
pointer) and `memObjectsAllocationWithWritableFlags` are the attributes
`Buffer::create` reads and sets. -/
structure GraphicsAllocation where
  gpuAddress : Nat
  cpuPtr : Nat
  allocationType : AllocationType
  taskCount : ContextId → Nat
  trimCandidateListPosition : ContextId → Option Nat
  memoryPool : MemoryPool := MemoryPool.MemoryNull
  gmm : Option Gmm := none
  memObjectsAllocationWithWritableFlags : Bool := false

/-- The sentinel the tests compare a trim-candidate position with. -/
def trimListUnusedPosition : Option Nat := none

/-- Modelled from the spec: `GraphicsAllocation::updateTaskCount(value, contextId)`
(section 4.1): "record, per execution context, the fence value this allocation
must survive past before reuse.  Monotonic: a later call with a smaller value
is a no-op (never move backward)." -/
def GraphicsAllocation.updateTaskCount (a : GraphicsAllocation) (newTaskCount : Nat)
    (contextId : ContextId) : GraphicsAllocation :=
  if a.taskCount contextId < newTaskCount then
    { a with taskCount := fun c => if c = contextId then newTaskCount else a.taskCount c }
  else a

/-- Task count recorded for a context, `GraphicsAllocation::getTaskCount`. -/
def GraphicsAllocation.getTaskCount (a : GraphicsAllocation) (contextId : ContextId) : Nat :=
  a.taskCount contextId

/-- Modelled from the spec: the monitored fence of one engine context
(section 3): "the last value the CPU asked the GPU to reach (last submitted)
and the last value confirmed reached (last completed)".  The fence is a 64-bit
counter that advances by one per accepted submission; the model keeps it as a
natural number, that is, it covers the fewer than 2^64 submissions a context
can make. -/
structure MonitoredFence where
  lastSubmittedFence : Nat
  lastCompletedFence : Nat
  deriving DecidableEq

/-- The part of `COMMAND_BUFFER_HEADER` the tests read. -/
structure CommandBufferHeader where
  RequiresCoherency : Bool
  NeedsMidBatchPreEmptionSupport : Bool
  UmdRequestedSliceState : Nat
  UmdRequestedSubsliceCount : Nat
  UmdRequestedEUCount : Nat
  deriving DecidableEq

/-- The part of `GT_SYSTEM_INFO` the tests read through `wddm->getGtSysInfo()`. -/
structure GtSystemInfo where
  EUCount : Nat
  SubSliceCount : Nat
  deriving DecidableEq

/-- The fields of `BatchBuffer` the submission uses; the tests build it as
`BatchBuffer{allocation, startOffset, 0, nullptr, requiresCoherency, false,
throttle, usedSize, &cs}`. -/
structure BatchBuffer where
  commandBufferAllocation : AllocId
  startOffset : Nat
  requiresCoherency : Bool
  throttle : QueueThrottle
  usedSize : Nat
  deriving DecidableEq

/-- A recorded command buffer of the submission aggregator: the batch buffer
and the surfaces of its submission (`storedCommandBuffer->batchBuffer`,
`storedCommandBuffer->surfaces` in the tests). -/
structure CommandBuffer where
  batchBuffer : BatchBuffer
  surfaces : List AllocId
  deriving DecidableEq

/-- One `submit` received by the kernel-mode driver, as the mock records it
(`wddm->submitResult`): address, size and header, the fence value handed
out, and the logical command buffers the physical submission carries in
execution order. -/
structure SubmitCall where
  commandBufferSubmitted : Nat
  size : Nat
  commandHeaderSubmitted : CommandBufferHeader
  commandBuffers : List BatchBuffer
  fence : Nat
  deriving DecidableEq

/-- A submission the kernel-mode driver did not accept (section 7). -/
inductive SubmissionError where
  | submitFailed
  deriving DecidableEq

/-- Modelled from the spec: the command stream receiver of one engine context
with everything it owns or refers to (classes `WddmCommandStreamReceiver`,
`WddmResidencyController`, `InternalAllocationStorage`, `SubmissionAggregator`
and the mocked `Wddm`, used by the tests through their headers).

* `allocations` is the memory the allocation identities point to;
* `residencyAllocations`, `evictionAllocations` are the containers returned by
  `getResidencyAllocations()` and `getEvictionAllocations()`;
* `trimCandidateList` is `getResidencyController().peekTrimCandidateList()`;
* `temporaryAllocations`, `allocationsForReuse` are the two pools of the
  internal allocation storage, `freedAllocations` the allocations handed back
  to the memory manager, oldest first;
* `commandBuffers` is the pending queue `peekCommandBuffers()`;
* `submits`, `kmDafLockedAllocations`, `waitFromCpuCalls` log the calls made
  to the kernel-mode driver. -/
structure CommandStreamReceiver where
  contextId : ContextId
  dispatchMode : DispatchMode
  allocations : AllocId → GraphicsAllocation
  residencyAllocations : List AllocId
  evictionAllocations : List AllocId
  trimCandidateList : List AllocId
  monitoredFence : MonitoredFence
  temporaryAllocations : List AllocId
  allocationsForReuse : List AllocId
  freedAllocations : List AllocId
  commandBuffers : List CommandBuffer
  commandBufferHeader : CommandBufferHeader
  gtSysInfo : GtSystemInfo
  kmDafEnabled : Bool
  submits : List SubmitCall
  kmDafLockedAllocations : List AllocId
  waitFromCpuCalls : List Nat

/-- What the device and the debug settings contribute to a receiver. -/
structure HardwareInfo where
  defaultPreemptionMode : PreemptionMode
  gtSysInfo : GtSystemInfo
  deriving DecidableEq

/-- An allocation as the memory manager hands it out: no context has used it
and it is on no trim-candidate list. -/
def GraphicsAllocation.create (gpuAddress cpuPtr : Nat) : GraphicsAllocation :=
  { gpuAddress := gpuAddress
    cpuPtr := cpuPtr
    allocationType := AllocationType.UNKNOWN
    taskCount := fun _ => 0
    trimCandidateListPosition := fun _ => trimListUnusedPosition }

/-- Modelled from the spec: construction of the receiver.  All containers are
empty and no allocation has been used; the header is built at creation with
the preemption flag of the device (section 4.3, step 2; the tests
`WddmPreemptionHeaderTests` read it from a receiver that has not flushed). -/
def CommandStreamReceiver.create (hwInfo : HardwareInfo) (contextId : ContextId)
    (dispatchMode : DispatchMode) (gpuAddressOf cpuPtrOf : AllocId → Nat) :
    CommandStreamReceiver :=
  { contextId := contextId
    dispatchMode := dispatchMode
    allocations := fun a => GraphicsAllocation.create (gpuAddressOf a) (cpuPtrOf a)
    residencyAllocations := []
    evictionAllocations := []
    trimCandidateList := []
    monitoredFence := { lastSubmittedFence := 0, lastCompletedFence := 0 }
    temporaryAllocations := []
    allocationsForReuse := []
    freedAllocations := []
    commandBuffers := []
    commandBufferHeader :=
      { RequiresCoherency := false
        NeedsMidBatchPreEmptionSupport := decide (hwInfo.defaultPreemptionMode ≠ PreemptionMode.Disabled)
        UmdRequestedSliceState := 0
        UmdRequestedSubsliceCount := 0
        UmdRequestedEUCount := 0 }
    gtSysInfo := hwInfo.gtSysInfo
    kmDafEnabled := false
    submits := []
    kmDafLockedAllocations := []
    waitFromCpuCalls := [] }

namespace CommandStreamReceiver

/-! ## Access to the allocations -/

/-- Replace the allocation an identity points to. -/
def setAllocation (csr : CommandStreamReceiver) (a : AllocId) (g : GraphicsAllocation) :
    CommandStreamReceiver :=
  { csr with allocations := fun x => if x = a then g else csr.allocations x }

/-- Stored trim-candidate position of an allocation for the receiver's context,
`allocation->getTrimCandidateListPosition(csr->getOsContext().getContextId())`. -/
def getTrimCandidateListPosition (csr : CommandStreamReceiver) (a : AllocId) : Option Nat :=
  (csr.allocations a).trimCandidateListPosition csr.contextId

/-- Store a trim-candidate position for the receiver's context,
`allocation->setTrimCandidateListPosition(contextId, position)`. -/
def setTrimCandidateListPosition (csr : CommandStreamReceiver) (a : AllocId)
    (position : Option Nat) : CommandStreamReceiver :=
  csr.setAllocation a
    { csr.allocations a with
      trimCandidateListPosition := fun c =>
        if c = csr.contextId then position
        else (csr.allocations a).trimCandidateListPosition c }

/-- Task count of an allocation for the receiver's context. -/
def getTaskCount (csr : CommandStreamReceiver) (a : AllocId) : Nat :=
  (csr.allocations a).getTaskCount csr.contextId

/-- The call `allocation->updateTaskCount(value, csr->getOsContext().getContextId())`
on an allocation the receiver refers to. -/
def updateTaskCount (csr : CommandStreamReceiver) (a : AllocId) (newTaskCount : Nat) :
    CommandStreamReceiver :=
  csr.setAllocation a ((csr.allocations a).updateTaskCount newTaskCount csr.contextId)

/-- The call `allocation->setCpuPtrAndGpuAddress(cpuPtr, gpuAddress)` on an
allocation the receiver refers to. -/
def setCpuPtrAndGpuAddress (csr : CommandStreamReceiver) (a : AllocId)
    (cpuPtr gpuAddress : Nat) : CommandStreamReceiver :=
  csr.setAllocation a { csr.allocations a with cpuPtr := cpuPtr, gpuAddress := gpuAddress }

/-- Modelled from the spec: `makeNonResident(allocation)`: "remove from resident
set and move to the eviction list; the allocation is not destroyed, merely
marked as a trim candidate".  An allocation that is not resident has nothing
to move. -/
def makeNonResident (csr : CommandStreamReceiver) (a : AllocId) : CommandStreamReceiver :=
  if a ∈ csr.residencyAllocations then
    { csr with
      residencyAllocations := csr.residencyAllocations.filter (fun x => x != a)
      evictionAllocations := csr.evictionAllocations ++ [a] }
  else csr

/-- Modelled from the spec: insertion into the trim-candidate list
(`WddmResidencyController::addToTrimCandidateList`).  Section 3: "O(1)
insertion when it becomes a trim candidate"; section 4.2: the list is
"ordered, position-tracked" and "every allocation's position field, if set,
must exactly match its real index in the list".  An allocation whose position
is unused is appended and its position set to the index it got; an allocation
that already is a candidate keeps its single entry. -/
def addToTrimCandidateList (csr : CommandStreamReceiver) (a : AllocId) :
    CommandStreamReceiver :=
  match csr.getTrimCandidateListPosition a with
  | none =>
    ({ csr with trimCandidateList := csr.trimCandidateList ++ [a] }).setTrimCandidateListPosition
      a (some csr.trimCandidateList.length)
  | some _ => csr

/-- Modelled from the spec: removal from the trim-candidate list
(`WddmResidencyController::removeFromTrimCandidateList`).  Section 4.2:
"removal from the middle must relocate the displaced tail allocation and
update its stored position field to match"; the removed allocation's position
becomes the unused sentinel.  An allocation that is no candidate is left
alone. -/
def removeFromTrimCandidateList (csr : CommandStreamReceiver) (a : AllocId) :
    CommandStreamReceiver :=
  match csr.getTrimCandidateListPosition a with
  | none => csr
  | some position =>
    match csr.trimCandidateList.getLast? with
    | none => csr
    | some tail =>
      (({ csr with trimCandidateList := (csr.trimCandidateList.set position tail).dropLast
          }).setTrimCandidateListPosition tail (some position)).setTrimCandidateListPosition
        a trimListUnusedPosition

/-- Modelled from the spec: `makeResident(allocation)`: "add to the current
resident set; idempotent (adding an already-resident allocation is a no-op)".
The test `makeResident` finds the allocation at the back of
`getResidencyAllocations()`.  An allocation that is made resident is no trim
candidate any more: section 3 has the trim-candidate list built for the
"removal of an allocation when it becomes resident again", and section 8 (1)
has the trim-candidate position absent after the call.  So the call first
takes the allocation off the trim-candidate list, which does nothing when the
allocation is no candidate, and then adds it to the residency container
unless it is there already. -/
def makeResident (csr : CommandStreamReceiver) (a : AllocId) : CommandStreamReceiver :=
  if a ∈ (csr.removeFromTrimCandidateList a).residencyAllocations then
    csr.removeFromTrimCandidateList a
  else
    { csr.removeFromTrimCandidateList a with
      residencyAllocations := (csr.removeFromTrimCandidateList a).residencyAllocations ++ [a] }

/-- Modelled from the spec: `processEviction()`: "move every allocation in the
eviction list into the trim-candidate list (ordered, position-tracked) and
clear the eviction list". -/
def processEviction (csr : CommandStreamReceiver) : CommandStreamReceiver :=
  { csr.evictionAllocations.foldl addToTrimCandidateList csr with evictionAllocations := [] }

/-- Modelled from the spec: `processResidency(container)`: "mark every
allocation in a residency set resident ... in one pass; must preserve
per-allocation idempotence". -/
def processResidency (csr : CommandStreamReceiver) (allocationsForResidency : List AllocId) :
    CommandStreamReceiver :=
  allocationsForResidency.foldl makeResident csr

/-- Modelled from the spec: `makeSurfacePackNonResident(container)`: "mark every
allocation in a residency set ... non-resident, in one pass".  The test
`makeResidentClearsResidencyAllocations` finds the eviction list empty and the
allocation on the trim-candidate list right after the call, so the pass ends
with `processEviction()`. -/
def makeSurfacePackNonResident (csr : CommandStreamReceiver)
    (allocationsForResidency : List AllocId) : CommandStreamReceiver :=
  (allocationsForResidency.foldl makeNonResident csr).processEviction

/-! ## Internal allocation storage (section 4.1) -/

/-- The pool of a category. -/
def allocationList (csr : CommandStreamReceiver) : AllocationUsage → List AllocId
  | AllocationUsage.TEMPORARY_ALLOCATION => csr.temporaryAllocations
  | AllocationUsage.REUSABLE_ALLOCATION => csr.allocationsForReuse

/-- Replace the pool of a category. -/
def setAllocationList (csr : CommandStreamReceiver) (usage : AllocationUsage)
    (l : List AllocId) : CommandStreamReceiver :=
  match usage with
  | AllocationUsage.TEMPORARY_ALLOCATION => { csr with temporaryAllocations := l }
  | AllocationUsage.REUSABLE_ALLOCATION => { csr with allocationsForReuse := l }

/-- Modelled from the spec: `storeAllocation(allocation, category)`: "place an
allocation into a reuse/deferred-destruction pool under a category tag.  No
immediate side effect on the GPU." -/
def storeAllocation (csr : CommandStreamReceiver) (a : AllocId) (usage : AllocationUsage) :
    CommandStreamReceiver :=
  csr.setAllocationList usage (csr.allocationList usage ++ [a])

/-- Modelled from the spec: what the kernel-mode driver and the GPU answer to one
wait on the monitored fence.  Section 6 treats `waitFromCpu(fenceValue) →
success` as "an opaque, possibly-failing RPC"; section 5: "fence waits may be
given a timeout by the underlying kernel-mode wait call; on timeout the
operation reports a failure".  `driverError` tells that the driver fails the
call; `signals` are the values the GPU writes to the fence while the CPU is
blocked, in order, up to the timeout. -/
structure FenceWait where
  driverError : Bool
  signals : List Nat
  deriving DecidableEq

/-- Modelled from the spec: the blocked CPU (section 5): "a CPU blocks until the
GPU signals a monitored fence value".  The wait is over with success as soon
as the completed value has reached `fenceValue`, and with a failure when the
signals run out before that (the timeout).  The completed value never moves
back.  The result is the success of the wait and the completed value the
fence shows when it returns. -/
def waitUntilSignalled (fenceValue : Nat) : Nat → List Nat → Bool × Nat
  | completed, [] => (decide (fenceValue ≤ completed), completed)
  | completed, signal :: rest =>
    if fenceValue ≤ completed then (true, completed)
    else waitUntilSignalled fenceValue (max completed signal) rest

/-- Modelled from the spec: `waitFromCpu(fenceValue) → success` of the
kernel-mode driver interface (section 6), logged as the mock does
(`wddm->waitFromCpuResult`: the call is counted and its value and success are
kept).  A call the driver fails returns a failure and leaves the fence alone;
otherwise the CPU is blocked until the fence is signalled or the wait times
out. -/
def waitFromCpu (csr : CommandStreamReceiver) (fenceValue : Nat) (wait : FenceWait) :
    Bool × CommandStreamReceiver :=
  if wait.driverError = true then
    (false, { csr with waitFromCpuCalls := csr.waitFromCpuCalls ++ [fenceValue] })
  else
    ((waitUntilSignalled fenceValue csr.monitoredFence.lastCompletedFence wait.signals).1,
      { csr with
        waitFromCpuCalls := csr.waitFromCpuCalls ++ [fenceValue]
        monitoredFence :=
          { csr.monitoredFence with
            lastCompletedFence :=
              (waitUntilSignalled fenceValue csr.monitoredFence.lastCompletedFence
                wait.signals).2 } })

/-- Modelled from the spec: `waitForFlushStamp(stamp)`: "block until the
monitored fence's completed value ≥ stamp"; a failed wait "surfaces ... to the
caller" (sections 4.3 and 7), so the call hands the success of the wait on. -/
def waitForFlushStamp (csr : CommandStreamReceiver) (stamp : FlushStamp) (wait : FenceWait) :
    Bool × CommandStreamReceiver :=
  csr.waitFromCpu stamp wait

/-- The stored allocations of a category that a clean-up with the given target
releases: those whose recorded task count does not exceed it. -/
def completedAllocations (csr : CommandStreamReceiver) (requiredTaskCount : Nat)
    (usage : AllocationUsage) : List AllocId :=
  (csr.allocationList usage).filter (fun a => decide (csr.getTaskCount a ≤ requiredTaskCount))

/-- Modelled from the spec: `waitForTaskCountAndCleanAllocationList(targetCount,
category)` (section 4.1): "block until the engine's completed-fence value ≥
targetCount, then release/reuse every stored allocation in that category whose
recorded task count ≤ the completed value; allocations with a higher pending
task count remain stored untouched."  The value the call has confirmed
completed is `targetCount`: section 8 (3) states the release condition as
`X ≥ T`, and in the test
`givenTwoTemporaryAllocationsWhenCleanTemporaryAllocationListThenDestoryOnlyCompletedAllocations`
a call with target 1 leaves the allocation with task count 100 alive although
the following call with target 100 returns without any work being submitted
in between.  Section 4.1 has the call as "a pure resource-reclamation path,
not a fallible operation": when it has returned, the completed value has
reached the target, which the model records as the least progress of the GPU
that lets it return.  Released allocations go back to the memory manager
(`freedAllocations`). -/
def waitForTaskCountAndCleanAllocationList (csr : CommandStreamReceiver)
    (requiredTaskCount : Nat) (usage : AllocationUsage) : CommandStreamReceiver :=
  let waited : CommandStreamReceiver :=
    { csr with
      monitoredFence :=
        { csr.monitoredFence with
          lastCompletedFence := max csr.monitoredFence.lastCompletedFence requiredTaskCount } }
  { waited.setAllocationList usage
      ((waited.allocationList usage).filter
        (fun a => !decide (waited.getTaskCount a ≤ requiredTaskCount))) with
    freedAllocations :=
      waited.freedAllocations ++ waited.completedAllocations requiredTaskCount usage }

/-! ## Submission (section 4.3) -/

/-- The upper bound of the throttle policy, `maxRequestedSubsliceCount` in the
test `givenWdmmWhenSubmitIsCalledAndThrottleIsToHighThenSetHeaderFieldsProperly`. -/
def maxRequestedSubsliceCount : Nat := 7

/-- Modelled from the spec: the throttle policy (section 4.3): LOW asks for one
subslice, MEDIUM leaves the choice to the hardware (0), and "HIGH requests the
full subslice count only if it does not exceed a fixed upper bound (7),
otherwise falls back to let-hardware-decide (encoded as 0)".  The HIGH case
is the expression of the test
`givenWdmmWhenSubmitIsCalledAndThrottleIsToHighThenSetHeaderFieldsProperly`. -/
def requestedSubsliceCount (throttle : QueueThrottle) (subSliceCount : Nat) : Nat :=
  match throttle with
  | QueueThrottle.LOW => 1
  | QueueThrottle.MEDIUM => 0
  | QueueThrottle.HIGH =>
    if subSliceCount ≤ maxRequestedSubsliceCount then subSliceCount else 0

/-- Modelled from the spec: step (2) of `flush`: "construct/patch the hardware
submission header (coherency-required flag, preemption flag, throttle-derived
scheduling hints) from batchBuffer metadata".  The preemption flag is the one
set at creation; slice state and EU count are the values the throttle tests
expect. -/
def patchHeader (csr : CommandStreamReceiver) (batchBuffer : BatchBuffer) :
    CommandBufferHeader :=
  { csr.commandBufferHeader with
    RequiresCoherency := batchBuffer.requiresCoherency
    UmdRequestedSliceState := 0
    UmdRequestedSubsliceCount :=
      requestedSubsliceCount batchBuffer.throttle csr.gtSysInfo.SubSliceCount
    UmdRequestedEUCount := csr.gtSysInfo.EUCount / csr.gtSysInfo.SubSliceCount }

/-- Allocation types the KM-DAF mode locks: "linear-stream command buffers,
fill-pattern allocations". -/
def isKmDafLockable (t : AllocationType) : Bool :=
  match t with
  | AllocationType.LINEAR_STREAM => true
  | AllocationType.FILL_PATTERN => true
  | _ => false

/-- Modelled from the spec: step (5) of `flush`: lock the allocations of the
residency container that are linear streams or fill patterns, in one pass over
the container. -/
def kmDafLockAllocations (csr : CommandStreamReceiver)
    (allocationsForResidency : List AllocId) : CommandStreamReceiver :=
  { csr with
    kmDafLockedAllocations :=
      csr.kmDafLockedAllocations ++
        allocationsForResidency.filter
          (fun a => isKmDafLockable (csr.allocations a).allocationType) }

/-- Modelled from the spec: one physical submission, the body shared by `flush`
and `flushBatchedSubmissions`.  Steps of section 4.3 in order: (1) the
allocations of the container are marked resident; (2) the header is patched
from the primary batch buffer; (3) address (GPU address of the command buffer
allocation plus start offset), size and header go to the kernel-mode driver,
which hands out the next fence value; (4) every resident allocation is stamped
with that value; (5) under KM-DAF the lockable allocations of the container
are locked.  `kmdAccepts` is the answer of the driver, "an opaque,
possibly-failing RPC": a refusal is reported and changes nothing ("no silent
partial success"). -/
def submitCommandBuffers (csr : CommandStreamReceiver) (primary : BatchBuffer)
    (carried : List BatchBuffer) (allocationsForResidency : List AllocId)
    (kmdAccepts : Bool) : Except SubmissionError (FlushStamp × CommandStreamReceiver) :=
  let resident := csr.processResidency allocationsForResidency
  let header := resident.patchHeader primary
  if kmdAccepts then
    let fence := resident.monitoredFence.lastSubmittedFence + 1
    let call : SubmitCall :=
      { commandBufferSubmitted :=
          (resident.allocations primary.commandBufferAllocation).gpuAddress + primary.startOffset
        size := primary.usedSize
        commandHeaderSubmitted := header
        commandBuffers := carried
        fence := fence }
    let submitted : CommandStreamReceiver :=
      { resident with
        commandBufferHeader := header
        submits := resident.submits ++ [call]
        monitoredFence := { resident.monitoredFence with lastSubmittedFence := fence } }
    let stamped :=
      submitted.residencyAllocations.foldl (fun c a => c.updateTaskCount a fence) submitted
    let locked :=
      if stamped.kmDafEnabled then stamped.kmDafLockAllocations allocationsForResidency
      else stamped
    Except.ok (fence, locked)
  else Except.error SubmissionError.submitFailed

/-- Modelled from the spec: `flush(batchBuffer, residencyContainer)`, "the core
transition" of section 4.3; it returns "the new fence value (the flush
stamp)". -/
def flush (csr : CommandStreamReceiver) (batchBuffer : BatchBuffer)
    (allocationsForResidency : List AllocId) (kmdAccepts : Bool) :
    Except SubmissionError (FlushStamp × CommandStreamReceiver) :=
  csr.submitCommandBuffers batchBuffer [batchBuffer] allocationsForResidency kmdAccepts

/-! ## Batching (section 4.4) -/

/-- Modelled from the spec: recording a command buffer.  Under Batched dispatch
"command buffers accumulate in an ordered list"; under Immediate dispatch
nothing is deferred. -/
def recordCommandBuffer (csr : CommandStreamReceiver) (commandBuffer : CommandBuffer) :
    CommandStreamReceiver :=
  match csr.dispatchMode with
  | DispatchMode.BatchedDispatch =>
    { csr with commandBuffers := csr.commandBuffers ++ [commandBuffer] }
  | DispatchMode.ImmediateDispatch => csr

/-- The pending queue, `peekCommandBuffers()`. -/
def peekCommandBuffers (csr : CommandStreamReceiver) : List CommandBuffer :=
  csr.commandBuffers

/-- The residency container of a batched submission: for each pending command
buffer, in order, its surfaces and its command buffer allocation (the test
`givenRecordedCommandBufferWhenItIsSubmittedThenFlushTaskIsProperlyCalled`
builds its expectation the same way). -/
def batchedResidency : List CommandBuffer → List AllocId
  | [] => []
  | cb :: rest =>
    cb.surfaces ++ [cb.batchBuffer.commandBufferAllocation] ++ batchedResidency rest

/-- Modelled from the spec: `flushBatchedSubmissions()`: "coalesces all pending
buffers into one physical submission, preserving program order, then clears
the pending list".  With nothing pending nothing is submitted; a refused
submission is reported and leaves the queue as it was. -/
def flushBatchedSubmissions (csr : CommandStreamReceiver) (kmdAccepts : Bool) :
    Except SubmissionError CommandStreamReceiver :=
  match csr.commandBuffers with
  | [] => Except.ok csr
  | first :: rest =>
    match csr.submitCommandBuffers first.batchBuffer
        ((first :: rest).map (fun cb => cb.batchBuffer)) (batchedResidency (first :: rest))
        kmdAccepts with
    | Except.ok (_, flushed) => Except.ok { flushed with commandBuffers := [] }
    | Except.error e => Except.error e

/-! ## Sequences of calls -/

/-- The residency calls of a client, with their arguments; removal from the
trim-candidate list is included as the sixth call. -/
inductive ResidencyCall where
  | makeResident (a : AllocId)
  | makeNonResident (a : AllocId)
  | processEviction
  | processResidency (allocationsForResidency : List AllocId)
  | makeSurfacePackNonResident (allocationsForResidency : List AllocId)
  | removeFromTrimCandidateList (a : AllocId)
  deriving DecidableEq

/-- Perform one residency call. -/
def call (csr : CommandStreamReceiver) : ResidencyCall → CommandStreamReceiver
  | ResidencyCall.makeResident a => csr.makeResident a
  | ResidencyCall.makeNonResident a => csr.makeNonResident a
  | ResidencyCall.processEviction => csr.processEviction
  | ResidencyCall.processResidency c => csr.processResidency c
  | ResidencyCall.makeSurfacePackNonResident c => csr.makeSurfacePackNonResident c
  | ResidencyCall.removeFromTrimCandidateList a => csr.removeFromTrimCandidateList a

/-- Perform a sequence of residency calls, first call first. -/
def calls (csr : CommandStreamReceiver) (cs : List ResidencyCall) : CommandStreamReceiver :=
  cs.foldl call csr

/-- One flush request: batch buffer, residency container and the answer the
kernel-mode driver gives to its submit. -/
structure FlushRequest where
  batchBuffer : BatchBuffer
  allocationsForResidency : List AllocId
  kmdAccepts : Bool
  deriving DecidableEq

/-- Perform successive `flush` calls on one receiver and collect the flush
stamps of the successful ones, oldest first.  A failed flush returns no stamp
and leaves the receiver as it was. -/
def flushes (csr : CommandStreamReceiver) : List FlushRequest → List FlushStamp × CommandStreamReceiver
  | [] => ([], csr)
  | r :: rest =>
    match csr.flush r.batchBuffer r.allocationsForResidency r.kmdAccepts with
    | Except.ok (stamp, next) =>
      let (stamps, final) := flushes next rest
      (stamp :: stamps, final)
    | Except.error _ => flushes csr rest

/-- The trim-candidate list invariant (section 4.2): the allocation at index
`i` of the list has stored position `i`, and an allocation whose stored
position is `i` is the one at index `i`; so an allocation that is not in the
list has the unused sentinel, and no allocation is listed twice. -/
def TrimListConsistent (csr : CommandStreamReceiver) : Prop :=
  (∀ i a, csr.trimCandidateList[i]? = some a → csr.getTrimCandidateListPosition a = some i) ∧
  (∀ a i, csr.getTrimCandidateListPosition a = some i → csr.trimCandidateList[i]? = some a)

end CommandStreamReceiver


/-! ## Fixtures

Concrete values in the shape of the test fixture `WddmCommandStreamFixture`:
a device with six subslices, a receiver on context 0, and allocations laid
out page by page. -/

/-- Device of the examples. -/
def exampleHardwareInfo : HardwareInfo :=
  { defaultPreemptionMode := PreemptionMode.MidThread
    gtSysInfo := { EUCount := 24, SubSliceCount := 6 } }

/-- GPU address of allocation `a` in the examples. -/
def exampleGpuAddress (a : AllocId) : Nat := 65536 + 4096 * a

/-- CPU pointer of allocation `a` in the examples. -/
def exampleCpuPtr (a : AllocId) : Nat := 16777216 + 4096 * a

/-- Receiver of the examples, immediate dispatch as the fixture sets it. -/
def exampleReceiver : CommandStreamReceiver :=
  CommandStreamReceiver.create exampleHardwareInfo 0 DispatchMode.ImmediateDispatch
    exampleGpuAddress exampleCpuPtr

/-- Receiver of the batching examples. -/
def exampleBatchedReceiver : CommandStreamReceiver :=
  CommandStreamReceiver.create exampleHardwareInfo 0 DispatchMode.BatchedDispatch
    exampleGpuAddress exampleCpuPtr

/-- Batch buffer over allocation `a` with the given throttle, as the tests
build it: no start offset, no coherency requirement. -/
def exampleBatchBuffer (a : AllocId) (throttle : QueueThrottle) : BatchBuffer :=
  { commandBufferAllocation := a
    startOffset := 0
    requiresCoherency := false
    throttle := throttle
    usedSize := 64 }

/-- Receiver of the examples after allocation 1 was made resident, evicted and
the eviction list processed: allocation 1 is not resident and is the trim
candidate at index 0. -/
def exampleCandidateReceiver : CommandStreamReceiver :=
  exampleReceiver.calls
    [CommandStreamReceiver.ResidencyCall.makeResident 1,
      CommandStreamReceiver.ResidencyCall.makeNonResident 1,
      CommandStreamReceiver.ResidencyCall.processEviction]

/-- Receiver of the examples after allocation 1 was made resident and
non-resident twice: the eviction list holds it twice. -/
def exampleEvictedTwiceReceiver : CommandStreamReceiver :=
  exampleReceiver.calls
    [CommandStreamReceiver.ResidencyCall.makeResident 1,
      CommandStreamReceiver.ResidencyCall.makeNonResident 1,
      CommandStreamReceiver.ResidencyCall.makeResident 1,
      CommandStreamReceiver.ResidencyCall.makeNonResident 1]

/-- Receiver of the test
`givenTwoTemporaryAllocationsWhenCleanTemporaryAllocationListThenDestoryOnlyCompletedAllocations`:
allocations 1 and 2 stored as temporary, with task counts 1 and 100. -/
def exampleStorageReceiver : CommandStreamReceiver :=
  (((exampleReceiver.storeAllocation 1 AllocationUsage.TEMPORARY_ALLOCATION).storeAllocation 2
    AllocationUsage.TEMPORARY_ALLOCATION).updateTaskCount 1 1).updateTaskCount 2 100

/-- Three command buffers B1, B2, B3 over allocations 1, 2, 3 with their
surfaces, for the batching example of section 8 (5). -/
def exampleCommandBuffers : List CommandBuffer :=
  [{ batchBuffer := exampleBatchBuffer 1 QueueThrottle.MEDIUM, surfaces := [4] },
    { batchBuffer := exampleBatchBuffer 2 QueueThrottle.MEDIUM, surfaces := [] },
    { batchBuffer := exampleBatchBuffer 3 QueueThrottle.MEDIUM, surfaces := [5] }]

/-- Receiver of the test
`givenGraphicsAllocationWithDifferentGpuAddressThenCpuAddressWhenSubmitIsCalledThenGpuAddressIsUsed`:
allocation 1 keeps its CPU pointer and gets the GPU address 1337. -/
def exampleGpuAddressReceiver : CommandStreamReceiver :=
  exampleReceiver.setCpuPtrAndGpuAddress 1 (exampleCpuPtr 1) 1337

/-- Batch buffer over allocation 1 that starts at offset 128, as in the test
`FlushWithOffset`. -/
def exampleOffsetBatchBuffer : BatchBuffer :=
  { commandBufferAllocation := 1
    startOffset := 128
    requiresCoherency := false
    throttle := QueueThrottle.MEDIUM
    usedSize := 192 }

/-- The receiver a call leaves behind, or the receiver itself when the call
failed. -/
def receiverAfter (csr : CommandStreamReceiver)
    (result : Except SubmissionError (FlushStamp × CommandStreamReceiver)) :
    CommandStreamReceiver :=
  match result with
  | Except.ok (_, next) => next
  | Except.error _ => csr

/-- The logical command buffers carried by a log of submits, oldest first. -/
def submittedCommandBuffers : List SubmitCall → List BatchBuffer
  | [] => []
  | submit :: rest => submit.commandBuffers ++ submittedCommandBuffers rest


/-! ## Buffer objects (`runtime/mem_obj/buffer.cpp`)

`Buffer::create` and its helpers are translated statement by statement.  What
the functions ask of collaborators outside `buffer.cpp` (memory manager, SVM
manager, special queue, debug flags, the buffer factory) is an input of the
model; what they do to them is recorded in the outcome. -/

/-- The null pointer; pointers are addresses. -/
def nullptr : Nat := 0

/-- OpenCL status code `CL_SUCCESS` (`CL/cl.h`). -/
def CL_SUCCESS : Int := 0

/-- OpenCL status code `CL_OUT_OF_RESOURCES` (`CL/cl.h`). -/
def CL_OUT_OF_RESOURCES : Int := -5

/-- OpenCL status code `CL_OUT_OF_HOST_MEMORY` (`CL/cl.h`). -/
def CL_OUT_OF_HOST_MEMORY : Int := -6

/-- OpenCL status code `CL_INVALID_VALUE` (`CL/cl.h`). -/
def CL_INVALID_VALUE : Int := -30

/-- OpenCL status code `CL_INVALID_CONTEXT` (`CL/cl.h`). -/
def CL_INVALID_CONTEXT : Int := -34

/-- OpenCL status code `CL_INVALID_HOST_PTR` (`CL/cl.h`). -/
def CL_INVALID_HOST_PTR : Int := -37

/-- OpenCL status code `CL_INVALID_BUFFER_SIZE` (`CL/cl.h`). -/
def CL_INVALID_BUFFER_SIZE : Int := -61

/-- Memory flag `CL_MEM_READ_WRITE` (`CL/cl.h`). -/
def CL_MEM_READ_WRITE : Nat := 1

/-- Memory flag `CL_MEM_WRITE_ONLY` (`CL/cl.h`). -/
def CL_MEM_WRITE_ONLY : Nat := 2

/-- Memory flag `CL_MEM_READ_ONLY` (`CL/cl.h`). -/
def CL_MEM_READ_ONLY : Nat := 4

/-- Memory flag `CL_MEM_USE_HOST_PTR` (`CL/cl.h`). -/
def CL_MEM_USE_HOST_PTR : Nat := 8

/-- Memory flag `CL_MEM_ALLOC_HOST_PTR` (`CL/cl.h`). -/
def CL_MEM_ALLOC_HOST_PTR : Nat := 16

/-- Memory flag `CL_MEM_COPY_HOST_PTR` (`CL/cl.h`). -/
def CL_MEM_COPY_HOST_PTR : Nat := 32

/-- Memory flag `CL_MEM_HOST_WRITE_ONLY` (`CL/cl.h`). -/
def CL_MEM_HOST_WRITE_ONLY : Nat := 128

/-- Memory flag `CL_MEM_HOST_READ_ONLY` (`CL/cl.h`). -/
def CL_MEM_HOST_READ_ONLY : Nat := 256

/-- Memory flag `CL_MEM_HOST_NO_ACCESS` (`CL/cl.h`). -/
def CL_MEM_HOST_NO_ACCESS : Nat := 512

/-- Vendor memory flag `CL_MEM_FORCE_SHARED_PHYSICAL_MEMORY_INTEL`, a single bit
above the standard flags. -/
def CL_MEM_FORCE_SHARED_PHYSICAL_MEMORY_INTEL : Nat := 1048576

/-- Truth value of the C expression `flags & mask`. -/
def hasFlag (flags mask : Nat) : Bool := (flags &&& mask) != 0

/-- The cache line size `MemoryConstants::cacheLineSize`. -/
def cacheLineSize : Nat := 64

/-- Modelled from the spec: `alignUp(before, alignment)` of
`helpers/aligned_memory.h`, which `buffer.cpp` includes: the value rounded up
to the next multiple of the (power of two) alignment, `(before + mask) & ~mask`
with `mask = alignment - 1`, in 64-bit arithmetic. -/
def alignUp (before alignment : Nat) : Nat :=
  (before + (alignment - 1)) % 2 ^ 64 / alignment * alignment

/-- Modelled from the spec: `ptrOffset(ptr, offset)` of `helpers/ptr_math.h`,
which `buffer.cpp` includes: the address `offset` bytes behind `ptr`, computed
on 64-bit addresses. -/
def ptrOffset (ptr offset : Nat) : Nat := (ptr + offset) % 2 ^ 64

/-- The `MemoryProperties` argument: `flags` and `flags_intel`. -/
structure MemoryProperties where
  flags : Nat
  flags_intel : Nat
  deriving DecidableEq

/-- The arguments `MemObjHelper::getAllocationProperties(flags_intel,
allocateMemory, size, allocationType)` packs into the allocation properties. -/
structure AllocationProperties where
  flags_intel : Nat
  allocateMemory : Bool
  size : Nat
  allocationType : AllocationType
  deriving DecidableEq

/-- One call of `memoryManager->allocateGraphicsMemoryInPreferredPool(
allocProperties, devices, hostPtr)`; `devices` is kept as the memory properties
`MemObjHelper::getDevicesBitfield` derives it from. -/
structure AllocationRequest where
  allocProperties : AllocationProperties
  devices : MemoryProperties
  hostPtr : Nat
  deriving DecidableEq

/-- The part of a host pointer fragment `checkMemory` reads:
`fragment->driverAllocation`. -/
structure FragmentStorage where
  driverAllocation : Bool
  deriving DecidableEq

/-- What `Buffer::create` asks of the memory manager.
`alignedMallocRestrictions` is `none` for a null `getAlignedMallocRestrictions()`
and the `minAddress` otherwise; `getFragment` is
`getHostPtrManager()->getFragment(hostPtr)`, `none` for a null fragment.  The
manager is stateful, so `allocateGraphicsMemoryInPreferredPool` gets the number
of allocation calls made before as its first argument; `none` is a null
allocation. -/
structure MemoryManager where
  isLocalMemorySupported : Bool
  alignedMallocRestrictions : Option Nat
  getFragment : Nat → Option FragmentStorage
  allocateGraphicsMemoryInPreferredPool : Nat → AllocationRequest → Option GraphicsAllocation

/-- What `Buffer::create` asks of the context.  `memoryManager` is `none` for a
null `getMemoryManager()`; `getSVMAlloc` is
`getSVMAllocsManager()->getSVMAlloc(hostPtr)`;
`renderCompressedBuffersSupported` is
`HwHelper::renderCompressedBuffersSupported(getDevice(0)->getHardwareInfo())`;
`enqueueWriteBuffer` is the status the blocking write on the special queue
returns. -/
structure Context where
  isSharedContext : Bool
  isProvidingPerformanceHints : Bool
  memoryManager : Option MemoryManager
  getSVMAlloc : Nat → Option GraphicsAllocation
  renderCompressedBuffersSupported : Bool
  enqueueWriteBuffer : Int
  numDevices : Nat

/-- The debug flags `buffer.cpp` reads from `DebugManager.flags`. -/
structure DebugFlags where
  DisableZeroCopyForUseHostPtr : Bool
  DisableZeroCopyForBuffers : Bool
  deriving DecidableEq

/-- Reference to a memory object, the value of a `MemObj *`. -/
abbrev ObjectRef := Nat

/-- The fields of a `Buffer` (most of them inherited from `MemObj`) that
`buffer.cpp` reads or writes.  `graphicsAllocation` stands for the pointer by
the allocation it points to; `createFunction` tells whether the pointer to the
factory function is set; `refInternal` is the internal reference count. -/
structure Buffer where
  context : Option Context
  flags : Nat
  size : Nat
  memoryStorage : Nat
  hostPtr : Nat
  graphicsAllocation : Option GraphicsAllocation
  isZeroCopy : Bool
  isHostPtrSVM : Bool
  isObjectRedescribed : Bool
  hostPtrMinSize : Nat
  associatedMemObject : Option ObjectRef
  offset : Nat
  sharingHandler : Option Nat
  parentSharingHandler : Option Nat
  refInternal : Nat
  createFunction : Bool

/-- The arguments of the buffer constructor and of the factory function
`createBufferFunction`. -/
structure BufferArgs where
  context : Option Context
  flags : Nat
  size : Nat
  memoryStorage : Nat
  hostPtr : Nat
  gfxAllocation : Option GraphicsAllocation
  zeroCopy : Bool
  isHostPtrSVM : Bool
  isImageRedescribed : Bool

/-- What `buffer.cpp` reads from its surroundings: the debug flags, the build
constant `is32bit`, the answer of `MemObjHelper::validateMemoryProperties`, and
whether the factory function of `bufferFactory` returns an object (it returns
a null pointer otherwise). -/
structure Environment where
  debugFlags : DebugFlags
  is32bit : Bool
  validateMemoryProperties : MemoryProperties → Bool
  funcCreate : BufferArgs → Bool

/-- Performance hints `buffer.cpp` gives to the context. -/
inductive PerformanceHint where
  | CL_BUFFER_MEETS_ALIGNMENT_RESTRICTIONS
  | CL_BUFFER_DOESNT_MEET_ALIGNMENT_RESTRICTIONS
  | CL_BUFFER_NEEDS_ALLOCATE_MEMORY
  | SUBBUFFER_SHARES_MEMORY
  deriving DecidableEq

/-- The copy of the initial contents `Buffer::create` performs:
`cmdQ->enqueueWriteBuffer(pBuffer, blocking, offset, size, ptr, ...)` or
`memcpy_s(dst, dstSize, src, count)`. -/
inductive HostPtrCopy where
  | enqueueWriteBuffer (blocking : Bool) (offset size ptr : Nat)
  | memcpy_s (dst dstSize src count : Nat)
  deriving DecidableEq

namespace Buffer

/-- The constructor `Buffer::Buffer(context, flags, size, memoryStorage, hostPtr,
gfxAllocation, zeroCopy, isHostPtrSVM, isObjectRedescribed)`: the arguments go
to the `MemObj` fields, `setHostPtrMinSize(size)` is called; a new object is
no sub-buffer, has offset 0, no factory function and one internal reference. -/
def new (args : BufferArgs) : Buffer :=
  { context := args.context
    flags := args.flags
    size := args.size
    memoryStorage := args.memoryStorage
    hostPtr := args.hostPtr
    graphicsAllocation := args.gfxAllocation
    isZeroCopy := args.zeroCopy
    isHostPtrSVM := args.isHostPtrSVM
    isObjectRedescribed := args.isImageRedescribed
    hostPtrMinSize := args.size
    associatedMemObject := none
    offset := 0
    sharingHandler := none
    parentSharingHandler := none
    refInternal := 1
    createFunction := false }

/-- `Buffer::isSubBuffer`: `return this->associatedMemObject != nullptr;`. -/
def isSubBuffer (this : Buffer) : Bool :=
  this.associatedMemObject.isSome

/-- Outputs of `Buffer::checkMemory`. -/
structure CheckMemoryResult where
  errcodeRet : Int
  alignementSatisfied : Bool
  copyMemoryFromHostPtr : Bool
  deriving DecidableEq

/-- `Buffer::checkMemory` (lines 284-333). -/
def checkMemory (flags size hostPtr : Nat) (memoryManager : MemoryManager) :
    CheckMemoryResult :=
  let start : CheckMemoryResult :=
    { errcodeRet := CL_SUCCESS, alignementSatisfied := true, copyMemoryFromHostPtr := false }
  let minAddress : Nat :=
    match memoryManager.alignedMallocRestrictions with
    | some restrictions => restrictions
    | none => 0
  if hostPtr ≠ nullptr ∧ hasFlag flags (CL_MEM_USE_HOST_PTR ||| CL_MEM_COPY_HOST_PTR) = false then
    { start with errcodeRet := CL_INVALID_HOST_PTR }
  else if hasFlag flags CL_MEM_USE_HOST_PTR = true ∧ hostPtr ≠ nullptr ∧
      (match memoryManager.getFragment hostPtr with
        | some fragment => fragment.driverAllocation
        | none => false) = true then
    { start with errcodeRet := CL_INVALID_HOST_PTR }
  else
    let afterUseHostPtr : CheckMemoryResult :=
      if hasFlag flags CL_MEM_USE_HOST_PTR = true then
        if hostPtr ≠ nullptr then
          if alignUp hostPtr cacheLineSize ≠ hostPtr ∨ alignUp size cacheLineSize ≠ size ∨
              minAddress > hostPtr then
            { start with alignementSatisfied := false, copyMemoryFromHostPtr := true }
          else start
        else { start with errcodeRet := CL_INVALID_HOST_PTR }
      else start
    if hasFlag flags CL_MEM_COPY_HOST_PTR = true then
      if hostPtr ≠ nullptr then { afterUseHostPtr with copyMemoryFromHostPtr := true }
      else { afterUseHostPtr with errcodeRet := CL_INVALID_HOST_PTR }
    else afterUseHostPtr

/-- `Buffer::getGraphicsAllocationType` (lines 335-355); `is32bit` is the build
constant. -/
def getGraphicsAllocationType (is32bit : Bool) (flags : Nat)
    (sharedContext renderCompressedBuffers isLocalMemoryEnabled : Bool) : AllocationType :=
  if is32bit = true then AllocationType.BUFFER_HOST_MEMORY
  else if sharedContext = true then AllocationType.BUFFER_HOST_MEMORY
  else if hasFlag flags CL_MEM_USE_HOST_PTR = true then
    if hasFlag flags CL_MEM_FORCE_SHARED_PHYSICAL_MEMORY_INTEL = true ∨
        isLocalMemoryEnabled = false then
      AllocationType.BUFFER_HOST_MEMORY
    else AllocationType.BUFFER
  else if renderCompressedBuffers = true then AllocationType.BUFFER_COMPRESSED
  else AllocationType.BUFFER

/-- `Buffer::isReadOnlyMemoryPermittedByFlags` (lines 357-363). -/
def isReadOnlyMemoryPermittedByFlags (flags : Nat) : Bool :=
  hasFlag flags (CL_MEM_HOST_NO_ACCESS ||| CL_MEM_HOST_READ_ONLY) &&
    hasFlag flags CL_MEM_READ_ONLY

/-- `Buffer::createBufferHw` (lines 460-481): the factory function of the render
core family builds the object, and a non-null result gets the factory function
as its `createFunction`.  `none` is the null pointer. -/
def createBufferHw (env : Environment) (args : BufferArgs) : Option Buffer :=
  if env.funcCreate args = true then some { Buffer.new args with createFunction := true }
  else none


/-- The local variables of `Buffer::create` that its branches assign. -/
structure CreateLocals where
  memory : Option GraphicsAllocation
  allocationType : AllocationType
  zeroCopyAllowed : Bool
  isHostPtrSVM : Bool
  allocateMemory : Bool
  copyMemoryFromHostPtr : Bool

/-- What a call of `Buffer::create` returns and does: the returned pointer
(`none` for `nullptr`), `errcodeRet`, the value of the local `memory` when the
function returned, and the calls made on the way, in order:
`allocateGraphicsMemoryInPreferredPool` requests, whether
`addAllocationToHostPtrManager` was called, the arguments `createBufferHw` was
called with, the copy of the initial contents, whether `pBuffer->release()`
was called, whether the allocation was taken from the host pointer manager
and freed, and the performance hints given. -/
structure CreateOutcome where
  buffer : Option Buffer
  errcodeRet : Int
  memory : Option GraphicsAllocation
  allocationRequests : List AllocationRequest
  addedToHostPtrManager : Bool
  createBufferHwCalls : List BufferArgs
  copy : Option HostPtrCopy
  released : Bool
  freedMemory : Bool
  performanceHints : List PerformanceHint

/-- Lines 120-139 of `Buffer::create`: the locals as initialised, with the
allocation type chosen and the copy request of `checkMemory`. -/
def createInitialLocals (env : Environment) (context : Context)
    (memoryManager : MemoryManager) (properties : MemoryProperties)
    (checked : CheckMemoryResult) : CreateLocals :=
  { memory := none
    allocationType :=
      getGraphicsAllocationType env.is32bit properties.flags context.isSharedContext
        context.renderCompressedBuffersSupported memoryManager.isLocalMemorySupported
    zeroCopyAllowed := true
    isHostPtrSVM := false
    allocateMemory := true
    copyMemoryFromHostPtr := checked.copyMemoryFromHostPtr }

/-- Lines 145-148 of `Buffer::create`: a compressed buffer is never zero copy. -/
def createSelectCompressed (l : CreateLocals) : CreateLocals :=
  if l.allocationType = AllocationType.BUFFER_COMPRESSED then
    { l with zeroCopyAllowed := false, allocateMemory := true }
  else l

/-- Lines 150-160 of `Buffer::create`: host memory with `CL_MEM_USE_HOST_PTR` is
used in place when the alignment is satisfied and copied otherwise. -/
def createSelectHostMemory (properties : MemoryProperties) (checked : CheckMemoryResult)
    (l : CreateLocals) : CreateLocals :=
  if l.allocationType = AllocationType.BUFFER_HOST_MEMORY then
    if hasFlag properties.flags CL_MEM_USE_HOST_PTR = true then
      if checked.alignementSatisfied = true then
        { l with allocateMemory := false, zeroCopyAllowed := true }
      else { l with zeroCopyAllowed := false, allocateMemory := true }
    else l
  else l

/-- Lines 162-176 of `Buffer::create`: the debug flag
`DisableZeroCopyForUseHostPtr` and the SVM allocation of the host pointer. -/
def createSelectUseHostPtr (env : Environment) (context : Context)
    (properties : MemoryProperties) (hostPtr : Nat) (l : CreateLocals) : CreateLocals :=
  if hasFlag properties.flags CL_MEM_USE_HOST_PTR = true then
    let debugged : CreateLocals :=
      if env.debugFlags.DisableZeroCopyForUseHostPtr = true then
        { l with zeroCopyAllowed := false, allocateMemory := true }
      else l
    match context.getSVMAlloc hostPtr with
    | some memory =>
      { debugged with
        memory := some memory
        allocationType := AllocationType.BUFFER_HOST_MEMORY
        isHostPtrSVM := true
        zeroCopyAllowed := true
        copyMemoryFromHostPtr := false
        allocateMemory := false }
    | none => debugged
  else l

/-- Lines 178-182 of `Buffer::create`: a shared context. -/
def createSelectSharedContext (context : Context) (l : CreateLocals) : CreateLocals :=
  if context.isSharedContext = true then
    { l with zeroCopyAllowed := true, copyMemoryFromHostPtr := false, allocateMemory := false }
  else l

/-- Lines 192-194 of `Buffer::create`: the debug flag `DisableZeroCopyForBuffers`. -/
def createSelectDebugFlag (env : Environment) (l : CreateLocals) : CreateLocals :=
  if env.debugFlags.DisableZeroCopyForBuffers = true then { l with zeroCopyAllowed := false }
  else l

/-- Lines 120-194 of `Buffer::create`, after `checkMemory` has passed: the
branches that settle `zeroCopyAllowed`, `allocateMemory`,
`copyMemoryFromHostPtr`, `isHostPtrSVM`, and an SVM allocation as `memory`, in
the order of the source. -/
def createSelectPath (env : Environment) (context : Context) (memoryManager : MemoryManager)
    (properties : MemoryProperties) (hostPtr : Nat) (checked : CheckMemoryResult) :
    CreateLocals :=
  createSelectDebugFlag env
    (createSelectSharedContext context
      (createSelectUseHostPtr env context properties hostPtr
        (createSelectHostMemory properties checked
          (createSelectCompressed
            (createInitialLocals env context memoryManager properties checked)))))

/-- The performance hints of lines 184-190 and 196-198 of `Buffer::create`.
The first is given before `DisableZeroCopyForBuffers` is applied, so it reads
`zeroCopyAllowed` as it was before; that flag changes no other local. -/
def createPerformanceHints (env : Environment) (context : Context)
    (memoryManager : MemoryManager) (properties : MemoryProperties) (hostPtr : Nat)
    (checked : CheckMemoryResult) : List PerformanceHint :=
  let withoutDebugFlag : CreateLocals :=
    createSelectPath
      { env with debugFlags := { env.debugFlags with DisableZeroCopyForBuffers := false } }
      context memoryManager properties hostPtr checked
  (if hostPtr ≠ nullptr ∧ context.isProvidingPerformanceHints = true then
    [if withoutDebugFlag.zeroCopyAllowed = true then
      PerformanceHint.CL_BUFFER_MEETS_ALIGNMENT_RESTRICTIONS
    else PerformanceHint.CL_BUFFER_DOESNT_MEET_ALIGNMENT_RESTRICTIONS]
  else []) ++
  (if withoutDebugFlag.allocateMemory = true ∧ context.isProvidingPerformanceHints = true then
    [PerformanceHint.CL_BUFFER_NEEDS_ALLOCATE_MEMORY]
  else [])

/-- Lines 200-204 of `Buffer::create`: without an SVM allocation the memory
manager is asked for memory in the preferred pool. -/
def createFirstRequest (properties : MemoryProperties) (size hostPtr : Nat)
    (l : CreateLocals) : AllocationRequest :=
  { allocProperties :=
      { flags_intel := properties.flags_intel
        allocateMemory := l.allocateMemory
        size := size
        allocationType := l.allocationType }
    devices := properties
    hostPtr := hostPtr }

/-- Lines 212-217 of `Buffer::create`: the request of the retry: type
`BUFFER_HOST_MEMORY`, `allocateMemory = true`, no host pointer. -/
def createRetryRequest (properties : MemoryProperties) (size : Nat) : AllocationRequest :=
  { allocProperties :=
      { flags_intel := properties.flags_intel
        allocateMemory := true
        size := size
        allocationType := AllocationType.BUFFER_HOST_MEMORY }
    devices := properties
    hostPtr := nullptr }

/-- Lines 200-218 of `Buffer::create`: obtaining `memory`.  The result carries
the locals, the requests made and whether
`addAllocationToHostPtrManager(memory)` was called (lines 206-208). -/
def createObtainMemory (memoryManager : MemoryManager) (properties : MemoryProperties)
    (size hostPtr : Nat) (l : CreateLocals) :
    CreateLocals × List AllocationRequest × Bool :=
  -- lines 200-204
  let requests1 : List AllocationRequest :=
    match l.memory with
    | none => [createFirstRequest properties size hostPtr l]
    | some _ => []
  let l1 : CreateLocals :=
    match l.memory with
    | none =>
      { l with
        memory :=
          memoryManager.allocateGraphicsMemoryInPreferredPool 0
            (createFirstRequest properties size hostPtr l) }
    | some _ => l
  -- lines 206-208
  let added : Bool :=
    match l1.memory with
    | some memory => l1.allocateMemory && memory.memoryPool.isSystemMemoryPool
    | none => false
  -- lines 210-218
  if hasFlag properties.flags CL_MEM_USE_HOST_PTR = true ∧ l1.memory.isNone = true ∧
      isReadOnlyMemoryPermittedByFlags properties.flags = true then
    ({ l1 with
        allocationType := AllocationType.BUFFER_HOST_MEMORY
        zeroCopyAllowed := false
        copyMemoryFromHostPtr := true
        memory :=
          memoryManager.allocateGraphicsMemoryInPreferredPool requests1.length
            (createRetryRequest properties size) },
      requests1 ++ [createRetryRequest properties size], added)
  else (l1, requests1, added)

/-- Lines 225-232 of `Buffer::create`: an allocation outside system memory
forbids zero copy and asks for a copy when there is a host pointer; in system
memory the type `BUFFER` becomes `BUFFER_HOST_MEMORY`. -/
def createAdjustToPool (hostPtr : Nat) (memory : GraphicsAllocation) (l : CreateLocals) :
    CreateLocals :=
  if memory.memoryPool.isSystemMemoryPool = false then
    { l with
      zeroCopyAllowed := false
      copyMemoryFromHostPtr := if hostPtr ≠ nullptr then true else l.copyMemoryFromHostPtr }
  else if l.allocationType = AllocationType.BUFFER then
    { l with allocationType := AllocationType.BUFFER_HOST_MEMORY }
  else l

/-- Lines 234-235 of `Buffer::create`: `memory->setAllocationType(allocationType)`
and `memory->setMemObjectsAllocationWithWritableFlags(!(flags &
(CL_MEM_READ_ONLY | CL_MEM_HOST_READ_ONLY | CL_MEM_HOST_NO_ACCESS)))`. -/
def createTagMemory (flags : Nat) (memory : GraphicsAllocation) (l : CreateLocals) :
    GraphicsAllocation :=
  { memory with
    allocationType := l.allocationType
    memObjectsAllocationWithWritableFlags :=
      !hasFlag flags (CL_MEM_READ_ONLY ||| CL_MEM_HOST_READ_ONLY ||| CL_MEM_HOST_NO_ACCESS) }

/-- Whether line 258 of `Buffer::create` sends the copy through the special
queue: `(memory->gmm && memory->gmm->isRenderCompressed) ||
!MemoryPool::isSystemMemoryPool(memory->getMemoryPool())`. -/
def copyNeedsQueue (memory : GraphicsAllocation) : Bool :=
  (match memory.gmm with
    | some gmm => gmm.isRenderCompressed
    | none => false) || !memory.memoryPool.isSystemMemoryPool

/-- Lines 257-266 of `Buffer::create`: the copy of the initial contents, if one
is due. -/
def createCopy (size hostPtr : Nat) (memory : GraphicsAllocation) (l : CreateLocals) :
    Option HostPtrCopy :=
  if l.copyMemoryFromHostPtr = true then
    if copyNeedsQueue memory = true then
      some (HostPtrCopy.enqueueWriteBuffer true 0 size hostPtr)
    else some (HostPtrCopy.memcpy_s memory.cpuPtr size hostPtr size)
  else none

/-- The status lines 257-266 of `Buffer::create` leave in `errcodeRet`: a write
through the special queue that does not return `CL_SUCCESS` gives
`CL_OUT_OF_RESOURCES`; the result of `memcpy_s` is not looked at. -/
def createCopyStatus (context : Context) (copy : Option HostPtrCopy) : Int :=
  match copy with
  | some (HostPtrCopy.enqueueWriteBuffer _ _ _ _) =>
    if CL_SUCCESS ≠ context.enqueueWriteBuffer then CL_OUT_OF_RESOURCES else CL_SUCCESS
  | _ => CL_SUCCESS

/-- The arguments of the `createBufferHw` call of lines 239-247 of
`Buffer::create`. -/
def createBufferHwArgs (context : Context) (properties : MemoryProperties)
    (size hostPtr : Nat) (memory : GraphicsAllocation) (l : CreateLocals) : BufferArgs :=
  { context := some context
    flags := properties.flags
    size := size
    memoryStorage := memory.cpuPtr
    hostPtr := hostPtr
    gfxAllocation := some memory
    zeroCopy := l.zeroCopyAllowed
    isHostPtrSVM := l.isHostPtrSVM
    isImageRedescribed := false }

/-- Lines 225-273 of `Buffer::create`, reached with a non-null `memory`:
adjusting to the memory pool, tagging the allocation, creating the object,
copying the initial contents and returning. -/
def createFinish (env : Environment) (context : Context) (properties : MemoryProperties)
    (size hostPtr : Nat) (memory : GraphicsAllocation)
    (obtained : CreateLocals × List AllocationRequest × Bool)
    (hints : List PerformanceHint) : CreateOutcome :=
  let l := createAdjustToPool hostPtr memory obtained.1
  let tagged := createTagMemory properties.flags memory l
  let args := createBufferHwArgs context properties size hostPtr tagged l
  match createBufferHw env args with
  | none =>
    -- lines 248-253
    { buffer := none
      errcodeRet := CL_OUT_OF_HOST_MEMORY
      memory := some tagged
      allocationRequests := obtained.2.1
      addedToHostPtrManager := obtained.2.2
      createBufferHwCalls := [args]
      copy := none
      released := false
      freedMemory := true
      performanceHints := hints }
  | some created =>
    -- lines 255-266
    let copy := createCopy size hostPtr tagged l
    -- lines 268-273
    if createCopyStatus context copy ≠ CL_SUCCESS then
      { buffer := none
        errcodeRet := createCopyStatus context copy
        memory := some tagged
        allocationRequests := obtained.2.1
        addedToHostPtrManager := obtained.2.2
        createBufferHwCalls := [args]
        copy := copy
        released := true
        freedMemory := false
        performanceHints := hints }
    else
      { buffer := some { created with hostPtrMinSize := size }
        errcodeRet := createCopyStatus context copy
        memory := some tagged
        allocationRequests := obtained.2.1
        addedToHostPtrManager := obtained.2.2
        createBufferHwCalls := [args]
        copy := copy
        released := false
        freedMemory := false
        performanceHints := hints }

/-- `Buffer::create(context, properties, size, hostPtr, errcodeRet)` (lines
115-274).  The result is `none` when `UNRECOVERABLE_IF(!memoryManager)` stops
the program. -/
def create (env : Environment) (context : Context) (properties : MemoryProperties)
    (size hostPtr : Nat) : Option CreateOutcome :=
  match context.memoryManager with
  | none => none
  | some memoryManager =>
    let checked := checkMemory properties.flags size hostPtr memoryManager
    -- lines 141-143
    if checked.errcodeRet ≠ CL_SUCCESS then
      some
        { buffer := none
          errcodeRet := checked.errcodeRet
          memory := none
          allocationRequests := []
          addedToHostPtrManager := false
          createBufferHwCalls := []
          copy := none
          released := false
          freedMemory := false
          performanceHints := [] }
    else
      let selected := createSelectPath env context memoryManager properties hostPtr checked
      let hints := createPerformanceHints env context memoryManager properties hostPtr checked
      let obtained := createObtainMemory memoryManager properties size hostPtr selected
      match obtained.1.memory with
      | none =>
        -- lines 220-223
        some
          { buffer := none
            errcodeRet := CL_OUT_OF_HOST_MEMORY
            memory := none
            allocationRequests := obtained.2.1
            addedToHostPtrManager := obtained.2.2
            createBufferHwCalls := []
            copy := none
            released := false
            freedMemory := false
            performanceHints := hints }
      | some memory =>
        some (createFinish env context properties size hostPtr memory obtained hints)

/-- An API handle `cl_context` as `validateObjects(WithCastToInternal(context,
&pContext))` sees it: the status the validation returns and the object the
cast yields (`none` for a null `pContext`). -/
structure ContextHandle where
  validateObjects : Int
  pContext : Option Context

/-- What `Buffer::validateInputAndCreateBuffer` leaves in its reference
arguments `retVal` and `buffer`, and the outcome of the `Buffer::create` call
when it made one. -/
structure ValidateOutcome where
  retVal : Int
  buffer : Option Buffer
  created : Option CreateOutcome

/-- `Buffer::validateInputAndCreateBuffer` (lines 72-103).  `buffer` is the value
the output handle has on entry.  The result is `none` when the program stops
(in `Buffer::create`, or at a null `pContext` that passed validation). -/
def validateInputAndCreateBuffer (env : Environment) (context : ContextHandle)
    (properties : MemoryProperties) (size hostPtr : Nat) (buffer : Option Buffer) :
    Option ValidateOutcome :=
  if size = 0 then
    some { retVal := CL_INVALID_BUFFER_SIZE, buffer := buffer, created := none }
  else if env.validateMemoryProperties properties = false then
    some { retVal := CL_INVALID_VALUE, buffer := buffer, created := none }
  else
    let expectHostPtr : Bool :=
      hasFlag properties.flags (CL_MEM_COPY_HOST_PTR ||| CL_MEM_USE_HOST_PTR)
    if decide (hostPtr = nullptr) = expectHostPtr then
      some { retVal := CL_INVALID_HOST_PTR, buffer := buffer, created := none }
    else if context.validateObjects ≠ CL_SUCCESS then
      some { retVal := context.validateObjects, buffer := buffer, created := none }
    else
      match context.pContext with
      | none => none
      | some pContext =>
        match create env pContext properties size hostPtr with
        | none => none
        | some outcome =>
          some
            { retVal := outcome.errcodeRet
              buffer := outcome.buffer
              created := some outcome }

/-- The `cl_buffer_region` argument of `createSubBuffer`. -/
structure BufferRegion where
  origin : Nat
  size : Nat
  deriving DecidableEq

/-- What `Buffer::createSubBuffer` returns and does: the sub-buffer, the parent
as the call leaves it, `errcodeRet` and the performance hints given. -/
structure SubBufferOutcome where
  buffer : Buffer
  parent : Buffer
  errcodeRet : Int
  performanceHints : List PerformanceHint

/-- The arguments `Buffer::createSubBuffer` passes to `createFunction` (lines
369-373). -/
def createSubBufferArgs (this : Buffer) (flags : Nat) (region : BufferRegion) : BufferArgs :=
  { context := this.context
    flags := flags
    size := region.size
    memoryStorage := ptrOffset this.memoryStorage region.origin
    hostPtr := if this.hostPtr ≠ nullptr then ptrOffset this.hostPtr region.origin else nullptr
    gfxAllocation := this.graphicsAllocation
    zeroCopy := this.isZeroCopy
    isHostPtrSVM := this.isHostPtrSVM
    isImageRedescribed := false }

/-- `Buffer::createSubBuffer(flags, region, errcodeRet)` (lines 365-386) on the
buffer `this`, which `self` refers to.  The result is `none` when the program
stops: at a null `createFunction`, at a null object returned by it, or at a
null context. -/
def createSubBuffer (env : Environment) (self : ObjectRef) (this : Buffer) (flags : Nat)
    (region : BufferRegion) : Option SubBufferOutcome :=
  if this.createFunction = false then none
  else if env.funcCreate (createSubBufferArgs this flags region) = false then none
  else
    match this.context with
    | none => none
    | some context =>
      some
        { buffer :=
            { Buffer.new (createSubBufferArgs this flags region) with
              associatedMemObject := some self
              offset := region.origin
              parentSharingHandler := this.sharingHandler }
          parent := { this with refInternal := this.refInternal + 1 }
          errcodeRet := CL_SUCCESS
          performanceHints :=
            if context.isProvidingPerformanceHints = true then
              [PerformanceHint.SUBBUFFER_SHARES_MEMORY]
            else [] }

/-- The loop of `Buffer::isValidSubBufferOffset` (lines 63-68) from device index
`i` on; `remaining` bounds the iterations that are left. -/
def isValidSubBufferOffsetFrom (numDevices offset : Nat) : Nat → Nat → Bool
  | 0, _ => false
  | remaining + 1, i =>
    if i < numDevices then
      let address_align : Nat := 32
      if offset &&& (address_align / 8 - 1) = 0 then true
      else isValidSubBufferOffsetFrom numDevices offset remaining (i + 1)
    else false

/-- `Buffer::isValidSubBufferOffset(offset)` (lines 62-70).  The result is `none`
when the buffer has no context to ask for its devices. -/
def isValidSubBufferOffset (this : Buffer) (offset : Nat) : Option Bool :=
  match this.context with
  | none => none
  | some context =>
    some (isValidSubBufferOffsetFrom context.numDevices offset context.numDevices 0)

end Buffer

/-! ### Rectangular regions

`size_t` is 64 bits wide: sums, differences and products wrap at `2 ^ 64`, and
`%` by zero has no result. -/

/-- Sum of two `size_t` values. -/
def sizeAdd (a b : Nat) : Nat := (a + b) % 2 ^ 64

/-- Difference of two `size_t` values. -/
def sizeSub (a b : Nat) : Nat := (a + (2 ^ 64 - b % 2 ^ 64)) % 2 ^ 64

/-- Product of two `size_t` values. -/
def sizeMul (a b : Nat) : Nat := (a * b) % 2 ^ 64

/-- Remainder of two `size_t` values; `none` for the divisor 0. -/
def sizeMod (a b : Nat) : Option Nat := if b = 0 then none else some (a % b)

/-- The four pitches `Buffer::bufferRectPitchSet` takes by reference. -/
structure RectPitches where
  bufferRowPitch : Nat
  bufferSlicePitch : Nat
  hostRowPitch : Nat
  hostSlicePitch : Nat
  deriving DecidableEq

namespace Buffer

/-- Lines 405-413 of `Buffer::bufferRectPitchSet`: a pitch of 0 is replaced by the
tightly packed one. -/
def bufferRectPitchDefaults (region : Nat → Nat) (pitches : RectPitches) : RectPitches :=
  let bufferRowPitch := if pitches.bufferRowPitch = 0 then region 0 else pitches.bufferRowPitch
  let bufferSlicePitch :=
    if pitches.bufferSlicePitch = 0 then sizeMul (region 1) bufferRowPitch
    else pitches.bufferSlicePitch
  let hostRowPitch := if pitches.hostRowPitch = 0 then region 0 else pitches.hostRowPitch
  let hostSlicePitch :=
    if pitches.hostSlicePitch = 0 then sizeMul (region 1) hostRowPitch
    else pitches.hostSlicePitch
  { bufferRowPitch := bufferRowPitch
    bufferSlicePitch := bufferSlicePitch
    hostRowPitch := hostRowPitch
    hostSlicePitch := hostSlicePitch }

/-- Lines 415-427 of `Buffer::bufferRectPitchSet`, on the pitches as set.  The
operands of `||` are evaluated from left to right and only as far as needed;
`none` when a `%` is evaluated with the divisor 0. -/
def bufferRectPitchCheck (this : Buffer) (bufferOrigin region : Nat → Nat)
    (pitches : RectPitches) : Option Bool :=
  if pitches.bufferRowPitch < region 0 ∨ pitches.hostRowPitch < region 0 then some false
  else if pitches.bufferSlicePitch < sizeMul (region 1) pitches.bufferRowPitch then some false
  else
    match sizeMod pitches.bufferSlicePitch pitches.bufferRowPitch with
    | none => none
    | some bufferRemainder =>
      if bufferRemainder ≠ 0 then some false
      else if pitches.hostSlicePitch < sizeMul (region 1) pitches.hostRowPitch then some false
      else
        match sizeMod pitches.hostSlicePitch pitches.hostRowPitch with
        | none => none
        | some hostRemainder =>
          if hostRemainder ≠ 0 then some false
          else if
            sizeAdd
              (sizeAdd
                (sizeAdd
                  (sizeMul (sizeSub (sizeAdd (bufferOrigin 2) (region 2)) 1)
                    pitches.bufferSlicePitch)
                  (sizeMul (sizeSub (sizeAdd (bufferOrigin 1) (region 1)) 1)
                    pitches.bufferRowPitch))
                (bufferOrigin 0))
              (region 0) > this.size
          then some false
          else some true

/-- `Buffer::bufferRectPitchSet(bufferOrigin, region, bufferRowPitch,
bufferSlicePitch, hostRowPitch, hostSlicePitch)` (lines 399-428).  The arrays
are given by their elements, `bufferOrigin i` for `bufferOrigin[i]`; the result
is the value returned together with the pitches as the call leaves them, and
`none` when a `%` is evaluated with the divisor 0. -/
def bufferRectPitchSet (this : Buffer) (bufferOrigin region : Nat → Nat)
    (pitches : RectPitches) : Option (Bool × RectPitches) :=
  match bufferRectPitchCheck this bufferOrigin region (bufferRectPitchDefaults region pitches) with
  | none => none
  | some result => some (result, bufferRectPitchDefaults region pitches)

/-- `Buffer::calculateHostPtrSize(origin, region, rowPitch, slicePitch)` (lines
445-450). -/
def calculateHostPtrSize (origin region : Nat → Nat) (rowPitch slicePitch : Nat) : Nat :=
  let hostPtrOffsetInBytes :=
    sizeAdd (sizeAdd (sizeMul (origin 2) slicePitch) (sizeMul (origin 1) rowPitch)) (origin 0)
  let hostPtrRegionSizeInbytes :=
    sizeAdd (sizeAdd (region 0) (sizeMul rowPitch (sizeSub (region 1) 1)))
      (sizeMul slicePitch (sizeSub (region 2) 1))
  let hostPtrSize := sizeAdd hostPtrOffsetInBytes hostPtrRegionSizeInbytes
  hostPtrSize

/-- The extent the claim about the bounds check speaks of, as an exact integer:
`(bufferOrigin[2] + region[2] - 1) * bufferSlicePitch + (bufferOrigin[1] +
region[1] - 1) * bufferRowPitch + bufferOrigin[0] + region[0]`. -/
def rectExtentExact (bufferOrigin region : Nat → Nat) (rowPitch slicePitch : Nat) : Int :=
  ((bufferOrigin 2 : Int) + region 2 - 1) * slicePitch
    + ((bufferOrigin 1 : Int) + region 1 - 1) * rowPitch + bufferOrigin 0 + region 0

/-- The same extent in `size_t` arithmetic. -/
def rectExtentWrapped (bufferOrigin region : Nat → Nat) (rowPitch slicePitch : Nat) : Nat :=
  sizeAdd
    (sizeAdd
      (sizeAdd (sizeMul (sizeSub (sizeAdd (bufferOrigin 2) (region 2)) 1) slicePitch)
        (sizeMul (sizeSub (sizeAdd (bufferOrigin 1) (region 1)) 1) rowPitch))
      (bufferOrigin 0))
    (region 0)

end Buffer

/-! ## Timestamp packet containers (`runtime/helpers/timestamp_packet.cpp`)

A container holds pointers to tag nodes.  The nodes and their allocator live
outside the file; what the container does to them is recorded in the state. -/

/-- A `TimestampPacketContainer::Node *`, the address of a tag node. -/
abbrev Node := Nat

/-- Reference to a `TimestampPacketContainer` object. -/
abbrev ContainerRef := Nat

/-- The objects `timestamp_packet.cpp` works on: the node list
`timestampPacketNodes` of every container; for every node the answer of
`node->tag->canBeReleased()` (read from the tag, which the functions of the
file do not write) and its reference count; and, in order, the nodes
`returnTag()` and `incRefCount()` were called on. -/
structure TimestampPacketState where
  timestampPacketNodes : ContainerRef → List Node
  canBeReleased : Node → Bool
  refCount : Node → Nat
  returnTagCalls : List Node
  incRefCountCalls : List Node

namespace TimestampPacketContainer

/-- `TimestampPacketContainer::peekNodes` of the container `this`. -/
def peekNodes (this : ContainerRef) (state : TimestampPacketState) : List Node :=
  state.timestampPacketNodes this

/-- Assignment to `timestampPacketNodes` of the container `this`. -/
def setNodes (this : ContainerRef) (nodes : List Node) (state : TimestampPacketState) :
    TimestampPacketState :=
  { state with
    timestampPacketNodes := fun other =>
      if other = this then nodes else state.timestampPacketNodes other }

/-- `TimestampPacketContainer::add(timestampPacketNode)` (lines 17-19). -/
def add (this : ContainerRef) (timestampPacketNode : Node) (state : TimestampPacketState) :
    TimestampPacketState :=
  setNodes this (state.timestampPacketNodes this ++ [timestampPacketNode]) state

/-- Modelled from the spec: `node->returnTag()` of `utilities/tag_allocator.h`,
which the file includes and which is not among the sources at hand.  The call
is recorded; what the allocator does with the tag is left out. -/
def returnTag (node : Node) (state : TimestampPacketState) : TimestampPacketState :=
  { state with returnTagCalls := state.returnTagCalls ++ [node] }

/-- Modelled from the spec: `node->incRefCount()` of `utilities/tag_allocator.h`,
which the file includes and which is not among the sources at hand.  The call
is recorded and the reference count of the node grows by one. -/
def incRefCount (node : Node) (state : TimestampPacketState) : TimestampPacketState :=
  { state with
    refCount := fun other => if other = node then state.refCount other + 1
      else state.refCount other
    incRefCountCalls := state.incRefCountCalls ++ [node] }

/-- The loop of `TimestampPacketContainer::resolveDependencies` (lines 34-40) over
the nodes that are left, with `pendingNodes` as built so far. -/
def resolveDependenciesLoop (clearAllDependencies : Bool) :
    List Node → List Node → TimestampPacketState → List Node × TimestampPacketState
  | [], pendingNodes, state => (pendingNodes, state)
  | node :: rest, pendingNodes, state =>
    if (state.canBeReleased node || clearAllDependencies) = true then
      resolveDependenciesLoop clearAllDependencies rest pendingNodes (returnTag node state)
    else
      resolveDependenciesLoop clearAllDependencies rest (pendingNodes ++ [node]) state

/-- `TimestampPacketContainer::resolveDependencies(clearAllDependencies)` (lines
31-43) on the container `this`. -/
def resolveDependencies (this : ContainerRef) (clearAllDependencies : Bool)
    (state : TimestampPacketState) : TimestampPacketState :=
  let looped :=
    resolveDependenciesLoop clearAllDependencies (state.timestampPacketNodes this) [] state
  setNodes this looped.1 looped.2

/-- The loop of lines 49-51 of
`TimestampPacketContainer::assignAndIncrementNodesRefCounts`. -/
def incrementNodesRefCounts : List Node → TimestampPacketState → TimestampPacketState
  | [], state => state
  | node :: rest, state => incrementNodesRefCounts rest (incRefCount node state)

/-- `TimestampPacketContainer::assignAndIncrementNodesRefCounts(
inputTimestampPacketContainer)` (lines 45-52) on the container `this`.  The
result is `none` when the input is the container itself: `std::copy` then
appends to the vector it reads from, which is undefined. -/
def assignAndIncrementNodesRefCounts (this inputTimestampPacketContainer : ContainerRef)
    (state : TimestampPacketState) : Option TimestampPacketState :=
  if this = inputTimestampPacketContainer then none
  else
    let inputNodes := peekNodes inputTimestampPacketContainer state
    let copied := setNodes this (state.timestampPacketNodes this ++ inputNodes) state
    some (incrementNodesRefCounts inputNodes copied)

end TimestampPacketContainer

/-! ## Fixtures of the buffer and timestamp packet examples -/

/-- Surroundings of the buffer examples: no debug flag set, a 64-bit build,
memory properties that validate, a factory function that returns an object. -/
def exampleEnvironment : Environment :=
  { debugFlags := { DisableZeroCopyForUseHostPtr := false, DisableZeroCopyForBuffers := false }
    is32bit := false
    validateMemoryProperties := fun _ => true
    funcCreate := fun _ => true }

/-- An allocation in system memory, not compressed. -/
def exampleSystemAllocation : GraphicsAllocation :=
  { GraphicsAllocation.create 65536 16777216 with memoryPool := MemoryPool.SystemMemory }

/-- An allocation in local memory. -/
def exampleLocalAllocation : GraphicsAllocation :=
  { GraphicsAllocation.create 131072 0 with memoryPool := MemoryPool.LocalMemory }

/-- A memory manager that answers every request with the same allocation. -/
def exampleMemoryManager (answer : Option GraphicsAllocation) : MemoryManager :=
  { isLocalMemorySupported := false
    alignedMallocRestrictions := none
    getFragment := fun _ => none
    allocateGraphicsMemoryInPreferredPool := fun _ _ => answer }

/-- A context over the given memory manager: not shared, no performance hints,
no SVM allocations; `enqueueWriteBuffer` is the status of the special queue. -/
def exampleContext (memoryManager : MemoryManager) (enqueueWriteBuffer : Int) : Context :=
  { isSharedContext := false
    isProvidingPerformanceHints := false
    memoryManager := some memoryManager
    getSVMAlloc := fun _ => none
    renderCompressedBuffersSupported := false
    enqueueWriteBuffer := enqueueWriteBuffer
    numDevices := 1 }

/-- A parent buffer of 4096 bytes at storage address 16777216 with host pointer
8192, created through `createBufferHw`. -/
def exampleParentBuffer : Buffer :=
  { Buffer.new
      { context := some (exampleContext (exampleMemoryManager (some exampleSystemAllocation)) 0)
        flags := CL_MEM_READ_WRITE ||| CL_MEM_USE_HOST_PTR
        size := 4096
        memoryStorage := 16777216
        hostPtr := 8192
        gfxAllocation := some exampleSystemAllocation
        zeroCopy := true
        isHostPtrSVM := false
        isImageRedescribed := false } with
    createFunction := true }


/-- The example surroundings with the debug flags `DisableZeroCopyForUseHostPtr`
and `DisableZeroCopyForBuffers` as given. -/
def exampleDebugEnvironment (disableZeroCopyForUseHostPtr disableZeroCopyForBuffers : Bool) :
    Environment :=
  { exampleEnvironment with
    debugFlags :=
      { DisableZeroCopyForUseHostPtr := disableZeroCopyForUseHostPtr
        DisableZeroCopyForBuffers := disableZeroCopyForBuffers } }

/-- A context in which every host pointer belongs to an SVM allocation in system
memory; its memory manager has no memory left. -/
def exampleSvmContext : Context :=
  { exampleContext (exampleMemoryManager none) 0 with
    getSVMAlloc := fun _ => some exampleSystemAllocation }

/-- A shared context over a memory manager that answers with system memory. -/
def exampleSharedContext : Context :=
  { exampleContext (exampleMemoryManager (some exampleSystemAllocation)) 0 with
    isSharedContext := true }


/-- The array `{x, y, z}` of three `size_t` values, by its elements. -/
def sizeArray (x y z : Nat) : Nat → Nat := fun i =>
  match i with
  | 0 => x
  | 1 => y
  | _ => z

/-- Pitches that are all 0, to be replaced by the tightly packed ones. -/
def examplePitchesUnset : RectPitches :=
  { bufferRowPitch := 0, bufferSlicePitch := 0, hostRowPitch := 0, hostSlicePitch := 0 }


/-- Two timestamp packet containers: container 1 holds the nodes 10, 11, 12, 11 and
container 2 the nodes 20, 11; only the tag of node 11 can be released; every
node has one reference; no calls were made yet. -/
def exampleTimestampPacketState : TimestampPacketState :=
  { timestampPacketNodes := fun container =>
      if container = 1 then [10, 11, 12, 11] else if container = 2 then [20, 11] else []
    canBeReleased := fun node => node == 11
    refCount := fun _ => 1
    returnTagCalls := []
    incRefCountCalls := [] }


/-! ## Theorems -/

namespace CommandStreamReceiver

/-- Storing a trim-candidate position changes nothing but that position. -/
theorem setTrimCandidateListPosition_frame (csr : CommandStreamReceiver) (a : AllocId)
    (position : Option Nat) :
    csr.setTrimCandidateListPosition a position =
      { csr with allocations := (csr.setTrimCandidateListPosition a position).allocations } ∧
    ∀ x, (csr.setTrimCandidateListPosition a position).allocations x =
      { csr.allocations x with
        trimCandidateListPosition :=
          ((csr.setTrimCandidateListPosition a position).allocations
            x).trimCandidateListPosition } := by
  refine ⟨rfl, ?_⟩
  intro x
  unfold setTrimCandidateListPosition setAllocation
  simp only []
  split
  · rename_i hx
    rw [hx]
  · rfl

/-- Removal from the trim-candidate list changes nothing but the list and the
stored positions. -/
theorem removeFromTrimCandidateList_frame (csr : CommandStreamReceiver) (a : AllocId) :
    csr.removeFromTrimCandidateList a =
      { csr with
        trimCandidateList := (csr.removeFromTrimCandidateList a).trimCandidateList
        allocations := (csr.removeFromTrimCandidateList a).allocations } ∧
    ∀ x, (csr.removeFromTrimCandidateList a).allocations x =
      { csr.allocations x with
        trimCandidateListPosition :=
          ((csr.removeFromTrimCandidateList a).allocations x).trimCandidateListPosition } := by
  unfold removeFromTrimCandidateList
  cases csr.getTrimCandidateListPosition a with
  | none => exact ⟨rfl, fun _ => rfl⟩
  | some position =>
    cases csr.trimCandidateList.getLast? with
    | none => exact ⟨rfl, fun _ => rfl⟩
    | some tail =>
      refine ⟨rfl, ?_⟩
      intro x
      simp only []
      rw [(setTrimCandidateListPosition_frame _ a trimListUnusedPosition).2 x,
        (setTrimCandidateListPosition_frame _ tail (some position)).2 x]

/-- Making an allocation resident changes nothing but the residency container,
the trim-candidate list and the stored positions. -/
theorem makeResident_frame (csr : CommandStreamReceiver) (a : AllocId) :
    csr.makeResident a =
      { csr with
        residencyAllocations := (csr.makeResident a).residencyAllocations
        trimCandidateList := (csr.makeResident a).trimCandidateList
        allocations := (csr.makeResident a).allocations } ∧
    ∀ x, (csr.makeResident a).allocations x =
      { csr.allocations x with
        trimCandidateListPosition :=
          ((csr.makeResident a).allocations x).trimCandidateListPosition } := by
  obtain ⟨hframe, hallocations⟩ := removeFromTrimCandidateList_frame csr a
  unfold makeResident
  split
  · constructor
    · rw [hframe]
    · exact hallocations
  · constructor
    · simp only []
      rw [hframe]
    · exact hallocations

/-- The bulk residency pass changes nothing but the residency container, the
trim-candidate list and the stored positions. -/
theorem processResidency_frame (c : List AllocId) (csr : CommandStreamReceiver) :
    csr.processResidency c =
      { csr with
        residencyAllocations := (csr.processResidency c).residencyAllocations
        trimCandidateList := (csr.processResidency c).trimCandidateList
        allocations := (csr.processResidency c).allocations } ∧
    ∀ x, (csr.processResidency c).allocations x =
      { csr.allocations x with
        trimCandidateListPosition :=
          ((csr.processResidency c).allocations x).trimCandidateListPosition } := by
  induction c generalizing csr with
  | nil => exact ⟨rfl, fun _ => rfl⟩
  | cons a rest ih =>
    have hstep : csr.processResidency (a :: rest) = (csr.makeResident a).processResidency rest := rfl
    obtain ⟨hframe, hallocations⟩ := makeResident_frame csr a
    obtain ⟨hrest, hrestAllocations⟩ := ih (csr.makeResident a)
    rw [hstep]
    constructor
    · rw [hrest, hframe]
    · intro x
      rw [hrestAllocations x, hallocations x]

/-- Stamping a list of allocations changes nothing but the allocations. -/
theorem stamp_frame (l : List AllocId) (fence : Nat) (csr : CommandStreamReceiver) :
    l.foldl (fun c a => c.updateTaskCount a fence) csr =
      { csr with
        allocations := (l.foldl (fun c a => c.updateTaskCount a fence) csr).allocations } := by
  induction l generalizing csr with
  | nil => rfl
  | cons a rest ih =>
    rw [List.foldl_cons, ih (csr.updateTaskCount a fence)]
    rfl

/-- What a submission the driver accepts returns and leaves behind: the stamp is
the successor of the last submitted fence, which it replaces, and the log of
submits grows by the one call built from the patched header. -/
theorem submitCommandBuffers_ok (csr : CommandStreamReceiver) (primary : BatchBuffer)
    (carried : List BatchBuffer) (c : List AllocId) (kmdAccepts : Bool) (stamp : Nat)
    (next : CommandStreamReceiver)
    (h : csr.submitCommandBuffers primary carried c kmdAccepts = Except.ok (stamp, next)) :
    kmdAccepts = true ∧
    stamp = csr.monitoredFence.lastSubmittedFence + 1 ∧
    next.monitoredFence.lastSubmittedFence = stamp ∧
    next.monitoredFence.lastCompletedFence = csr.monitoredFence.lastCompletedFence ∧
    next.commandBuffers = csr.commandBuffers ∧
    next.dispatchMode = csr.dispatchMode ∧
    next.gtSysInfo = csr.gtSysInfo ∧
    next.submits = csr.submits ++
      [{ commandBufferSubmitted :=
           (csr.allocations primary.commandBufferAllocation).gpuAddress + primary.startOffset
         size := primary.usedSize
         commandHeaderSubmitted := csr.patchHeader primary
         commandBuffers := carried
         fence := stamp }] := by
  unfold submitCommandBuffers at h
  cases kmdAccepts with
  | false => simp at h
  | true =>
    simp only [if_true] at h
    injection h with h
    injection h with h1 h2
    subst h1 h2
    have hgpu : ((csr.processResidency c).allocations primary.commandBufferAllocation).gpuAddress
        = (csr.allocations primary.commandBufferAllocation).gpuAddress := by
      rw [(processResidency_frame c csr).2]
    rw [stamp_frame, (processResidency_frame c csr).1]
    refine ⟨rfl, rfl, ?_, ?_, ?_, ?_, ?_, ?_⟩
    · split <;> rfl
    · split <;> rfl
    · split <;> rfl
    · split <;> rfl
    · split <;> rfl
    · have hsubmits : ∀ r : CommandStreamReceiver,
          (if r.kmDafEnabled = true then r.kmDafLockAllocations c else r).submits = r.submits := by
        intro r
        split <;> rfl
      rw [hsubmits]
      show csr.submits ++ [_] = csr.submits ++ [_]
      congr 2
      show SubmitCall.mk _ _ _ _ _ = SubmitCall.mk _ _ _ _ _
      congr 1
      exact congrArg (fun v => v + primary.startOffset) hgpu

end CommandStreamReceiver


/-! ### Task counts -/

/-- A call whose value does not exceed the recorded task count is a no-op. -/
theorem updateTaskCount_of_not_lt (b : GraphicsAllocation) (contextId : ContextId) (v : Nat)
    (h : ¬ b.taskCount contextId < v) : b.updateTaskCount v contextId = b := by
  unfold GraphicsAllocation.updateTaskCount
  rw [if_neg h]

/-- C10: `updateTaskCount` is monotonic per context.  For every allocation,
context id and values `v2 < v1`, a call with `v2` after a call with `v1` is a
no-op, and no call ever lowers the task count recorded for the context. -/
theorem updateTaskCount_monotonic (a : GraphicsAllocation) (contextId : ContextId)
    (v1 v2 : Nat) (h : v2 < v1) :
    (a.updateTaskCount v1 contextId).updateTaskCount v2 contextId
        = a.updateTaskCount v1 contextId ∧
    (∀ (b : GraphicsAllocation) (v : Nat),
        b.getTaskCount contextId ≤ (b.updateTaskCount v contextId).getTaskCount contextId) := by
  constructor
  · have hge : v1 ≤ (a.updateTaskCount v1 contextId).taskCount contextId := by
      unfold GraphicsAllocation.updateTaskCount
      split
      · simp
      · omega
    exact updateTaskCount_of_not_lt _ contextId v2 (by omega)
  · intro b v
    unfold GraphicsAllocation.updateTaskCount GraphicsAllocation.getTaskCount
    split
    · simp only [if_true]; omega
    · exact Nat.le_refl _

/-- Witness of C10: task count 5 recorded, then a call with 2. -/
theorem updateTaskCount_monotonic_witness :
    ((GraphicsAllocation.create 4096 0).updateTaskCount 5 0).updateTaskCount 2 0
        = (GraphicsAllocation.create 4096 0).updateTaskCount 5 0 ∧
    (∀ (b : GraphicsAllocation) (v : Nat),
        b.getTaskCount 0 ≤ (b.updateTaskCount v 0).getTaskCount 0) :=
  updateTaskCount_monotonic (GraphicsAllocation.create 4096 0) 0 5 2 (by decide)

namespace CommandStreamReceiver

/-! ### Submission -/

/-- C7: throttle-to-header mapping.  For every receiver (hence every hardware
`SubSliceCount`), batch buffer and residency container, the header a
successful `flush` hands to the kernel-mode driver has
`UmdRequestedSubsliceCount` 1 for LOW, 0 for MEDIUM, and for HIGH the
`SubSliceCount` when it is at most 7 and 0 when it is larger. -/
theorem flush_throttle_header (csr : CommandStreamReceiver) (batchBuffer : BatchBuffer)
    (c : List AllocId) (kmdAccepts : Bool) (stamp : FlushStamp) (next : CommandStreamReceiver)
    (h : csr.flush batchBuffer c kmdAccepts = Except.ok (stamp, next)) :
    ∃ submit : SubmitCall, next.submits = csr.submits ++ [submit] ∧
      submit.commandHeaderSubmitted.UmdRequestedSubsliceCount =
        (match batchBuffer.throttle with
          | QueueThrottle.LOW => 1
          | QueueThrottle.MEDIUM => 0
          | QueueThrottle.HIGH =>
            if csr.gtSysInfo.SubSliceCount ≤ 7 then csr.gtSysInfo.SubSliceCount else 0) := by
  obtain ⟨_, _, _, _, _, _, _, hsub⟩ :=
    submitCommandBuffers_ok csr batchBuffer _ c kmdAccepts stamp next h
  refine ⟨_, hsub, ?_⟩
  cases ht : batchBuffer.throttle <;>
    simp [patchHeader, requestedSubsliceCount, ht, maxRequestedSubsliceCount]

/-- Witness of C7: HIGH throttle on the example device with six subslices. -/
theorem flush_throttle_header_witness :
    ∃ submit : SubmitCall,
      (receiverAfter exampleReceiver
        (exampleReceiver.flush (exampleBatchBuffer 1 QueueThrottle.HIGH) [] true)).submits
        = exampleReceiver.submits ++ [submit] ∧
      submit.commandHeaderSubmitted.UmdRequestedSubsliceCount = 6 :=
  flush_throttle_header exampleReceiver (exampleBatchBuffer 1 QueueThrottle.HIGH) [] true 1
    (receiverAfter exampleReceiver
      (exampleReceiver.flush (exampleBatchBuffer 1 QueueThrottle.HIGH) [] true)) rfl

/-- C8: every successful `flush` issues exactly one submit to the kernel-mode
driver, and the flush stamp it returns is the monitored fence's
`lastSubmittedFence` as it stands after the call. -/
theorem flush_submits_once_and_returns_lastSubmittedFence (csr : CommandStreamReceiver)
    (batchBuffer : BatchBuffer) (c : List AllocId) (kmdAccepts : Bool) (stamp : FlushStamp)
    (next : CommandStreamReceiver)
    (h : csr.flush batchBuffer c kmdAccepts = Except.ok (stamp, next)) :
    next.submits.length = csr.submits.length + 1 ∧
    stamp = next.monitoredFence.lastSubmittedFence := by
  obtain ⟨_, _, hlast, _, _, _, _, hsub⟩ := submitCommandBuffers_ok csr batchBuffer _ c kmdAccepts stamp next h
  constructor
  · rw [hsub]; simp
  · exact hlast.symm

/-- Witness of C8: the first flush of the example receiver, as in the test `Flush`. -/
theorem flush_submits_once_and_returns_lastSubmittedFence_witness :
    (receiverAfter exampleReceiver
      (exampleReceiver.flush (exampleBatchBuffer 1 QueueThrottle.MEDIUM) [] true)).submits.length
      = exampleReceiver.submits.length + 1 ∧
    1 = (receiverAfter exampleReceiver
      (exampleReceiver.flush (exampleBatchBuffer 1 QueueThrottle.MEDIUM) []
        true)).monitoredFence.lastSubmittedFence :=
  flush_submits_once_and_returns_lastSubmittedFence exampleReceiver
    (exampleBatchBuffer 1 QueueThrottle.MEDIUM) [] true 1
    (receiverAfter exampleReceiver
      (exampleReceiver.flush (exampleBatchBuffer 1 QueueThrottle.MEDIUM) [] true)) rfl

/-- Unfolding of `flushes` at a successful flush. -/
theorem flushes_cons_ok (csr next : CommandStreamReceiver) (r : FlushRequest)
    (rest : List FlushRequest) (stamp : FlushStamp)
    (h : csr.flush r.batchBuffer r.allocationsForResidency r.kmdAccepts = Except.ok (stamp, next)) :
    csr.flushes (r :: rest) = (stamp :: (next.flushes rest).1, (next.flushes rest).2) := by
  rw [flushes, h]

/-- Unfolding of `flushes` at a failed flush. -/
theorem flushes_cons_error (csr : CommandStreamReceiver) (r : FlushRequest)
    (rest : List FlushRequest) (e : SubmissionError)
    (h : csr.flush r.batchBuffer r.allocationsForResidency r.kmdAccepts = Except.error e) :
    csr.flushes (r :: rest) = csr.flushes rest := by
  rw [flushes, h]

/-- The stamps of successive flushes all exceed the fence submitted last before
them, and increase strictly from one to the next. -/
theorem flushes_stamps (requests : List FlushRequest) (csr : CommandStreamReceiver) :
    (∀ stamp ∈ (csr.flushes requests).1, csr.monitoredFence.lastSubmittedFence < stamp) ∧
    List.Pairwise (fun earlier later => earlier < later) (csr.flushes requests).1 := by
  induction requests generalizing csr with
  | nil => simp [flushes]
  | cons r rest ih =>
    cases hf : csr.flush r.batchBuffer r.allocationsForResidency r.kmdAccepts with
    | error e =>
      rw [flushes_cons_error csr r rest e hf]
      exact ih csr
    | ok res =>
      obtain ⟨stamp, next⟩ := res
      obtain ⟨_, hstamp, hlast, _⟩ := submitCommandBuffers_ok csr r.batchBuffer _ _ _ stamp next hf
      obtain ⟨hgt, hpair⟩ := ih next
      rw [hlast] at hgt
      rw [flushes_cons_ok csr next r rest stamp hf]
      simp only [List.mem_cons, List.pairwise_cons]
      refine ⟨?_, ?_, hpair⟩
      · intro s hs
        rcases hs with hs | hs
        · subst hs; omega
        · have := hgt s hs; omega
      · intro s hs
        exact hgt s hs

/-- Every accepted request yields one stamp. -/
theorem flushes_length (requests : List FlushRequest) (csr : CommandStreamReceiver) :
    (csr.flushes requests).1.length = (requests.filter (fun r => r.kmdAccepts)).length := by
  induction requests generalizing csr with
  | nil => rfl
  | cons r rest ih =>
    cases hf : csr.flush r.batchBuffer r.allocationsForResidency r.kmdAccepts with
    | error e =>
      have hr : r.kmdAccepts = false := by
        cases hacc : r.kmdAccepts with
        | false => rfl
        | true =>
          rw [hacc] at hf
          simp [flush, submitCommandBuffers] at hf
      rw [flushes_cons_error csr r rest e hf, ih csr]
      simp [hr]
    | ok res =>
      obtain ⟨stamp, next⟩ := res
      obtain ⟨hr, _⟩ := submitCommandBuffers_ok csr r.batchBuffer _ _ _ stamp next hf
      rw [flushes_cons_ok csr next r rest stamp hf]
      simp [hr, ih next]

/-- C4: for every sequence of successive `flush` calls on one receiver, each
successful call returns a flush stamp (there are as many stamps as accepted
requests), and each stamp is strictly greater than the one returned by the
previous successful call, hence than every earlier one.  A failed call
returns no stamp. -/
theorem flush_stamps_strictly_increasing (csr : CommandStreamReceiver)
    (requests : List FlushRequest) :
    List.Chain' (fun previous stamp => previous < stamp) (csr.flushes requests).1 ∧
    List.Pairwise (fun earlier later => earlier < later) (csr.flushes requests).1 ∧
    (csr.flushes requests).1.length = (requests.filter (fun r => r.kmdAccepts)).length :=
  ⟨List.Pairwise.chain' (flushes_stamps requests csr).2, (flushes_stamps requests csr).2,
    flushes_length requests csr⟩


/-! ### Trim-candidate list -/

/-- Reading a position after storing one. -/
theorem getPosition_setPosition (csr : CommandStreamReceiver) (a b : AllocId) (p : Option Nat) :
    (csr.setTrimCandidateListPosition a p).getTrimCandidateListPosition b =
      if b = a then p else csr.getTrimCandidateListPosition b := by
  unfold setTrimCandidateListPosition getTrimCandidateListPosition setAllocation
  by_cases h : b = a
  · simp [h]
  · simp [h]

/-- The invariant only reads the list and the stored positions. -/
theorem TrimListConsistent.of_same (csr next : CommandStreamReceiver)
    (hlist : next.trimCandidateList = csr.trimCandidateList)
    (hpos : ∀ a, next.getTrimCandidateListPosition a = csr.getTrimCandidateListPosition a)
    (h : TrimListConsistent csr) : TrimListConsistent next := by
  unfold TrimListConsistent at *
  simp only [hlist, hpos]
  exact h

/-- Under the invariant a listed allocation has a stored position. -/
theorem TrimListConsistent.position_of_mem (csr : CommandStreamReceiver)
    (h : TrimListConsistent csr) (a : AllocId) (ha : a ∈ csr.trimCandidateList) :
    ∃ i, csr.getTrimCandidateListPosition a = some i := by
  obtain ⟨i, hi⟩ := List.mem_iff_getElem?.mp ha
  exact ⟨i, h.1 i a hi⟩

/-- Under the invariant an allocation with a stored position is listed. -/
theorem TrimListConsistent.mem_of_position (csr : CommandStreamReceiver)
    (h : TrimListConsistent csr) (a : AllocId) (i : Nat)
    (ha : csr.getTrimCandidateListPosition a = some i) : a ∈ csr.trimCandidateList :=
  List.mem_iff_getElem?.mpr ⟨i, h.2 a i ha⟩

/-- Insertion of an allocation whose position is unused. -/
theorem addToTrimCandidateList_unused (csr : CommandStreamReceiver) (a : AllocId)
    (h : csr.getTrimCandidateListPosition a = none) :
    csr.addToTrimCandidateList a =
      ({ csr with trimCandidateList := csr.trimCandidateList ++ [a] }).setTrimCandidateListPosition
        a (some csr.trimCandidateList.length) := by
  unfold addToTrimCandidateList
  rw [h]

/-- Insertion of an allocation that already is a candidate. -/
theorem addToTrimCandidateList_used (csr : CommandStreamReceiver) (a : AllocId) (i : Nat)
    (h : csr.getTrimCandidateListPosition a = some i) :
    csr.addToTrimCandidateList a = csr := by
  unfold addToTrimCandidateList
  rw [h]

/-- Insertion extends the list at its end, by the allocation or by nothing. -/
theorem addToTrimCandidateList_list (csr : CommandStreamReceiver) (a : AllocId) :
    (csr.addToTrimCandidateList a).trimCandidateList =
      csr.trimCandidateList ++
        (if csr.getTrimCandidateListPosition a = none then [a] else []) := by
  cases h : csr.getTrimCandidateListPosition a with
  | none => rw [addToTrimCandidateList_unused csr a h]; simp [setTrimCandidateListPosition, setAllocation]
  | some i => rw [addToTrimCandidateList_used csr a i h]; simp

/-- Insertion changes no position but that of the inserted allocation. -/
theorem addToTrimCandidateList_position_other (csr : CommandStreamReceiver) (a b : AllocId)
    (hne : b ≠ a) :
    (csr.addToTrimCandidateList a).getTrimCandidateListPosition b =
      csr.getTrimCandidateListPosition b := by
  cases h : csr.getTrimCandidateListPosition a with
  | none =>
    rw [addToTrimCandidateList_unused csr a h, getPosition_setPosition, if_neg hne]
    rfl
  | some i => rw [addToTrimCandidateList_used csr a i h]

/-- Insertion keeps the invariant. -/
theorem addToTrimCandidateList_consistent (csr : CommandStreamReceiver) (a : AllocId)
    (h : TrimListConsistent csr) : TrimListConsistent (csr.addToTrimCandidateList a) := by
  cases hpos : csr.getTrimCandidateListPosition a with
  | some i => rw [addToTrimCandidateList_used csr a i hpos]; exact h
  | none =>
    rw [addToTrimCandidateList_unused csr a hpos]
    have hl : (({ csr with trimCandidateList := csr.trimCandidateList ++ [a] } :
        CommandStreamReceiver).setTrimCandidateListPosition a
          (some csr.trimCandidateList.length)).trimCandidateList = csr.trimCandidateList ++ [a] := rfl
    have hp : ∀ b, (({ csr with trimCandidateList := csr.trimCandidateList ++ [a] } :
        CommandStreamReceiver).setTrimCandidateListPosition a
          (some csr.trimCandidateList.length)).getTrimCandidateListPosition b =
        if b = a then some csr.trimCandidateList.length
        else csr.getTrimCandidateListPosition b := by
      intro b
      rw [getPosition_setPosition]
      rfl
    constructor
    · intro i b hib
      rw [hl] at hib
      rw [hp]
      rcases Nat.lt_or_ge i csr.trimCandidateList.length with hlt | hge
      · rw [List.getElem?_append_left hlt] at hib
        have hb := h.1 i b hib
        have hne : b ≠ a := by
          intro hba
          rw [hba, hpos] at hb
          exact Option.noConfusion hb
        rw [if_neg hne]
        exact hb
      · rw [List.getElem?_append_right hge] at hib
        have hi : i - csr.trimCandidateList.length = 0 := by
          rcases Nat.eq_zero_or_pos (i - csr.trimCandidateList.length) with h0 | hpos0
          · exact h0
          · rw [List.getElem?_eq_none (by simp only [List.length_singleton]; omega)] at hib
            exact Option.noConfusion hib
        rw [hi] at hib
        simp at hib
        have hieq : i = csr.trimCandidateList.length := by omega
        rw [← hib, if_pos rfl, hieq]
    · intro b i hbi
      rw [hl]
      rw [hp] at hbi
      by_cases hba : b = a
      · rw [if_pos hba] at hbi
        injection hbi with hbi
        rw [← hbi, hba]
        exact List.getElem?_concat_length _ _
      · rw [if_neg hba] at hbi
        have hib := h.2 b i hbi
        have hlt : i < csr.trimCandidateList.length := (List.getElem?_eq_some.mp hib).1
        rw [List.getElem?_append_left hlt]
        exact hib


/-- Removal of an allocation that is a candidate, in a non-empty list. -/
theorem removeFromTrimCandidateList_used (csr : CommandStreamReceiver) (a tail : AllocId)
    (p : Nat) (hp : csr.getTrimCandidateListPosition a = some p)
    (ht : csr.trimCandidateList.getLast? = some tail) :
    csr.removeFromTrimCandidateList a =
      (({ csr with trimCandidateList := (csr.trimCandidateList.set p tail).dropLast
          }).setTrimCandidateListPosition tail (some p)).setTrimCandidateListPosition
        a trimListUnusedPosition := by
  unfold removeFromTrimCandidateList
  rw [hp]
  simp only [ht]

/-- Removal keeps the invariant: the displaced tail allocation takes the freed
index together with its stored position. -/
theorem removeFromTrimCandidateList_consistent (csr : CommandStreamReceiver) (a : AllocId)
    (h : TrimListConsistent csr) : TrimListConsistent (csr.removeFromTrimCandidateList a) := by
  cases hpos : csr.getTrimCandidateListPosition a with
  | none =>
    unfold removeFromTrimCandidateList
    rw [hpos]
    exact h
  | some p =>
    have hpa : csr.trimCandidateList[p]? = some a := h.2 a p hpos
    have hplt : p < csr.trimCandidateList.length := (List.getElem?_eq_some.mp hpa).1
    cases hlast : csr.trimCandidateList.getLast? with
    | none =>
      unfold removeFromTrimCandidateList
      rw [hpos]
      simp only [hlast]
      exact h
    | some tail =>
      rw [removeFromTrimCandidateList_used csr a tail p hpos hlast]
      have htl : csr.trimCandidateList[csr.trimCandidateList.length - 1]? = some tail := by
        rw [← List.getLast?_eq_getElem?]; exact hlast
      have htpos : csr.getTrimCandidateListPosition tail = some (csr.trimCandidateList.length - 1) :=
        h.1 _ tail htl
      have hl : ((({ csr with trimCandidateList := (csr.trimCandidateList.set p tail).dropLast } :
          CommandStreamReceiver).setTrimCandidateListPosition tail (some p)
          ).setTrimCandidateListPosition a trimListUnusedPosition).trimCandidateList =
          (csr.trimCandidateList.set p tail).dropLast := rfl
      have hq : ∀ b, ((({ csr with trimCandidateList := (csr.trimCandidateList.set p tail).dropLast } :
          CommandStreamReceiver).setTrimCandidateListPosition tail (some p)
          ).setTrimCandidateListPosition a trimListUnusedPosition).getTrimCandidateListPosition b =
          if b = a then none else if b = tail then some p
          else csr.getTrimCandidateListPosition b := by
        intro b
        rw [getPosition_setPosition, getPosition_setPosition]
        rfl
      have hget : ∀ i, ((csr.trimCandidateList.set p tail).dropLast)[i]? =
          if i < csr.trimCandidateList.length - 1 then
            (if p = i then some tail else csr.trimCandidateList[i]?)
          else none := by
        intro i
        rw [List.getElem?_dropLast, List.length_set, List.getElem?_set]
        simp only [hplt, if_true]
      constructor
      · intro i b hib
        rw [hl, hget] at hib
        rw [hq]
        by_cases hi : i < csr.trimCandidateList.length - 1
        · rw [if_pos hi] at hib
          by_cases hpi : p = i
          · rw [if_pos hpi] at hib
            injection hib with hib
            have hne : tail ≠ a := by
              intro hta
              rw [hta, hpos] at htpos
              injection htpos with htpos
              omega
            rw [← hib, if_neg hne, if_pos rfl, hpi]
          · rw [if_neg hpi] at hib
            have hb := h.1 i b hib
            have hba : b ≠ a := by
              intro hba
              rw [hba, hpos] at hb
              injection hb with hb
              exact hpi hb
            have hbt : b ≠ tail := by
              intro hbt
              rw [hbt, htpos] at hb
              injection hb with hb
              omega
            rw [if_neg hba, if_neg hbt]
            exact hb
        · rw [if_neg hi] at hib
          exact Option.noConfusion hib
      · intro b i hbi
        rw [hl, hget]
        rw [hq] at hbi
        by_cases hba : b = a
        · rw [if_pos hba] at hbi
          exact Option.noConfusion hbi
        · rw [if_neg hba] at hbi
          by_cases hbt : b = tail
          · rw [if_pos hbt] at hbi
            injection hbi with hbi
            have hne : p ≠ csr.trimCandidateList.length - 1 := by
              intro hpe
              rw [hpe, htl] at hpa
              injection hpa with hpa
              exact hba (hbt.trans hpa)
            have hi : i < csr.trimCandidateList.length - 1 := by omega
            rw [if_pos hi, if_pos hbi, hbt]
          · rw [if_neg hbt] at hbi
            have hib := h.2 b i hbi
            have hilt : i < csr.trimCandidateList.length := (List.getElem?_eq_some.mp hib).1
            have hne : i ≠ csr.trimCandidateList.length - 1 := by
              intro hie
              rw [hie, htl] at hib
              injection hib with hib
              exact hbt hib.symm
            have hpi : p ≠ i := by
              intro hpi
              rw [← hpi, hpa] at hib
              injection hib with hib
              exact hba hib.symm
            have hi : i < csr.trimCandidateList.length - 1 := by omega
            rw [if_pos hi, if_neg hpi]
            exact hib

/-- Making an allocation resident keeps the invariant: the allocation is taken
off the list as a removal does, and the residency container is no part of
the invariant. -/
theorem makeResident_consistent (csr : CommandStreamReceiver) (a : AllocId)
    (h : TrimListConsistent csr) : TrimListConsistent (csr.makeResident a) := by
  refine TrimListConsistent.of_same (csr.removeFromTrimCandidateList a) _ ?_ ?_
    (removeFromTrimCandidateList_consistent csr a h)
  · unfold makeResident; split <;> rfl
  · intro b; unfold makeResident; split <;> rfl

/-- Making an allocation non-resident touches neither the list nor a position. -/
theorem makeNonResident_consistent (csr : CommandStreamReceiver) (a : AllocId)
    (h : TrimListConsistent csr) : TrimListConsistent (csr.makeNonResident a) := by
  refine TrimListConsistent.of_same csr _ ?_ ?_ h
  · unfold makeNonResident; split <;> rfl
  · intro b; unfold makeNonResident; split <;> rfl

/-- Inserting a list of allocations keeps the invariant. -/
theorem foldl_addToTrimCandidateList_consistent (l : List AllocId) (csr : CommandStreamReceiver)
    (h : TrimListConsistent csr) :
    TrimListConsistent (l.foldl addToTrimCandidateList csr) := by
  induction l generalizing csr with
  | nil => exact h
  | cons a rest ih => exact ih _ (addToTrimCandidateList_consistent csr a h)

/-- Eviction processing keeps the invariant. -/
theorem processEviction_consistent (csr : CommandStreamReceiver)
    (h : TrimListConsistent csr) : TrimListConsistent csr.processEviction :=
  TrimListConsistent.of_same _ _ rfl (fun _ => rfl)
    (foldl_addToTrimCandidateList_consistent csr.evictionAllocations csr h)

/-- The bulk residency pass keeps the invariant. -/
theorem processResidency_consistent (c : List AllocId) (csr : CommandStreamReceiver)
    (h : TrimListConsistent csr) : TrimListConsistent (csr.processResidency c) := by
  induction c generalizing csr with
  | nil => exact h
  | cons a rest ih => exact ih _ (makeResident_consistent csr a h)

/-- The bulk non-residency pass keeps the invariant. -/
theorem makeSurfacePackNonResident_consistent (c : List AllocId) (csr : CommandStreamReceiver)
    (h : TrimListConsistent csr) : TrimListConsistent (csr.makeSurfacePackNonResident c) := by
  unfold makeSurfacePackNonResident
  apply processEviction_consistent
  induction c generalizing csr with
  | nil => exact h
  | cons a rest ih => exact ih _ (makeNonResident_consistent csr a h)

/-- Every residency call keeps the invariant. -/
theorem call_consistent (csr : CommandStreamReceiver) (c : ResidencyCall)
    (h : TrimListConsistent csr) : TrimListConsistent (csr.call c) := by
  cases c with
  | makeResident a => exact makeResident_consistent csr a h
  | makeNonResident a => exact makeNonResident_consistent csr a h
  | processEviction => exact processEviction_consistent csr h
  | processResidency c => exact processResidency_consistent c csr h
  | makeSurfacePackNonResident c => exact makeSurfacePackNonResident_consistent c csr h
  | removeFromTrimCandidateList a => exact removeFromTrimCandidateList_consistent csr a h

/-- Every sequence of residency calls keeps the invariant. -/
theorem calls_consistent (cs : List ResidencyCall) (csr : CommandStreamReceiver)
    (h : TrimListConsistent csr) : TrimListConsistent (csr.calls cs) := by
  induction cs generalizing csr with
  | nil => exact h
  | cons c rest ih => exact ih _ (call_consistent csr c h)

/-- A receiver that was just created satisfies the invariant. -/
theorem create_consistent (hwInfo : HardwareInfo) (contextId : ContextId)
    (dispatchMode : DispatchMode) (gpuAddressOf cpuPtrOf : AllocId → Nat) :
    TrimListConsistent (create hwInfo contextId dispatchMode gpuAddressOf cpuPtrOf) := by
  constructor
  · intro i a hia
    simp [create] at hia
  · intro a i hai
    simp [create, getTrimCandidateListPosition, GraphicsAllocation.create,
      trimListUnusedPosition] at hai


/-- C3: trim-candidate list invariant.  In every state reached from a newly
created receiver by any sequence of `makeResident`, `makeNonResident`,
`processEviction`, `processResidency`, `makeSurfacePackNonResident` (and
`removeFromTrimCandidateList`) calls, an allocation found at index `i` of
the trim-candidate list has stored position `i`, an allocation with stored
position `i` is the one at index `i`, and an allocation that is not in the
list has `trimListUnusedPosition`.  Example of the test: an allocation made
resident has the unused position, and after `processResidency` and
`makeSurfacePackNonResident` of the residency container it is at position 0
with both containers empty. -/
theorem trimCandidateList_invariant (hwInfo : HardwareInfo) (contextId : ContextId)
    (dispatchMode : DispatchMode) (gpuAddressOf cpuPtrOf : AllocId → Nat)
    (cs : List ResidencyCall) (a : AllocId) :
    ((∀ i, ((create hwInfo contextId dispatchMode gpuAddressOf cpuPtrOf).calls
          cs).trimCandidateList[i]? = some a →
        ((create hwInfo contextId dispatchMode gpuAddressOf cpuPtrOf).calls
          cs).getTrimCandidateListPosition a = some i) ∧
      (∀ i, ((create hwInfo contextId dispatchMode gpuAddressOf cpuPtrOf).calls
          cs).getTrimCandidateListPosition a = some i →
        ((create hwInfo contextId dispatchMode gpuAddressOf cpuPtrOf).calls
          cs).trimCandidateList[i]? = some a) ∧
      (a ∉ ((create hwInfo contextId dispatchMode gpuAddressOf cpuPtrOf).calls
          cs).trimCandidateList →
        ((create hwInfo contextId dispatchMode gpuAddressOf cpuPtrOf).calls
          cs).getTrimCandidateListPosition a = trimListUnusedPosition)) ∧
    (((create hwInfo contextId dispatchMode gpuAddressOf cpuPtrOf).makeResident
        a).getTrimCandidateListPosition a = trimListUnusedPosition ∧
      ((create hwInfo contextId dispatchMode gpuAddressOf cpuPtrOf).calls
        [ResidencyCall.makeResident a, ResidencyCall.processResidency [a],
          ResidencyCall.makeSurfacePackNonResident [a]]).getTrimCandidateListPosition a
        = some 0 ∧
      ((create hwInfo contextId dispatchMode gpuAddressOf cpuPtrOf).calls
        [ResidencyCall.makeResident a, ResidencyCall.processResidency [a],
          ResidencyCall.makeSurfacePackNonResident [a]]).residencyAllocations = [] ∧
      ((create hwInfo contextId dispatchMode gpuAddressOf cpuPtrOf).calls
        [ResidencyCall.makeResident a, ResidencyCall.processResidency [a],
          ResidencyCall.makeSurfacePackNonResident [a]]).evictionAllocations = []) := by
  have h := calls_consistent cs _
    (create_consistent hwInfo contextId dispatchMode gpuAddressOf cpuPtrOf)
  refine ⟨⟨fun i hi => h.1 i a hi, fun i hi => h.2 a i hi, ?_⟩, ?_⟩
  · intro hnot
    cases hpos : ((create hwInfo contextId dispatchMode gpuAddressOf cpuPtrOf).calls
        cs).getTrimCandidateListPosition a with
    | none => rfl
    | some i => exact absurd (TrimListConsistent.mem_of_position _ h a i hpos) hnot
  · simp [calls, call, create, makeResident, processResidency, makeSurfacePackNonResident,
      makeNonResident, processEviction, addToTrimCandidateList, removeFromTrimCandidateList,
      getTrimCandidateListPosition, setTrimCandidateListPosition, setAllocation,
      GraphicsAllocation.create, trimListUnusedPosition]


/-! ### Residency -/

/-- Insertion into the trim-candidate list leaves the residency container alone. -/
theorem addToTrimCandidateList_residency (csr : CommandStreamReceiver) (a : AllocId) :
    (csr.addToTrimCandidateList a).residencyAllocations = csr.residencyAllocations := by
  cases h : csr.getTrimCandidateListPosition a with
  | none => rw [addToTrimCandidateList_unused csr a h]; rfl
  | some i => rw [addToTrimCandidateList_used csr a i h]

/-- Eviction processing leaves the residency container alone. -/
theorem processEviction_residency (csr : CommandStreamReceiver) :
    csr.processEviction.residencyAllocations = csr.residencyAllocations := by
  have hfold : ∀ (l : List AllocId) (c : CommandStreamReceiver),
      (l.foldl addToTrimCandidateList c).residencyAllocations = c.residencyAllocations := by
    intro l
    induction l with
    | nil => intro c; rfl
    | cons x rest ih =>
      intro c
      rw [List.foldl_cons, ih, addToTrimCandidateList_residency]
  exact hfold csr.evictionAllocations csr

/-- Removal from the trim-candidate list leaves the residency container alone. -/
theorem removeFromTrimCandidateList_residency (csr : CommandStreamReceiver) (a : AllocId) :
    (csr.removeFromTrimCandidateList a).residencyAllocations = csr.residencyAllocations := by
  unfold removeFromTrimCandidateList
  cases csr.getTrimCandidateListPosition a with
  | none => rfl
  | some p =>
    cases csr.trimCandidateList.getLast? with
    | none => rfl
    | some tail => rfl

/-- No residency call lets an allocation occur twice in the residency container. -/
theorem call_residency_nodup (csr : CommandStreamReceiver) (c : ResidencyCall)
    (h : csr.residencyAllocations.Nodup) : (csr.call c).residencyAllocations.Nodup := by
  have hres : ∀ (x : AllocId) (r : CommandStreamReceiver), r.residencyAllocations.Nodup →
      (r.makeResident x).residencyAllocations.Nodup := by
    intro x r hr
    have hsame := removeFromTrimCandidateList_residency r x
    unfold makeResident
    split
    · rw [hsame]
      exact hr
    · rename_i hx
      rw [hsame] at hx
      show ((r.removeFromTrimCandidateList x).residencyAllocations ++ [x]).Nodup
      rw [hsame]
      exact List.Nodup.append hr (List.nodup_singleton x) (by simpa using hx)
  have hnon : ∀ (x : AllocId) (r : CommandStreamReceiver), r.residencyAllocations.Nodup →
      (r.makeNonResident x).residencyAllocations.Nodup := by
    intro x r hr
    unfold makeNonResident
    split
    · exact List.Nodup.filter _ hr
    · exact hr
  cases c with
  | makeResident x => exact hres x csr h
  | makeNonResident x => exact hnon x csr h
  | processEviction => exact (processEviction_residency csr).symm ▸ h
  | processResidency l =>
    show (l.foldl makeResident csr).residencyAllocations.Nodup
    induction l generalizing csr with
    | nil => exact h
    | cons x rest ih => exact ih _ (hres x csr h)
  | makeSurfacePackNonResident l =>
    show (l.foldl makeNonResident csr).processEviction.residencyAllocations.Nodup
    rw [processEviction_residency]
    induction l generalizing csr with
    | nil => exact h
    | cons x rest ih => exact ih _ (hnon x csr h)
  | removeFromTrimCandidateList x =>
    exact (removeFromTrimCandidateList_residency csr x).symm ▸ h

/-- In every state the residency calls reach from a newly created receiver, no
allocation occurs twice in the residency container. -/
theorem calls_residency_nodup (cs : List ResidencyCall) (csr : CommandStreamReceiver)
    (h : csr.residencyAllocations.Nodup) : (csr.calls cs).residencyAllocations.Nodup := by
  induction cs generalizing csr with
  | nil => exact h
  | cons c rest ih => exact ih _ (call_residency_nodup csr c h)

/-- Removal of an allocation that is no candidate changes nothing. -/
theorem removeFromTrimCandidateList_unused (csr : CommandStreamReceiver) (a : AllocId)
    (h : csr.getTrimCandidateListPosition a = none) :
    csr.removeFromTrimCandidateList a = csr := by
  unfold removeFromTrimCandidateList
  rw [h]

/-- After a removal the allocation has the unused position. -/
theorem removeFromTrimCandidateList_position_self (csr : CommandStreamReceiver) (a : AllocId)
    (hcons : TrimListConsistent csr) :
    (csr.removeFromTrimCandidateList a).getTrimCandidateListPosition a
      = trimListUnusedPosition := by
  cases hp : csr.getTrimCandidateListPosition a with
  | none => rw [removeFromTrimCandidateList_unused csr a hp, hp]; rfl
  | some p =>
    have hmem := TrimListConsistent.mem_of_position csr hcons a p hp
    cases ht : csr.trimCandidateList.getLast? with
    | none =>
      rw [List.getLast?_eq_none_iff] at ht
      rw [ht] at hmem
      simp at hmem
    | some tail =>
      rw [removeFromTrimCandidateList_used csr a tail p hp ht, getPosition_setPosition,
        if_pos rfl]

/-- Making an allocation resident leaves the positions a removal leaves. -/
theorem makeResident_position (csr : CommandStreamReceiver) (a b : AllocId) :
    (csr.makeResident a).getTrimCandidateListPosition b
      = (csr.removeFromTrimCandidateList a).getTrimCandidateListPosition b := by
  unfold makeResident
  split <;> rfl

/-- The residency container after `makeResident`: the allocation is appended
unless it is there already. -/
theorem makeResident_residency (csr : CommandStreamReceiver) (a : AllocId) :
    (csr.makeResident a).residencyAllocations =
      if a ∈ csr.residencyAllocations then csr.residencyAllocations
      else csr.residencyAllocations ++ [a] := by
  have hsame := removeFromTrimCandidateList_residency csr a
  unfold makeResident
  rw [hsame]
  split
  · exact hsame
  · rfl

/-- C2: for every allocation and every state of the command stream receiver
(a state in which the trim-candidate list is consistent and the residency
container holds no allocation twice, as in every state the residency calls
and flushes reach from a newly created receiver), calling `makeResident`
twice in succession leaves the state that one call leaves: the same residency
container, in which the allocation occurs exactly once, and the same
trim-candidate position for the allocation, the unused sentinel. -/
theorem makeResident_idempotent (csr : CommandStreamReceiver) (a : AllocId)
    (hcons : TrimListConsistent csr) (hnodup : csr.residencyAllocations.Nodup) :
    (csr.makeResident a).makeResident a = csr.makeResident a ∧
    ((csr.makeResident a).makeResident a).residencyAllocations
      = (csr.makeResident a).residencyAllocations ∧
    ((csr.makeResident a).makeResident a).residencyAllocations.count a = 1 ∧
    (csr.makeResident a).residencyAllocations.count a = 1 ∧
    ((csr.makeResident a).makeResident a).getTrimCandidateListPosition a
      = trimListUnusedPosition ∧
    (csr.makeResident a).getTrimCandidateListPosition a = trimListUnusedPosition := by
  have hposition : (csr.makeResident a).getTrimCandidateListPosition a
      = trimListUnusedPosition := by
    rw [makeResident_position]
    exact removeFromTrimCandidateList_position_self csr a hcons
  have hmem : a ∈ (csr.makeResident a).residencyAllocations := by
    rw [makeResident_residency]
    split
    · assumption
    · simp
  have hcount : (csr.makeResident a).residencyAllocations.count a = 1 := by
    rw [makeResident_residency]
    split
    · rename_i hin
      have hle := List.nodup_iff_count_le_one.mp hnodup a
      have hpos : 0 < csr.residencyAllocations.count a := List.count_pos_iff.mpr hin
      omega
    · rename_i hout
      rw [List.count_append, List.count_eq_zero_of_not_mem hout]
      simp
  have hidem : (csr.makeResident a).makeResident a = csr.makeResident a := by
    have hremove := removeFromTrimCandidateList_unused (csr.makeResident a) a hposition
    show (if a ∈ ((csr.makeResident a).removeFromTrimCandidateList a).residencyAllocations then
        (csr.makeResident a).removeFromTrimCandidateList a
      else _) = _
    rw [hremove, if_pos hmem]
  rw [hidem]
  exact ⟨rfl, rfl, hcount, hcount, hposition, hposition⟩

/-- Stamping a list of allocations touches neither the trim-candidate list, nor
a stored position, nor the residency container. -/
theorem stamp_residency (l : List AllocId) (fence : Nat) (csr : CommandStreamReceiver) :
    (l.foldl (fun c a => c.updateTaskCount a fence) csr).trimCandidateList
      = csr.trimCandidateList ∧
    (∀ b, (l.foldl (fun c a => c.updateTaskCount a fence) csr).getTrimCandidateListPosition b
      = csr.getTrimCandidateListPosition b) ∧
    (l.foldl (fun c a => c.updateTaskCount a fence) csr).residencyAllocations
      = csr.residencyAllocations := by
  induction l generalizing csr with
  | nil => exact ⟨rfl, fun _ => rfl, rfl⟩
  | cons a rest ih =>
    obtain ⟨hlist, hposition, hresidency⟩ := ih (csr.updateTaskCount a fence)
    rw [List.foldl_cons]
    refine ⟨hlist, ?_, hresidency⟩
    intro b
    rw [hposition b]
    unfold getTrimCandidateListPosition updateTaskCount setAllocation
      GraphicsAllocation.updateTaskCount
    by_cases hba : b = a
    · subst hba
      simp only [if_true]
      split <;> rfl
    · simp only [if_neg hba]

/-- A flush leaves the trim-candidate list consistent and the residency
container free of repetitions: the states a receiver gets into by residency
calls and flushes are states of the kind C2 speaks of. -/
theorem flush_consistent (csr : CommandStreamReceiver) (batchBuffer : BatchBuffer)
    (c : List AllocId) (kmdAccepts : Bool) (stamp : FlushStamp) (next : CommandStreamReceiver)
    (h : csr.flush batchBuffer c kmdAccepts = Except.ok (stamp, next))
    (hcons : TrimListConsistent csr) (hnodup : csr.residencyAllocations.Nodup) :
    TrimListConsistent next ∧ next.residencyAllocations.Nodup := by
  have hresident := processResidency_consistent c csr hcons
  have hresidentNodup : (csr.processResidency c).residencyAllocations.Nodup :=
    call_residency_nodup csr (ResidencyCall.processResidency c) hnodup
  unfold flush submitCommandBuffers at h
  cases kmdAccepts with
  | false => simp at h
  | true =>
    simp only [if_true] at h
    injection h with h
    injection h with h1 h2
    subst h1 h2
    obtain ⟨hlist, hposition, hresidency⟩ :=
      stamp_residency
        ({ csr.processResidency c with
            commandBufferHeader := (csr.processResidency c).patchHeader batchBuffer
            submits := (csr.processResidency c).submits ++
              [{ commandBufferSubmitted :=
                   ((csr.processResidency c).allocations
                     batchBuffer.commandBufferAllocation).gpuAddress + batchBuffer.startOffset
                 size := batchBuffer.usedSize
                 commandHeaderSubmitted := (csr.processResidency c).patchHeader batchBuffer
                 commandBuffers := [batchBuffer]
                 fence := (csr.processResidency c).monitoredFence.lastSubmittedFence + 1 }]
            monitoredFence :=
              { (csr.processResidency c).monitoredFence with
                lastSubmittedFence :=
                  (csr.processResidency c).monitoredFence.lastSubmittedFence + 1 } }
          : CommandStreamReceiver).residencyAllocations
        ((csr.processResidency c).monitoredFence.lastSubmittedFence + 1)
        { csr.processResidency c with
            commandBufferHeader := (csr.processResidency c).patchHeader batchBuffer
            submits := (csr.processResidency c).submits ++
              [{ commandBufferSubmitted :=
                   ((csr.processResidency c).allocations
                     batchBuffer.commandBufferAllocation).gpuAddress + batchBuffer.startOffset
                 size := batchBuffer.usedSize
                 commandHeaderSubmitted := (csr.processResidency c).patchHeader batchBuffer
                 commandBuffers := [batchBuffer]
                 fence := (csr.processResidency c).monitoredFence.lastSubmittedFence + 1 }]
            monitoredFence :=
              { (csr.processResidency c).monitoredFence with
                lastSubmittedFence :=
                  (csr.processResidency c).monitoredFence.lastSubmittedFence + 1 } }
    constructor
    · refine TrimListConsistent.of_same (csr.processResidency c) _ ?_ ?_ hresident
      · split
        · exact hlist
        · exact hlist
      · intro b
        split
        · exact hposition b
        · exact hposition b
    · have hsame : ∀ r : CommandStreamReceiver,
          (if r.kmDafEnabled = true then r.kmDafLockAllocations c else r).residencyAllocations
            = r.residencyAllocations := by
        intro r
        split <;> rfl
      rw [hsame, hresidency]
      exact hresidentNodup

/-- Witness of C2: allocation 1 of the example was made resident, evicted and the
eviction list processed, so it is not resident and sits at index 0 of the
trim-candidate list.  One `makeResident` call makes it resident and takes it
off the list, and a second call changes nothing. -/
theorem makeResident_idempotent_witness :
    exampleCandidateReceiver.residencyAllocations = [] ∧
    exampleCandidateReceiver.getTrimCandidateListPosition 1 = some 0 ∧
    (exampleCandidateReceiver.makeResident 1).makeResident 1
      = exampleCandidateReceiver.makeResident 1 ∧
    ((exampleCandidateReceiver.makeResident 1).makeResident 1).residencyAllocations = [1] ∧
    ((exampleCandidateReceiver.makeResident 1).makeResident 1).residencyAllocations.count 1
      = 1 ∧
    ((exampleCandidateReceiver.makeResident 1).makeResident 1).getTrimCandidateListPosition 1
      = trimListUnusedPosition ∧
    (exampleCandidateReceiver.makeResident 1).trimCandidateList = [] := by
  obtain ⟨hidem, _, hcount, _, hposition, _⟩ :=
    makeResident_idempotent exampleCandidateReceiver 1
      (calls_consistent _ _
        (create_consistent exampleHardwareInfo 0 DispatchMode.ImmediateDispatch
          exampleGpuAddress exampleCpuPtr))
      (calls_residency_nodup _ _ List.nodup_nil)
  exact ⟨by decide, by decide, hidem, by decide, hcount, hposition, by decide⟩

/-- C6: residency round trip.  From a consistent state with empty residency,
eviction and trim-candidate containers, for every allocation `a`:
`makeResident a` gives the residency container `[a]`; then `makeNonResident a`
gives an empty residency container and the eviction list `[a]`; then
`processEviction` gives an empty eviction list and the trim-candidate list
`[a]` with stored position 0 for `a`. -/
theorem residency_round_trip (csr : CommandStreamReceiver) (a : AllocId)
    (hres : csr.residencyAllocations = []) (hev : csr.evictionAllocations = [])
    (htrim : csr.trimCandidateList = []) (hcons : TrimListConsistent csr) :
    (csr.makeResident a).residencyAllocations = [a] ∧
    ((csr.makeResident a).makeNonResident a).residencyAllocations = [] ∧
    ((csr.makeResident a).makeNonResident a).evictionAllocations = [a] ∧
    (((csr.makeResident a).makeNonResident a).processEviction).evictionAllocations = [] ∧
    (((csr.makeResident a).makeNonResident a).processEviction).trimCandidateList = [a] ∧
    (((csr.makeResident a).makeNonResident a).processEviction).getTrimCandidateListPosition a
      = some 0 := by
  have hpos : csr.getTrimCandidateListPosition a = none := by
    cases h : csr.getTrimCandidateListPosition a with
    | none => rfl
    | some i =>
      have := hcons.2 a i h
      rw [htrim] at this
      simp at this
  have hpos2 : (csr.allocations a).trimCandidateListPosition csr.contextId = none := hpos
  simp [makeResident, makeNonResident, processEviction, addToTrimCandidateList,
    removeFromTrimCandidateList, getTrimCandidateListPosition, setTrimCandidateListPosition,
    setAllocation, hres, hev, htrim, hpos2]

/-- Witness of C6: the newly created example receiver and allocation 1. -/
theorem residency_round_trip_witness :
    (exampleReceiver.makeResident 1).residencyAllocations = [1] ∧
    ((exampleReceiver.makeResident 1).makeNonResident 1).residencyAllocations = [] ∧
    ((exampleReceiver.makeResident 1).makeNonResident 1).evictionAllocations = [1] ∧
    (((exampleReceiver.makeResident 1).makeNonResident 1).processEviction).evictionAllocations
      = [] ∧
    (((exampleReceiver.makeResident 1).makeNonResident 1).processEviction).trimCandidateList
      = [1] ∧
    (((exampleReceiver.makeResident 1).makeNonResident
      1).processEviction).getTrimCandidateListPosition 1 = some 0 :=
  residency_round_trip exampleReceiver 1 rfl rfl rfl
    (create_consistent exampleHardwareInfo 0 DispatchMode.ImmediateDispatch
      exampleGpuAddress exampleCpuPtr)

/-- Inserted allocations never push a listed allocation out. -/
theorem foldl_addToTrimCandidateList_mem_of_mem (l : List AllocId) (csr : CommandStreamReceiver)
    (b : AllocId) (hb : b ∈ csr.trimCandidateList) :
    b ∈ (l.foldl addToTrimCandidateList csr).trimCandidateList := by
  induction l generalizing csr with
  | nil => exact hb
  | cons a rest ih =>
    apply ih
    rw [addToTrimCandidateList_list]
    exact List.mem_append_left _ hb

/-- After insertion the allocation is listed. -/
theorem addToTrimCandidateList_mem (csr : CommandStreamReceiver) (a : AllocId)
    (h : TrimListConsistent csr) : a ∈ (csr.addToTrimCandidateList a).trimCandidateList := by
  rw [addToTrimCandidateList_list]
  cases hpos : csr.getTrimCandidateListPosition a with
  | none => simp
  | some i =>
    exact List.mem_append_left _ (TrimListConsistent.mem_of_position csr h a i hpos)

/-- After inserting a list of allocations each of them is listed. -/
theorem foldl_addToTrimCandidateList_mem (l : List AllocId) (csr : CommandStreamReceiver)
    (h : TrimListConsistent csr) (a : AllocId) (ha : a ∈ l) :
    a ∈ (l.foldl addToTrimCandidateList csr).trimCandidateList := by
  induction l generalizing csr with
  | nil => simp at ha
  | cons b rest ih =>
    rcases List.mem_cons.mp ha with hab | harest
    · rw [hab]
      exact foldl_addToTrimCandidateList_mem_of_mem rest _ b (addToTrimCandidateList_mem csr b h)
    · exact ih _ (addToTrimCandidateList_consistent csr b h) harest

/-- Inserting distinct allocations none of which is a candidate appends them in
order. -/
theorem foldl_addToTrimCandidateList_unused (l : List AllocId) (csr : CommandStreamReceiver)
    (hnodup : l.Nodup) (hunused : ∀ a ∈ l, csr.getTrimCandidateListPosition a = none) :
    (l.foldl addToTrimCandidateList csr).trimCandidateList = csr.trimCandidateList ++ l := by
  induction l generalizing csr with
  | nil => simp
  | cons a rest ih =>
    have hnd := List.nodup_cons.mp hnodup
    rw [List.foldl_cons, ih _ hnd.2, addToTrimCandidateList_list,
      if_pos (hunused a (List.mem_cons_self _ _))]
    · simp
    · intro b hb
      have hne : b ≠ a := fun hba => hnd.1 (hba ▸ hb)
      rw [addToTrimCandidateList_position_other csr a b hne]
      exact hunused b (List.mem_cons_of_mem _ hb)

/-- C9 (amended): for every consistent receiver state with eviction list `E`,
`processEviction` leaves every allocation of `E` on the trim-candidate list
and leaves the eviction list empty; when `E` has no repeated allocation and
none of its allocations was a candidate already, the trim-candidate list is
the old list followed by `E`, so it grows by exactly `|E|` entries. -/
theorem processEviction_moves_eviction_list (csr : CommandStreamReceiver)
    (hcons : TrimListConsistent csr) :
    (∀ a ∈ csr.evictionAllocations, a ∈ csr.processEviction.trimCandidateList) ∧
    csr.processEviction.evictionAllocations = [] ∧
    (csr.evictionAllocations.Nodup →
      (∀ a ∈ csr.evictionAllocations, a ∉ csr.trimCandidateList) →
      csr.processEviction.trimCandidateList = csr.trimCandidateList ++ csr.evictionAllocations ∧
      csr.processEviction.trimCandidateList.length
        = csr.trimCandidateList.length + csr.evictionAllocations.length) := by
  refine ⟨?_, rfl, ?_⟩
  · intro a ha
    exact foldl_addToTrimCandidateList_mem csr.evictionAllocations csr hcons a ha
  · intro hnodup hnone
    have hunused : ∀ a ∈ csr.evictionAllocations, csr.getTrimCandidateListPosition a = none := by
      intro a ha
      cases hpos : csr.getTrimCandidateListPosition a with
      | none => rfl
      | some i => exact absurd (TrimListConsistent.mem_of_position csr hcons a i hpos) (hnone a ha)
    have hlist : csr.processEviction.trimCandidateList
        = csr.trimCandidateList ++ csr.evictionAllocations :=
      foldl_addToTrimCandidateList_unused csr.evictionAllocations csr hnodup hunused
    refine ⟨hlist, ?_⟩
    rw [hlist, List.length_append]

/-- Witness of C9: allocations 1 and 2 made resident and then non-resident, so
that the eviction list is `[1, 2]` and no allocation is a candidate. -/
theorem processEviction_moves_eviction_list_witness :
    (∀ a ∈ (exampleReceiver.calls [ResidencyCall.makeResident 1, ResidencyCall.makeResident 2,
        ResidencyCall.makeNonResident 1, ResidencyCall.makeNonResident 2]).evictionAllocations,
      a ∈ (exampleReceiver.calls [ResidencyCall.makeResident 1, ResidencyCall.makeResident 2,
        ResidencyCall.makeNonResident 1,
        ResidencyCall.makeNonResident 2]).processEviction.trimCandidateList) ∧
    (exampleReceiver.calls [ResidencyCall.makeResident 1, ResidencyCall.makeResident 2,
        ResidencyCall.makeNonResident 1,
        ResidencyCall.makeNonResident 2]).processEviction.evictionAllocations = [] ∧
    (exampleReceiver.calls [ResidencyCall.makeResident 1, ResidencyCall.makeResident 2,
        ResidencyCall.makeNonResident 1,
        ResidencyCall.makeNonResident 2]).processEviction.trimCandidateList = [1, 2] :=
  have h := processEviction_moves_eviction_list
    (exampleReceiver.calls [ResidencyCall.makeResident 1, ResidencyCall.makeResident 2,
      ResidencyCall.makeNonResident 1, ResidencyCall.makeNonResident 2])
    (calls_consistent _ _ (create_consistent exampleHardwareInfo 0
      DispatchMode.ImmediateDispatch exampleGpuAddress exampleCpuPtr))
  ⟨h.1, h.2.1, (h.2.2 (by decide) (by decide)).1⟩

/-- Counterexample to C9 as stated: the eviction list holds allocation 1 twice and
no allocation is a candidate; `processEviction` lets the trim-candidate list
grow by one entry, not by the two entries of the eviction list. -/
theorem processEviction_growth_counterexample :
    exampleEvictedTwiceReceiver.evictionAllocations = [1, 1] ∧
    exampleEvictedTwiceReceiver.trimCandidateList = [] ∧
    exampleEvictedTwiceReceiver.processEviction.trimCandidateList = [1] ∧
    exampleEvictedTwiceReceiver.processEviction.trimCandidateList.length
      ≠ exampleEvictedTwiceReceiver.trimCandidateList.length
        + exampleEvictedTwiceReceiver.evictionAllocations.length := by
  refine ⟨by decide, by decide, by decide, by decide⟩


/-! ### Batching -/

/-- The driver accepting a submission makes it succeed. -/
theorem submitCommandBuffers_accepted (csr : CommandStreamReceiver) (primary : BatchBuffer)
    (carried : List BatchBuffer) (c : List AllocId) :
    ∃ next, csr.submitCommandBuffers primary carried c true
      = Except.ok (csr.monitoredFence.lastSubmittedFence + 1, next) := by
  unfold submitCommandBuffers
  simp only [if_true]
  rw [(processResidency_frame c csr).1]
  exact ⟨_, rfl⟩

/-- Recording under batched dispatch appends to the pending queue and changes
nothing else that a submission reads. -/
theorem foldl_recordCommandBuffer (l : List CommandBuffer) (csr : CommandStreamReceiver)
    (hmode : csr.dispatchMode = DispatchMode.BatchedDispatch) :
    (l.foldl recordCommandBuffer csr).commandBuffers = csr.commandBuffers ++ l ∧
    (l.foldl recordCommandBuffer csr).submits = csr.submits := by
  induction l generalizing csr with
  | nil => simp
  | cons b rest ih =>
    have hstep : csr.recordCommandBuffer b
        = { csr with commandBuffers := csr.commandBuffers ++ [b] } := by
      unfold recordCommandBuffer
      rw [hmode]
    rw [List.foldl_cons, hstep]
    obtain ⟨h1, h2⟩ := ih { csr with commandBuffers := csr.commandBuffers ++ [b] } hmode
    rw [h1, h2]
    simp

/-- The command buffers of a log that got one more submit. -/
theorem submittedCommandBuffers_append (l : List SubmitCall) (submit : SubmitCall) :
    submittedCommandBuffers (l ++ [submit])
      = submittedCommandBuffers l ++ submit.commandBuffers := by
  induction l with
  | nil => simp [submittedCommandBuffers]
  | cons s rest ih => simp [submittedCommandBuffers, ih]

/-- C5: under batched dispatch, for every list of command buffers recorded in
order, a `flushBatchedSubmissions` call that the kernel-mode driver accepts
succeeds, hands the pending command buffers (those pending before, followed
by the recorded ones) to the driver in exactly that order, each once, in at
most one submit, and leaves the queue returned by `peekCommandBuffers` empty. -/
theorem flushBatchedSubmissions_preserves_order (csr : CommandStreamReceiver)
    (recorded : List CommandBuffer)
    (hmode : csr.dispatchMode = DispatchMode.BatchedDispatch) :
    (recorded.foldl recordCommandBuffer csr).peekCommandBuffers
      = csr.peekCommandBuffers ++ recorded ∧
    ∃ next, (recorded.foldl recordCommandBuffer csr).flushBatchedSubmissions true
        = Except.ok next ∧
      next.peekCommandBuffers = [] ∧
      submittedCommandBuffers next.submits
        = submittedCommandBuffers csr.submits
          ++ (csr.peekCommandBuffers ++ recorded).map (fun cb => cb.batchBuffer) ∧
      next.submits.length ≤ csr.submits.length + 1 := by
  obtain ⟨hq, hs⟩ := foldl_recordCommandBuffer recorded csr hmode
  refine ⟨hq, ?_⟩
  unfold flushBatchedSubmissions peekCommandBuffers
  cases hpending : (recorded.foldl recordCommandBuffer csr).commandBuffers with
  | nil =>
    refine ⟨_, rfl, hpending, ?_, ?_⟩
    · rw [hs, ← hq, hpending]; simp
    · rw [hs]; omega
  | cons first rest =>
    obtain ⟨flushed, hflushed⟩ :=
      submitCommandBuffers_accepted (recorded.foldl recordCommandBuffer csr) first.batchBuffer
        ((first :: rest).map (fun cb => cb.batchBuffer)) (batchedResidency (first :: rest))
    obtain ⟨_, _, _, _, _, _, _, hsub⟩ := submitCommandBuffers_ok _ _ _ _ _ _ _ hflushed
    simp only [hflushed]
    refine ⟨_, rfl, rfl, ?_, ?_⟩
    · show submittedCommandBuffers flushed.submits = _
      rw [hsub, submittedCommandBuffers_append, hs, ← hq, hpending]
    · show flushed.submits.length ≤ _
      rw [hsub, hs]; simp

/-- Witness of C5: three command buffers recorded on the batched example
receiver, as in section 8 (5). -/
theorem flushBatchedSubmissions_preserves_order_witness :
    (exampleCommandBuffers.foldl recordCommandBuffer exampleBatchedReceiver).peekCommandBuffers
      = exampleBatchedReceiver.peekCommandBuffers ++ exampleCommandBuffers ∧
    ∃ next,
      (exampleCommandBuffers.foldl recordCommandBuffer
        exampleBatchedReceiver).flushBatchedSubmissions true = Except.ok next ∧
      next.peekCommandBuffers = [] ∧
      submittedCommandBuffers next.submits
        = submittedCommandBuffers exampleBatchedReceiver.submits
          ++ (exampleBatchedReceiver.peekCommandBuffers ++ exampleCommandBuffers).map
            (fun cb => cb.batchBuffer) ∧
      next.submits.length ≤ exampleBatchedReceiver.submits.length + 1 :=
  flushBatchedSubmissions_preserves_order exampleBatchedReceiver exampleCommandBuffers rfl

/-! ### Internal allocation storage -/

/-- Storing the pool of a category and reading it back. -/
theorem allocationList_setAllocationList (csr : CommandStreamReceiver) (usage : AllocationUsage)
    (l : List AllocId) : (csr.setAllocationList usage l).allocationList usage = l := by
  cases usage <;> rfl

/-- C1: for every allocation `a` stored in the internal allocation storage under
a category, with task count `T` recorded for the receiver's context, and every
target `X`, `waitForTaskCountAndCleanAllocationList X category` releases `a`
(takes it out of the pool and hands it to the memory manager) if and only if
`X ≥ T`; for `X < T` the allocation stays stored, as often as before, and
untouched.  Nothing is released whose task count exceeds the completed fence
value the call waited for. -/
theorem waitForTaskCountAndCleanAllocationList_releases (csr : CommandStreamReceiver)
    (requiredTaskCount : Nat) (usage : AllocationUsage) (a : AllocId)
    (h : a ∈ csr.allocationList usage) :
    (a ∉ (csr.waitForTaskCountAndCleanAllocationList requiredTaskCount usage).allocationList usage
      ↔ requiredTaskCount ≥ csr.getTaskCount a) ∧
    (∃ released,
      (csr.waitForTaskCountAndCleanAllocationList requiredTaskCount usage).freedAllocations
        = csr.freedAllocations ++ released ∧
      (a ∈ released ↔ requiredTaskCount ≥ csr.getTaskCount a) ∧
      (∀ b ∈ released, csr.getTaskCount b ≤
        (csr.waitForTaskCountAndCleanAllocationList requiredTaskCount
          usage).monitoredFence.lastCompletedFence)) ∧
    (requiredTaskCount < csr.getTaskCount a →
      a ∈ (csr.waitForTaskCountAndCleanAllocationList requiredTaskCount usage).allocationList
        usage ∧
      ((csr.waitForTaskCountAndCleanAllocationList requiredTaskCount usage).allocationList
        usage).count a = (csr.allocationList usage).count a ∧
      (csr.waitForTaskCountAndCleanAllocationList requiredTaskCount usage).allocations a
        = csr.allocations a) := by
  have hlist : (csr.waitForTaskCountAndCleanAllocationList requiredTaskCount usage).allocationList
      usage = (csr.allocationList usage).filter
        (fun b => !decide (csr.getTaskCount b ≤ requiredTaskCount)) := by
    cases usage <;> rfl
  have hfreed : (csr.waitForTaskCountAndCleanAllocationList requiredTaskCount
      usage).freedAllocations = csr.freedAllocations ++
        (csr.allocationList usage).filter
          (fun b => decide (csr.getTaskCount b ≤ requiredTaskCount)) := by
    cases usage <;> rfl
  have hfence : (csr.waitForTaskCountAndCleanAllocationList requiredTaskCount
      usage).monitoredFence.lastCompletedFence
        = max csr.monitoredFence.lastCompletedFence requiredTaskCount := by
    cases usage <;> rfl
  have hallocs : (csr.waitForTaskCountAndCleanAllocationList requiredTaskCount
      usage).allocations = csr.allocations := by
    cases usage <;> rfl
  refine ⟨?_, ⟨_, hfreed, ?_, ?_⟩, ?_⟩
  · rw [hlist]
    simp [List.mem_filter, h]
  · simp [List.mem_filter, h]
  · intro b hb
    rw [hfence]
    have := (List.mem_filter.mp hb).2
    simp at this
    omega
  · intro hlt
    rw [hlist, hallocs]
    refine ⟨?_, ?_, rfl⟩
    · simp [List.mem_filter, h, hlt]
    · rw [List.count_filter]
      simp
      omega

/-- Witness of C1, the scenario of the test: allocations 1 and 2 are stored as
temporary with task counts 1 and 100; a call with target 1 keeps allocation 2
(its task count 100 exceeds the target) and releases allocation 1. -/
theorem waitForTaskCountAndCleanAllocationList_releases_witness :
    (exampleStorageReceiver.waitForTaskCountAndCleanAllocationList 1
      AllocationUsage.TEMPORARY_ALLOCATION).allocationList
        AllocationUsage.TEMPORARY_ALLOCATION = [2] ∧
    (exampleStorageReceiver.waitForTaskCountAndCleanAllocationList 1
      AllocationUsage.TEMPORARY_ALLOCATION).freedAllocations = [1] ∧
    ((exampleStorageReceiver.waitForTaskCountAndCleanAllocationList 1
      AllocationUsage.TEMPORARY_ALLOCATION).waitForTaskCountAndCleanAllocationList 100
      AllocationUsage.TEMPORARY_ALLOCATION).allocationList
        AllocationUsage.TEMPORARY_ALLOCATION = [] ∧
    ((exampleStorageReceiver.waitForTaskCountAndCleanAllocationList 1
      AllocationUsage.TEMPORARY_ALLOCATION).waitForTaskCountAndCleanAllocationList 100
      AllocationUsage.TEMPORARY_ALLOCATION).freedAllocations = [1, 2] ∧
    (2 ∉ (exampleStorageReceiver.waitForTaskCountAndCleanAllocationList 1
        AllocationUsage.TEMPORARY_ALLOCATION).allocationList
          AllocationUsage.TEMPORARY_ALLOCATION
      ↔ 1 ≥ exampleStorageReceiver.getTaskCount 2) :=
  ⟨by decide, by decide, by decide, by decide,
    (waitForTaskCountAndCleanAllocationList_releases exampleStorageReceiver 1
      AllocationUsage.TEMPORARY_ALLOCATION 2 (by decide)).1⟩


/-! ### Submission: address, KM-DAF locking, waiting, preemption flag -/

/-- Recording a task count leaves the type of every allocation alone. -/
theorem updateTaskCount_allocationType (csr : CommandStreamReceiver) (x a : AllocId)
    (fence : Nat) :
    ((csr.updateTaskCount x fence).allocations a).allocationType
      = (csr.allocations a).allocationType := by
  unfold updateTaskCount setAllocation GraphicsAllocation.updateTaskCount
  by_cases hax : a = x
  · subst hax
    simp only [if_true]
    split <;> rfl
  · simp only [if_neg hax]

/-- Stamping a list of allocations leaves the type of every allocation alone. -/
theorem stamp_allocationType (l : List AllocId) (fence : Nat) (csr : CommandStreamReceiver)
    (a : AllocId) :
    ((l.foldl (fun c x => c.updateTaskCount x fence) csr).allocations a).allocationType
      = (csr.allocations a).allocationType := by
  induction l generalizing csr with
  | nil => rfl
  | cons x rest ih => rw [List.foldl_cons, ih, updateTaskCount_allocationType]

/-- The header and the KM-DAF locks an accepted submission leaves behind. -/
theorem submitCommandBuffers_header_and_locks (csr : CommandStreamReceiver)
    (primary : BatchBuffer) (carried : List BatchBuffer) (c : List AllocId)
    (kmdAccepts : Bool) (stamp : Nat) (next : CommandStreamReceiver)
    (h : csr.submitCommandBuffers primary carried c kmdAccepts = Except.ok (stamp, next)) :
    next.commandBufferHeader = csr.patchHeader primary ∧
    next.kmDafEnabled = csr.kmDafEnabled ∧
    next.waitFromCpuCalls = csr.waitFromCpuCalls ∧
    next.kmDafLockedAllocations =
      csr.kmDafLockedAllocations ++
        (if csr.kmDafEnabled then
          c.filter (fun a => isKmDafLockable (csr.allocations a).allocationType)
        else []) := by
  unfold submitCommandBuffers at h
  cases kmdAccepts with
  | false => simp at h
  | true =>
    simp only [if_true] at h
    injection h with h
    injection h with h1 h2
    subst h1 h2
    have htype : ∀ a, ((csr.processResidency c).allocations a).allocationType
        = (csr.allocations a).allocationType := by
      intro a
      rw [(processResidency_frame c csr).2 a]
    rw [stamp_frame, (processResidency_frame c csr).1]
    refine ⟨?_, ?_, ?_, ?_⟩
    · split <;> rfl
    · split <;> rfl
    · split <;> rfl
    · cases hk : csr.kmDafEnabled with
      | false => simp [hk]
      | true =>
        simp only [hk, if_true, kmDafLockAllocations]
        congr 1
        apply List.filter_congr
        intro a _
        rw [stamp_allocationType]
        exact congrArg isKmDafLockable (htype a)

/-- C11: for every batch buffer, the command-buffer address a successful `flush`
submits to the kernel-mode driver is the GPU address of the command buffer
allocation plus `batchBuffer.startOffset`; the CPU pointer plays no part, so
when it differs from the GPU address the submitted address differs from CPU
pointer plus offset. -/
theorem flush_submits_gpuAddress_plus_startOffset (csr : CommandStreamReceiver)
    (batchBuffer : BatchBuffer) (c : List AllocId) (kmdAccepts : Bool) (stamp : FlushStamp)
    (next : CommandStreamReceiver)
    (h : csr.flush batchBuffer c kmdAccepts = Except.ok (stamp, next)) :
    ∃ submit : SubmitCall, next.submits = csr.submits ++ [submit] ∧
      submit.commandBufferSubmitted
        = (csr.allocations batchBuffer.commandBufferAllocation).gpuAddress
          + batchBuffer.startOffset ∧
      ((csr.allocations batchBuffer.commandBufferAllocation).cpuPtr
          ≠ (csr.allocations batchBuffer.commandBufferAllocation).gpuAddress →
        submit.commandBufferSubmitted
          ≠ (csr.allocations batchBuffer.commandBufferAllocation).cpuPtr
            + batchBuffer.startOffset) := by
  obtain ⟨_, _, _, _, _, _, _, hsub⟩ :=
    submitCommandBuffers_ok csr batchBuffer _ c kmdAccepts stamp next h
  refine ⟨_, hsub, rfl, ?_⟩
  intro hne heq
  apply hne
  have h2 : (csr.allocations batchBuffer.commandBufferAllocation).gpuAddress
      + batchBuffer.startOffset
      = (csr.allocations batchBuffer.commandBufferAllocation).cpuPtr
        + batchBuffer.startOffset := heq
  omega

/-- Witness of C11: allocation 1 has GPU address 1337 and another CPU pointer, the
batch buffer starts at offset 128; the address submitted is 1337 + 128. -/
theorem flush_submits_gpuAddress_plus_startOffset_witness :
    ∃ submit : SubmitCall,
      (receiverAfter exampleGpuAddressReceiver
        (exampleGpuAddressReceiver.flush exampleOffsetBatchBuffer [] true)).submits
        = exampleGpuAddressReceiver.submits ++ [submit] ∧
      submit.commandBufferSubmitted = 1337 + 128 ∧
      ((exampleGpuAddressReceiver.allocations 1).cpuPtr
          ≠ (exampleGpuAddressReceiver.allocations 1).gpuAddress →
        submit.commandBufferSubmitted
          ≠ (exampleGpuAddressReceiver.allocations 1).cpuPtr + 128) :=
  flush_submits_gpuAddress_plus_startOffset exampleGpuAddressReceiver exampleOffsetBatchBuffer
    [] true 1
    (receiverAfter exampleGpuAddressReceiver
      (exampleGpuAddressReceiver.flush exampleOffsetBatchBuffer [] true)) rfl

/-- The blocked CPU: the wait succeeds exactly when the completed value it
returns with has reached the awaited value, which is the case exactly when
the fence had reached it before or one of the signals reaches it; the
completed value never moves back. -/
theorem waitUntilSignalled_spec (fenceValue : Nat) (signals : List Nat) (completed : Nat) :
    ((waitUntilSignalled fenceValue completed signals).1 = true ↔
      fenceValue ≤ (waitUntilSignalled fenceValue completed signals).2) ∧
    ((waitUntilSignalled fenceValue completed signals).1 = true ↔
      (fenceValue ≤ completed ∨ ∃ signal ∈ signals, fenceValue ≤ signal)) ∧
    completed ≤ (waitUntilSignalled fenceValue completed signals).2 := by
  induction signals generalizing completed with
  | nil => simp [waitUntilSignalled]
  | cons signal rest ih =>
    unfold waitUntilSignalled
    by_cases hreached : fenceValue ≤ completed
    · rw [if_pos hreached]
      simp [hreached]
    · rw [if_neg hreached]
      obtain ⟨h1, h2, h3⟩ := ih (max completed signal)
      refine ⟨h1, ?_, ?_⟩
      · rw [h2]
        simp only [List.mem_cons, exists_eq_or_imp]
        constructor
        · rintro (hmax | hrest)
          · right; left
            omega
          · right; right; exact hrest
        · rintro (hc | hs | hrest)
          · exact absurd hc hreached
          · left; omega
          · right; exact hrest
      · exact Nat.le_trans (Nat.le_max_left _ _) h3

/-- C13 (amended): for every stamp value and every answer of driver and GPU,
`waitForFlushStamp(stamp)` issues exactly one CPU wait on the monitored fence
of the context, with the awaited fence value equal to the stamp, and it
returns success only once the completed value of the fence is at least the
stamp: success is returned exactly when the driver does not fail the wait and
the fence had reached the stamp or is signalled a value that reaches it.  A
wait that times out returns a failure, with the completed value still below
the stamp.  The completed value never moves back and the last submitted value
is left alone. -/
theorem waitForFlushStamp_waits_once_for_stamp (csr : CommandStreamReceiver)
    (stamp : FlushStamp) (wait : FenceWait) :
    (csr.waitForFlushStamp stamp wait).2.waitFromCpuCalls = csr.waitFromCpuCalls ++ [stamp] ∧
    ((csr.waitForFlushStamp stamp wait).1 = true →
      stamp ≤ (csr.waitForFlushStamp stamp wait).2.monitoredFence.lastCompletedFence) ∧
    ((csr.waitForFlushStamp stamp wait).1 = true ↔
      (wait.driverError = false ∧
        (stamp ≤ csr.monitoredFence.lastCompletedFence ∨
          ∃ signal ∈ wait.signals, stamp ≤ signal))) ∧
    (wait.driverError = false → (csr.waitForFlushStamp stamp wait).1 = false →
      (csr.waitForFlushStamp stamp wait).2.monitoredFence.lastCompletedFence < stamp) ∧
    csr.monitoredFence.lastCompletedFence
      ≤ (csr.waitForFlushStamp stamp wait).2.monitoredFence.lastCompletedFence ∧
    (csr.waitForFlushStamp stamp wait).2.monitoredFence.lastSubmittedFence
      = csr.monitoredFence.lastSubmittedFence := by
  obtain ⟨hreached, hsignalled, hmono⟩ :=
    waitUntilSignalled_spec stamp wait.signals csr.monitoredFence.lastCompletedFence
  unfold waitForFlushStamp waitFromCpu
  cases herror : wait.driverError with
  | true => simp
  | false =>
    simp only [Bool.false_eq_true, if_false, true_and]
    refine ⟨hreached.mp, hsignalled, ?_, hmono, trivial⟩
    intro _ hfailed
    have hnot : ¬ stamp ≤ (waitUntilSignalled stamp csr.monitoredFence.lastCompletedFence
        wait.signals).2 := by
      intro hle
      rw [hreached.mpr hle] at hfailed
      exact absurd hfailed (by simp)
    exact Nat.lt_of_not_le hnot

/-- Witness of C13: the wait of the test
`givenFlushStampWhenWaitCalledThenWaitForSpecifiedMonitoredFence` for the stamp
123, with a GPU that signals 123: one wait with the value 123 is issued and
it succeeds with the completed value 123. -/
theorem waitForFlushStamp_waits_once_for_stamp_witness :
    (exampleReceiver.waitForFlushStamp 123
      { driverError := false, signals := [123] }).2.waitFromCpuCalls = [123] ∧
    (exampleReceiver.waitForFlushStamp 123 { driverError := false, signals := [123] }).1
      = true ∧
    123 ≤ (exampleReceiver.waitForFlushStamp 123
      { driverError := false, signals := [123] }).2.monitoredFence.lastCompletedFence := by
  obtain ⟨hcalls, hcompleted, hsuccess, _⟩ :=
    waitForFlushStamp_waits_once_for_stamp exampleReceiver 123
      { driverError := false, signals := [123] }
  have hok : (exampleReceiver.waitForFlushStamp 123
      { driverError := false, signals := [123] }).1 = true :=
    hsuccess.mpr ⟨rfl, Or.inr ⟨123, by simp, Nat.le_refl _⟩⟩
  exact ⟨hcalls, hok, hcompleted hok⟩

/-- Counterexample to C13 as stated: the receiver of the examples has completed
nothing, the stamp is 123 and the GPU signals nothing before the wait times
out.  The call issues its one wait and returns, with a failure, while the
completed value is 0 and not at least 123. -/
theorem waitForFlushStamp_timeout_counterexample :
    (exampleReceiver.waitForFlushStamp 123
      { driverError := false, signals := [] }).2.waitFromCpuCalls = [123] ∧
    (exampleReceiver.waitForFlushStamp 123 { driverError := false, signals := [] }).1
      = false ∧
    (exampleReceiver.waitForFlushStamp 123
      { driverError := false, signals := [] }).2.monitoredFence.lastCompletedFence = 0 ∧
    ¬ (123 ≤ (exampleReceiver.waitForFlushStamp 123
      { driverError := false, signals := [] }).2.monitoredFence.lastCompletedFence) := by
  refine ⟨by decide, by decide, by decide, by decide⟩

/-- Successive flushes leave the preemption flag of the header alone. -/
theorem flushes_preemption_flag (requests : List FlushRequest) (csr : CommandStreamReceiver) :
    (csr.flushes requests).2.commandBufferHeader.NeedsMidBatchPreEmptionSupport
      = csr.commandBufferHeader.NeedsMidBatchPreEmptionSupport := by
  induction requests generalizing csr with
  | nil => rfl
  | cons r rest ih =>
    cases hf : csr.flush r.batchBuffer r.allocationsForResidency r.kmdAccepts with
    | error e => rw [flushes_cons_error csr r rest e hf]; exact ih csr
    | ok res =>
      obtain ⟨stamp, next⟩ := res
      obtain ⟨hheader, _⟩ :=
        submitCommandBuffers_header_and_locks csr r.batchBuffer _ _ _ stamp next hf
      rw [flushes_cons_ok csr next r rest stamp hf]
      show (next.flushes rest).2.commandBufferHeader.NeedsMidBatchPreEmptionSupport = _
      rw [ih next, hheader]
      rfl

/-- C14: for every device, the `NeedsMidBatchPreEmptionSupport` flag is set if and
only if the default preemption mode of the device is not `Disabled`, both in
the header the receiver builds at creation and in the header every successful
`flush` hands to the kernel-mode driver, whatever flushes went before. -/
theorem preemption_flag_iff_preemption_enabled (hwInfo : HardwareInfo)
    (contextId : ContextId) (dispatchMode : DispatchMode)
    (gpuAddressOf cpuPtrOf : AllocId → Nat) (history : List FlushRequest)
    (batchBuffer : BatchBuffer) (c : List AllocId) (kmdAccepts : Bool) (stamp : FlushStamp)
    (next : CommandStreamReceiver)
    (h : ((create hwInfo contextId dispatchMode gpuAddressOf cpuPtrOf).flushes history).2.flush
      batchBuffer c kmdAccepts = Except.ok (stamp, next)) :
    ((create hwInfo contextId dispatchMode gpuAddressOf
        cpuPtrOf).commandBufferHeader.NeedsMidBatchPreEmptionSupport = true
      ↔ hwInfo.defaultPreemptionMode ≠ PreemptionMode.Disabled) ∧
    ∃ submit : SubmitCall,
      next.submits
        = ((create hwInfo contextId dispatchMode gpuAddressOf cpuPtrOf).flushes
          history).2.submits ++ [submit] ∧
      (submit.commandHeaderSubmitted.NeedsMidBatchPreEmptionSupport = true
        ↔ hwInfo.defaultPreemptionMode ≠ PreemptionMode.Disabled) := by
  have hcreate : (create hwInfo contextId dispatchMode gpuAddressOf
        cpuPtrOf).commandBufferHeader.NeedsMidBatchPreEmptionSupport = true
      ↔ hwInfo.defaultPreemptionMode ≠ PreemptionMode.Disabled := by
    simp [create]
  obtain ⟨_, _, _, _, _, _, _, hsub⟩ := submitCommandBuffers_ok _ batchBuffer _ c kmdAccepts
    stamp next h
  refine ⟨hcreate, _, hsub, ?_⟩
  rw [← hcreate, ← flushes_preemption_flag history]
  rfl

/-- Witness of C14: the example device has mid-thread preemption; the header of
the first flush carries the flag. -/
theorem preemption_flag_iff_preemption_enabled_witness :
    (exampleReceiver.commandBufferHeader.NeedsMidBatchPreEmptionSupport = true
      ↔ exampleHardwareInfo.defaultPreemptionMode ≠ PreemptionMode.Disabled) ∧
    ∃ submit : SubmitCall,
      (receiverAfter exampleReceiver
        (exampleReceiver.flush (exampleBatchBuffer 1 QueueThrottle.MEDIUM) [] true)).submits
        = exampleReceiver.submits ++ [submit] ∧
      (submit.commandHeaderSubmitted.NeedsMidBatchPreEmptionSupport = true
        ↔ exampleHardwareInfo.defaultPreemptionMode ≠ PreemptionMode.Disabled) :=
  preemption_flag_iff_preemption_enabled exampleHardwareInfo 0 DispatchMode.ImmediateDispatch
    exampleGpuAddress exampleCpuPtr [] (exampleBatchBuffer 1 QueueThrottle.MEDIUM) [] true 1
    (receiverAfter exampleReceiver
      (exampleReceiver.flush (exampleBatchBuffer 1 QueueThrottle.MEDIUM) [] true)) rfl

end CommandStreamReceiver


namespace Buffer

/-! ### Buffer creation -/

/-- The outcome of `Buffer::create` when `checkMemory` fails. -/
theorem create_of_checkMemory_failed (env : Environment) (context : Context)
    (properties : MemoryProperties) (size hostPtr : Nat) (memoryManager : MemoryManager)
    (h : context.memoryManager = some memoryManager)
    (hc : (checkMemory properties.flags size hostPtr memoryManager).errcodeRet ≠ CL_SUCCESS) :
    create env context properties size hostPtr =
      some
        { buffer := none
          errcodeRet := (checkMemory properties.flags size hostPtr memoryManager).errcodeRet
          memory := none
          allocationRequests := []
          addedToHostPtrManager := false
          createBufferHwCalls := []
          copy := none
          released := false
          freedMemory := false
          performanceHints := [] } := by
  unfold create
  rw [h]
  simp only []
  rw [if_pos hc]

/-- The outcome of `Buffer::create` when no memory was obtained. -/
theorem create_of_no_memory (env : Environment) (context : Context)
    (properties : MemoryProperties) (size hostPtr : Nat) (memoryManager : MemoryManager)
    (h : context.memoryManager = some memoryManager)
    (hc : (checkMemory properties.flags size hostPtr memoryManager).errcodeRet = CL_SUCCESS)
    (hm : (createObtainMemory memoryManager properties size hostPtr
      (createSelectPath env context memoryManager properties hostPtr
        (checkMemory properties.flags size hostPtr memoryManager))).1.memory = none) :
    create env context properties size hostPtr =
      some
        { buffer := none
          errcodeRet := CL_OUT_OF_HOST_MEMORY
          memory := none
          allocationRequests :=
            (createObtainMemory memoryManager properties size hostPtr
              (createSelectPath env context memoryManager properties hostPtr
                (checkMemory properties.flags size hostPtr memoryManager))).2.1
          addedToHostPtrManager :=
            (createObtainMemory memoryManager properties size hostPtr
              (createSelectPath env context memoryManager properties hostPtr
                (checkMemory properties.flags size hostPtr memoryManager))).2.2
          createBufferHwCalls := []
          copy := none
          released := false
          freedMemory := false
          performanceHints :=
            createPerformanceHints env context memoryManager properties hostPtr
              (checkMemory properties.flags size hostPtr memoryManager) } := by
  unfold create
  rw [h]
  simp only []
  rw [if_neg (by simpa using hc)]
  simp only [hm]

/-- The outcome of `Buffer::create` when memory was obtained. -/
theorem create_of_memory (env : Environment) (context : Context)
    (properties : MemoryProperties) (size hostPtr : Nat) (memoryManager : MemoryManager)
    (memory : GraphicsAllocation)
    (h : context.memoryManager = some memoryManager)
    (hc : (checkMemory properties.flags size hostPtr memoryManager).errcodeRet = CL_SUCCESS)
    (hm : (createObtainMemory memoryManager properties size hostPtr
      (createSelectPath env context memoryManager properties hostPtr
        (checkMemory properties.flags size hostPtr memoryManager))).1.memory = some memory) :
    create env context properties size hostPtr =
      some (createFinish env context properties size hostPtr memory
        (createObtainMemory memoryManager properties size hostPtr
          (createSelectPath env context memoryManager properties hostPtr
            (checkMemory properties.flags size hostPtr memoryManager)))
        (createPerformanceHints env context memoryManager properties hostPtr
          (checkMemory properties.flags size hostPtr memoryManager))) := by
  unfold create
  rw [h]
  simp only []
  rw [if_neg (by simpa using hc)]
  simp only [hm]

/-- The status after the copy is `CL_SUCCESS` or `CL_OUT_OF_RESOURCES`. -/
theorem createCopyStatus_cases (context : Context) (copy : Option HostPtrCopy) :
    createCopyStatus context copy = CL_SUCCESS ∨
    createCopyStatus context copy = CL_OUT_OF_RESOURCES := by
  unfold createCopyStatus
  split
  · split
    · exact Or.inr rfl
    · exact Or.inl rfl
  · exact Or.inl rfl

/-- The last part of `Buffer::create` returns an object exactly with
`CL_SUCCESS`. -/
theorem createFinish_no_partial_success (env : Environment) (context : Context)
    (properties : MemoryProperties) (size hostPtr : Nat) (memory : GraphicsAllocation)
    (obtained : CreateLocals × List AllocationRequest × Bool) (hints : List PerformanceHint) :
    (createFinish env context properties size hostPtr memory obtained hints).buffer ≠ none ↔
    (createFinish env context properties size hostPtr memory obtained hints).errcodeRet
      = CL_SUCCESS := by
  unfold createFinish
  simp only []
  split
  · simp [CL_OUT_OF_HOST_MEMORY, CL_SUCCESS]
  · split
    · rename_i hs
      simp [hs]
    · rename_i hs
      simpa using hs

/-- C16: buffer creation has no silent partial success.  For every input on which
`Buffer::create` returns (the context has a memory manager), the returned
pointer is non-null if and only if `errcodeRet` is `CL_SUCCESS` on return. -/
theorem create_no_partial_success (env : Environment) (context : Context)
    (properties : MemoryProperties) (size hostPtr : Nat) (memoryManager : MemoryManager)
    (h : context.memoryManager = some memoryManager) :
    ∃ outcome, create env context properties size hostPtr = some outcome ∧
      (outcome.buffer ≠ none ↔ outcome.errcodeRet = CL_SUCCESS) := by
  by_cases hc : (checkMemory properties.flags size hostPtr memoryManager).errcodeRet = CL_SUCCESS
  · cases hm : (createObtainMemory memoryManager properties size hostPtr
        (createSelectPath env context memoryManager properties hostPtr
          (checkMemory properties.flags size hostPtr memoryManager))).1.memory with
    | none =>
      exact ⟨_, create_of_no_memory env context properties size hostPtr memoryManager h hc hm,
        by simp [CL_OUT_OF_HOST_MEMORY, CL_SUCCESS]⟩
    | some memory =>
      exact ⟨_, create_of_memory env context properties size hostPtr memoryManager memory h hc hm,
        createFinish_no_partial_success _ _ _ _ _ _ _ _⟩
  · exact ⟨_, create_of_checkMemory_failed env context properties size hostPtr memoryManager h hc,
      by simp [hc]⟩

end Buffer


/-- A bitwise or is zero only when both sides are. -/
theorem lor_eq_zero (x y : Nat) : x ||| y = 0 ↔ x = 0 ∧ y = 0 := by
  constructor
  · intro h
    have hb : ∀ i, (x ||| y).testBit i = false := by
      intro i; rw [h]; exact Nat.zero_testBit i
    constructor
    · apply Nat.eq_of_testBit_eq
      intro i
      have hi := hb i
      rw [Nat.testBit_or] at hi
      simp only [Bool.or_eq_false_iff] at hi
      rw [hi.1, Nat.zero_testBit]
    · apply Nat.eq_of_testBit_eq
      intro i
      have hi := hb i
      rw [Nat.testBit_or] at hi
      simp only [Bool.or_eq_false_iff] at hi
      rw [hi.2, Nat.zero_testBit]
  · rintro ⟨rfl, rfl⟩
    rfl

/-- Flags contain a bit of a combined mask when they contain a bit of one part. -/
theorem hasFlag_lor (flags a b : Nat) :
    hasFlag flags (a ||| b) = true ↔ hasFlag flags a = true ∨ hasFlag flags b = true := by
  unfold hasFlag
  rw [Nat.and_or_distrib_left]
  simp only [bne_iff_ne, ne_eq, lor_eq_zero]
  tauto

namespace Buffer

/-- C15: `Buffer::validateInputAndCreateBuffer` reports the first failing check in
a fixed order and then leaves the output handle `buffer` as it was: size 0
gives `CL_INVALID_BUFFER_SIZE` whatever the other arguments are; otherwise
invalid memory properties give `CL_INVALID_VALUE`; otherwise
`CL_INVALID_HOST_PTR` is returned exactly when `hostPtr == nullptr` equals
"the flags contain `CL_MEM_COPY_HOST_PTR` or `CL_MEM_USE_HOST_PTR`"; otherwise
an invalid context gives its validation status; only when all four checks
pass is `Buffer::create` called, and its status and result are handed out. -/
theorem validateInputAndCreateBuffer_reports_first_failure (env : Environment)
    (context : ContextHandle) (properties : MemoryProperties) (size hostPtr : Nat)
    (buffer : Option Buffer) :
    (size = 0 →
      validateInputAndCreateBuffer env context properties size hostPtr buffer
        = some { retVal := CL_INVALID_BUFFER_SIZE, buffer := buffer, created := none }) ∧
    (size ≠ 0 → env.validateMemoryProperties properties = false →
      validateInputAndCreateBuffer env context properties size hostPtr buffer
        = some { retVal := CL_INVALID_VALUE, buffer := buffer, created := none }) ∧
    (size ≠ 0 → env.validateMemoryProperties properties = true →
      ((hostPtr = nullptr ↔
          (hasFlag properties.flags CL_MEM_COPY_HOST_PTR = true ∨
            hasFlag properties.flags CL_MEM_USE_HOST_PTR = true)) →
        validateInputAndCreateBuffer env context properties size hostPtr buffer
          = some { retVal := CL_INVALID_HOST_PTR, buffer := buffer, created := none }) ∧
      (¬ (hostPtr = nullptr ↔
          (hasFlag properties.flags CL_MEM_COPY_HOST_PTR = true ∨
            hasFlag properties.flags CL_MEM_USE_HOST_PTR = true)) →
        (context.validateObjects ≠ CL_SUCCESS →
          validateInputAndCreateBuffer env context properties size hostPtr buffer
            = some { retVal := context.validateObjects, buffer := buffer, created := none }) ∧
        (context.validateObjects = CL_SUCCESS →
          ∀ pContext, context.pContext = some pContext →
            validateInputAndCreateBuffer env context properties size hostPtr buffer
              = (create env pContext properties size hostPtr).map
                  (fun outcome =>
                    { retVal := outcome.errcodeRet
                      buffer := outcome.buffer
                      created := some outcome })))) := by
  have hexpect : (decide (hostPtr = nullptr)
        = hasFlag properties.flags (CL_MEM_COPY_HOST_PTR ||| CL_MEM_USE_HOST_PTR))
      ↔ (hostPtr = nullptr ↔
          (hasFlag properties.flags CL_MEM_COPY_HOST_PTR = true ∨
            hasFlag properties.flags CL_MEM_USE_HOST_PTR = true)) := by
    rw [← hasFlag_lor, Bool.eq_iff_iff]
    simp
  refine ⟨?_, ?_, ?_⟩
  · intro hsize
    unfold validateInputAndCreateBuffer
    rw [if_pos hsize]
  · intro hsize hvalid
    unfold validateInputAndCreateBuffer
    rw [if_neg hsize, if_pos hvalid]
  · intro hsize hvalid
    have hvalid2 : ¬ env.validateMemoryProperties properties = false := by simp [hvalid]
    refine ⟨?_, ?_⟩
    · intro hhost
      unfold validateInputAndCreateBuffer
      rw [if_neg hsize, if_neg hvalid2]
      simp only []
      rw [if_pos (hexpect.mpr hhost)]
    · intro hhost
      have hhost2 := fun hd => hhost (hexpect.mp hd)
      refine ⟨?_, ?_⟩
      · intro hctx
        unfold validateInputAndCreateBuffer
        rw [if_neg hsize, if_neg hvalid2]
        simp only []
        rw [if_neg hhost2, if_pos hctx]
      · intro hctx pContext hp
        unfold validateInputAndCreateBuffer
        rw [if_neg hsize, if_neg hvalid2]
        simp only []
        rw [if_neg hhost2, if_neg (by simpa using hctx)]
        simp only [hp]
        cases create env pContext properties size hostPtr <;> rfl

/-- Witness of C15: the handle holds the example parent buffer on entry.  A request
of size 0 with every other argument wrong too reports
`CL_INVALID_BUFFER_SIZE`; 64 bytes with memory properties that do not validate
report `CL_INVALID_VALUE`; 64 bytes with `CL_MEM_USE_HOST_PTR` and no host
pointer report `CL_INVALID_HOST_PTR`; 64 bytes without a host pointer in an
invalid context report `CL_INVALID_CONTEXT`; in each case the handle still
holds the parent buffer.  With a valid context `Buffer::create` is called. -/
theorem validateInputAndCreateBuffer_reports_first_failure_witness :
    validateInputAndCreateBuffer
        { exampleEnvironment with validateMemoryProperties := fun _ => false }
        { validateObjects := CL_INVALID_CONTEXT, pContext := none }
        { flags := CL_MEM_USE_HOST_PTR, flags_intel := 0 } 0 nullptr (some exampleParentBuffer)
      = some { retVal := CL_INVALID_BUFFER_SIZE, buffer := some exampleParentBuffer,
               created := none } ∧
    validateInputAndCreateBuffer
        { exampleEnvironment with validateMemoryProperties := fun _ => false }
        { validateObjects := CL_INVALID_CONTEXT, pContext := none }
        { flags := CL_MEM_USE_HOST_PTR, flags_intel := 0 } 64 nullptr (some exampleParentBuffer)
      = some { retVal := CL_INVALID_VALUE, buffer := some exampleParentBuffer,
               created := none } ∧
    validateInputAndCreateBuffer exampleEnvironment
        { validateObjects := CL_INVALID_CONTEXT, pContext := none }
        { flags := CL_MEM_USE_HOST_PTR, flags_intel := 0 } 64 nullptr (some exampleParentBuffer)
      = some { retVal := CL_INVALID_HOST_PTR, buffer := some exampleParentBuffer,
               created := none } ∧
    validateInputAndCreateBuffer exampleEnvironment
        { validateObjects := CL_INVALID_CONTEXT, pContext := none }
        { flags := CL_MEM_READ_WRITE, flags_intel := 0 } 64 nullptr (some exampleParentBuffer)
      = some { retVal := CL_INVALID_CONTEXT, buffer := some exampleParentBuffer,
               created := none } ∧
    validateInputAndCreateBuffer exampleEnvironment
        { validateObjects := CL_SUCCESS
          pContext := some (exampleContext (exampleMemoryManager (some exampleSystemAllocation)) 0) }
        { flags := CL_MEM_READ_WRITE, flags_intel := 0 } 64 nullptr (some exampleParentBuffer)
      = (create exampleEnvironment
          (exampleContext (exampleMemoryManager (some exampleSystemAllocation)) 0)
          { flags := CL_MEM_READ_WRITE, flags_intel := 0 } 64 nullptr).map
            (fun outcome =>
              { retVal := outcome.errcodeRet
                buffer := outcome.buffer
                created := some outcome }) :=
  ⟨(validateInputAndCreateBuffer_reports_first_failure
      { exampleEnvironment with validateMemoryProperties := fun _ => false }
      { validateObjects := CL_INVALID_CONTEXT, pContext := none }
      { flags := CL_MEM_USE_HOST_PTR, flags_intel := 0 } 0 nullptr
      (some exampleParentBuffer)).1 rfl,
    (validateInputAndCreateBuffer_reports_first_failure
      { exampleEnvironment with validateMemoryProperties := fun _ => false }
      { validateObjects := CL_INVALID_CONTEXT, pContext := none }
      { flags := CL_MEM_USE_HOST_PTR, flags_intel := 0 } 64 nullptr
      (some exampleParentBuffer)).2.1 (by decide) rfl,
    ((validateInputAndCreateBuffer_reports_first_failure exampleEnvironment
      { validateObjects := CL_INVALID_CONTEXT, pContext := none }
      { flags := CL_MEM_USE_HOST_PTR, flags_intel := 0 } 64 nullptr
      (some exampleParentBuffer)).2.2 (by decide) rfl).1 (by decide),
    (((validateInputAndCreateBuffer_reports_first_failure exampleEnvironment
      { validateObjects := CL_INVALID_CONTEXT, pContext := none }
      { flags := CL_MEM_READ_WRITE, flags_intel := 0 } 64 nullptr
      (some exampleParentBuffer)).2.2 (by decide) rfl).2 (by decide)).1 (by decide),
    (((validateInputAndCreateBuffer_reports_first_failure exampleEnvironment
      { validateObjects := CL_SUCCESS
        pContext := some (exampleContext (exampleMemoryManager (some exampleSystemAllocation)) 0) }
      { flags := CL_MEM_READ_WRITE, flags_intel := 0 } 64 nullptr
      (some exampleParentBuffer)).2.2 (by decide) rfl).2 (by decide)).2 rfl _ rfl⟩


/-- C17: in `Buffer::create`, whenever no allocation was obtained (`memory` is
null after the optional retry), the function returns `nullptr` with
`errcodeRet = CL_OUT_OF_HOST_MEMORY` and has not called `createBufferHw`. -/
theorem create_without_memory (env : Environment) (context : Context)
    (properties : MemoryProperties) (size hostPtr : Nat) (memoryManager : MemoryManager)
    (h : context.memoryManager = some memoryManager)
    (hc : (checkMemory properties.flags size hostPtr memoryManager).errcodeRet = CL_SUCCESS)
    (hm : (createObtainMemory memoryManager properties size hostPtr
      (createSelectPath env context memoryManager properties hostPtr
        (checkMemory properties.flags size hostPtr memoryManager))).1.memory = none) :
    ∃ outcome, create env context properties size hostPtr = some outcome ∧
      outcome.buffer = none ∧
      outcome.errcodeRet = CL_OUT_OF_HOST_MEMORY ∧
      outcome.createBufferHwCalls = [] ∧
      outcome.memory = none :=
  ⟨_, create_of_no_memory env context properties size hostPtr memoryManager h hc hm,
    rfl, rfl, rfl, rfl⟩

/-- Witness of C17: a plain read-write buffer of 64 bytes on a memory manager
that has no memory left. -/
theorem create_without_memory_witness :
    ∃ outcome,
      create exampleEnvironment (exampleContext (exampleMemoryManager none) 0)
        { flags := CL_MEM_READ_WRITE, flags_intel := 0 } 64 nullptr = some outcome ∧
      outcome.buffer = none ∧
      outcome.errcodeRet = CL_OUT_OF_HOST_MEMORY ∧
      outcome.createBufferHwCalls = [] ∧
      outcome.memory = none :=
  create_without_memory exampleEnvironment (exampleContext (exampleMemoryManager none) 0)
    { flags := CL_MEM_READ_WRITE, flags_intel := 0 } 64 nullptr (exampleMemoryManager none)
    rfl (by decide) rfl

/-- Witness of C16: a plain read-write buffer of 64 bytes in system memory. -/
theorem create_no_partial_success_witness :
    ∃ outcome,
      create exampleEnvironment
        (exampleContext (exampleMemoryManager (some exampleSystemAllocation)) 0)
        { flags := CL_MEM_READ_WRITE, flags_intel := 0 } 64 nullptr = some outcome ∧
      (outcome.buffer ≠ none ↔ outcome.errcodeRet = CL_SUCCESS) :=
  create_no_partial_success exampleEnvironment
    (exampleContext (exampleMemoryManager (some exampleSystemAllocation)) 0)
    { flags := CL_MEM_READ_WRITE, flags_intel := 0 } 64 nullptr
    (exampleMemoryManager (some exampleSystemAllocation)) rfl

/-- Tagging the allocation changes neither its pool nor its compression. -/
theorem copyNeedsQueue_createTagMemory (flags : Nat) (memory : GraphicsAllocation)
    (l : CreateLocals) :
    copyNeedsQueue (createTagMemory flags memory l) = copyNeedsQueue memory := rfl

/-- The last part of `Buffer::create` when the object was created: the copy
made, the status returned, and whether the object was released or returned. -/
theorem createFinish_of_object (env : Environment) (context : Context)
    (properties : MemoryProperties) (size hostPtr : Nat) (memory : GraphicsAllocation)
    (obtained : CreateLocals × List AllocationRequest × Bool) (hints : List PerformanceHint)
    (hobject : env.funcCreate
      (createBufferHwArgs context properties size hostPtr
        (createTagMemory properties.flags memory (createAdjustToPool hostPtr memory obtained.1))
        (createAdjustToPool hostPtr memory obtained.1)) = true) :
    (createFinish env context properties size hostPtr memory obtained hints).copy
      = createCopy size hostPtr
          (createTagMemory properties.flags memory (createAdjustToPool hostPtr memory obtained.1))
          (createAdjustToPool hostPtr memory obtained.1) ∧
    (createFinish env context properties size hostPtr memory obtained hints).errcodeRet
      = createCopyStatus context
          (createCopy size hostPtr
            (createTagMemory properties.flags memory
              (createAdjustToPool hostPtr memory obtained.1))
            (createAdjustToPool hostPtr memory obtained.1)) ∧
    ((createFinish env context properties size hostPtr memory obtained hints).released = true
      ↔ (createFinish env context properties size hostPtr memory obtained hints).errcodeRet
        ≠ CL_SUCCESS) ∧
    (createFinish env context properties size hostPtr memory obtained hints).createBufferHwCalls
      = [createBufferHwArgs context properties size hostPtr
          (createTagMemory properties.flags memory (createAdjustToPool hostPtr memory obtained.1))
          (createAdjustToPool hostPtr memory obtained.1)] ∧
    (∀ b, (createFinish env context properties size hostPtr memory obtained hints).buffer
        = some b →
      b.isZeroCopy = (createAdjustToPool hostPtr memory obtained.1).zeroCopyAllowed) := by
  unfold createFinish createBufferHw
  simp only [hobject, if_true]
  split
  · rename_i hs
    refine ⟨rfl, rfl, ?_, rfl, ?_⟩
    · simp [hs]
    · intro b hb
      simp at hb
  · rename_i hs
    refine ⟨rfl, rfl, ?_, rfl, ?_⟩
    · simp [hs]
    · intro b hb
      simp only [Option.some.injEq] at hb
      rw [← hb]
      rfl

/-- C18: in `Buffer::create`, when the object was created and the initial contents
must be copied from `hostPtr`: for a render-compressed or non-system-memory
allocation the copy is a blocking `enqueueWriteBuffer` of `size` bytes on the
special queue, and if that does not return `CL_SUCCESS` the created buffer is
released, `nullptr` is returned and `errcodeRet` is `CL_OUT_OF_RESOURCES`; for
an uncompressed allocation in system memory the copy is a `memcpy_s` of
exactly `size` bytes from `hostPtr` to the underlying buffer, after which the
buffer is returned with `CL_SUCCESS`. -/
theorem create_copies_initial_contents (env : Environment) (context : Context)
    (properties : MemoryProperties) (size hostPtr : Nat) (memoryManager : MemoryManager)
    (obtained : CreateLocals × List AllocationRequest × Bool) (memory : GraphicsAllocation)
    (h : context.memoryManager = some memoryManager)
    (hc : (checkMemory properties.flags size hostPtr memoryManager).errcodeRet = CL_SUCCESS)
    (hobtained : createObtainMemory memoryManager properties size hostPtr
      (createSelectPath env context memoryManager properties hostPtr
        (checkMemory properties.flags size hostPtr memoryManager)) = obtained)
    (hm : obtained.1.memory = some memory)
    (hobject : env.funcCreate
      (createBufferHwArgs context properties size hostPtr
        (createTagMemory properties.flags memory (createAdjustToPool hostPtr memory obtained.1))
        (createAdjustToPool hostPtr memory obtained.1)) = true)
    (hcopy : (createAdjustToPool hostPtr memory obtained.1).copyMemoryFromHostPtr = true) :
    ∃ outcome, create env context properties size hostPtr = some outcome ∧
      (((∃ gmm, memory.gmm = some gmm ∧ gmm.isRenderCompressed = true) ∨
          memory.memoryPool.isSystemMemoryPool = false) →
        outcome.copy = some (HostPtrCopy.enqueueWriteBuffer true 0 size hostPtr) ∧
        (context.enqueueWriteBuffer ≠ CL_SUCCESS →
          outcome.released = true ∧ outcome.buffer = none ∧
          outcome.errcodeRet = CL_OUT_OF_RESOURCES) ∧
        (context.enqueueWriteBuffer = CL_SUCCESS →
          outcome.released = false ∧ outcome.buffer ≠ none ∧
          outcome.errcodeRet = CL_SUCCESS)) ∧
      ((∀ gmm, memory.gmm = some gmm → gmm.isRenderCompressed = false) →
        memory.memoryPool.isSystemMemoryPool = true →
        outcome.copy = some (HostPtrCopy.memcpy_s memory.cpuPtr size hostPtr size) ∧
        outcome.released = false ∧ outcome.buffer ≠ none ∧
        outcome.errcodeRet = CL_SUCCESS) := by
  subst hobtained
  obtain ⟨hcopyf, herr, hrel, _, _⟩ :=
    createFinish_of_object env context properties size hostPtr memory
      (createObtainMemory memoryManager properties size hostPtr
        (createSelectPath env context memoryManager properties hostPtr
          (checkMemory properties.flags size hostPtr memoryManager)))
      (createPerformanceHints env context memoryManager properties hostPtr
        (checkMemory properties.flags size hostPtr memoryManager)) hobject
  have hiff := createFinish_no_partial_success env context properties size hostPtr memory
    (createObtainMemory memoryManager properties size hostPtr
      (createSelectPath env context memoryManager properties hostPtr
        (checkMemory properties.flags size hostPtr memoryManager)))
    (createPerformanceHints env context memoryManager properties hostPtr
      (checkMemory properties.flags size hostPtr memoryManager))
  refine ⟨_, create_of_memory env context properties size hostPtr memoryManager memory h hc hm,
    ?_, ?_⟩
  · intro hq
    have hneeds : copyNeedsQueue memory = true := by
      unfold copyNeedsQueue
      rcases hq with ⟨gmm, hg, hcomp⟩ | hpool
      · simp [hg, hcomp]
      · simp [hpool]
    have hcopyval : createCopy size hostPtr
        (createTagMemory properties.flags memory (createAdjustToPool hostPtr memory
          (createObtainMemory memoryManager properties size hostPtr
            (createSelectPath env context memoryManager properties hostPtr
              (checkMemory properties.flags size hostPtr memoryManager))).1))
        (createAdjustToPool hostPtr memory
          (createObtainMemory memoryManager properties size hostPtr
            (createSelectPath env context memoryManager properties hostPtr
              (checkMemory properties.flags size hostPtr memoryManager))).1)
        = some (HostPtrCopy.enqueueWriteBuffer true 0 size hostPtr) := by
      unfold createCopy
      rw [if_pos hcopy, copyNeedsQueue_createTagMemory, if_pos hneeds]
    rw [hcopyval] at hcopyf herr
    refine ⟨hcopyf, ?_, ?_⟩
    · intro hfail
      have hstatus : createCopyStatus context
          (some (HostPtrCopy.enqueueWriteBuffer true 0 size hostPtr)) = CL_OUT_OF_RESOURCES := by
        unfold createCopyStatus
        simp only []
        rw [if_pos (fun he => hfail he.symm)]
      rw [hstatus] at herr
      have hne : (createFinish env context properties size hostPtr memory
          (createObtainMemory memoryManager properties size hostPtr
            (createSelectPath env context memoryManager properties hostPtr
              (checkMemory properties.flags size hostPtr memoryManager)))
          (createPerformanceHints env context memoryManager properties hostPtr
            (checkMemory properties.flags size hostPtr memoryManager))).errcodeRet
          ≠ CL_SUCCESS := by
        rw [herr]; decide
      refine ⟨hrel.mpr hne, ?_, herr⟩
      by_contra hb
      exact hne (hiff.mp hb)
    · intro hok
      have hstatus : createCopyStatus context
          (some (HostPtrCopy.enqueueWriteBuffer true 0 size hostPtr)) = CL_SUCCESS := by
        unfold createCopyStatus
        simp only []
        rw [if_neg (fun hne => hne hok.symm)]
      rw [hstatus] at herr
      refine ⟨?_, hiff.mpr herr, herr⟩
      cases hr : (createFinish env context properties size hostPtr memory
          (createObtainMemory memoryManager properties size hostPtr
            (createSelectPath env context memoryManager properties hostPtr
              (checkMemory properties.flags size hostPtr memoryManager)))
          (createPerformanceHints env context memoryManager properties hostPtr
            (checkMemory properties.flags size hostPtr memoryManager))).released with
      | false => rfl
      | true => exact absurd herr (hrel.mp hr)
  · intro hgmm hpool
    have hneeds : copyNeedsQueue memory = false := by
      unfold copyNeedsQueue
      cases hg : memory.gmm with
      | none => simp [hpool]
      | some gmm => simp [hgmm gmm hg, hpool]
    have hcopyval : createCopy size hostPtr
        (createTagMemory properties.flags memory (createAdjustToPool hostPtr memory
          (createObtainMemory memoryManager properties size hostPtr
            (createSelectPath env context memoryManager properties hostPtr
              (checkMemory properties.flags size hostPtr memoryManager))).1))
        (createAdjustToPool hostPtr memory
          (createObtainMemory memoryManager properties size hostPtr
            (createSelectPath env context memoryManager properties hostPtr
              (checkMemory properties.flags size hostPtr memoryManager))).1)
        = some (HostPtrCopy.memcpy_s memory.cpuPtr size hostPtr size) := by
      unfold createCopy
      rw [if_pos hcopy, copyNeedsQueue_createTagMemory, hneeds]
      rfl
    rw [hcopyval] at hcopyf herr
    have hstatus : createCopyStatus context
        (some (HostPtrCopy.memcpy_s memory.cpuPtr size hostPtr size)) = CL_SUCCESS := rfl
    rw [hstatus] at herr
    refine ⟨hcopyf, ?_, hiff.mpr herr, herr⟩
    cases hr : (createFinish env context properties size hostPtr memory
        (createObtainMemory memoryManager properties size hostPtr
          (createSelectPath env context memoryManager properties hostPtr
            (checkMemory properties.flags size hostPtr memoryManager)))
        (createPerformanceHints env context memoryManager properties hostPtr
          (checkMemory properties.flags size hostPtr memoryManager))).released with
    | false => rfl
    | true => exact absurd herr (hrel.mp hr)

/-- Witness of C18: a `CL_MEM_COPY_HOST_PTR` buffer lands in local memory and the
write on the special queue returns `CL_OUT_OF_RESOURCES`. -/
theorem create_copies_initial_contents_witness :
    ∃ outcome,
      create exampleEnvironment
        (exampleContext (exampleMemoryManager (some exampleLocalAllocation))
          CL_OUT_OF_RESOURCES)
        { flags := CL_MEM_READ_WRITE ||| CL_MEM_COPY_HOST_PTR, flags_intel := 0 } 64 4096
        = some outcome ∧
      outcome.copy = some (HostPtrCopy.enqueueWriteBuffer true 0 64 4096) ∧
      outcome.released = true ∧ outcome.buffer = none ∧
      outcome.errcodeRet = CL_OUT_OF_RESOURCES := by
  obtain ⟨outcome, hcreate, hqueue, _⟩ :=
    create_copies_initial_contents exampleEnvironment
      (exampleContext (exampleMemoryManager (some exampleLocalAllocation)) CL_OUT_OF_RESOURCES)
      { flags := CL_MEM_READ_WRITE ||| CL_MEM_COPY_HOST_PTR, flags_intel := 0 } 64 4096
      (exampleMemoryManager (some exampleLocalAllocation)) _ exampleLocalAllocation
      rfl (by decide) rfl rfl rfl (by decide)
  obtain ⟨hcopy, hfail, _⟩ := hqueue (Or.inr rfl)
  obtain ⟨hrel, hbuf, herr⟩ := hfail (by decide)
  exact ⟨outcome, hcreate, hcopy, hrel, hbuf, herr⟩


/-- The `memory` the branch selection leaves: the SVM allocation of a
`CL_MEM_USE_HOST_PTR` request, a null pointer otherwise. -/
theorem createSelectPath_memory (env : Environment) (context : Context)
    (memoryManager : MemoryManager) (properties : MemoryProperties) (hostPtr : Nat)
    (checked : CheckMemoryResult) :
    (createSelectPath env context memoryManager properties hostPtr checked).memory =
      if hasFlag properties.flags CL_MEM_USE_HOST_PTR = true then context.getSVMAlloc hostPtr
      else none := by
  have hdebug : ∀ l : CreateLocals, (createSelectDebugFlag env l).memory = l.memory := by
    intro l; unfold createSelectDebugFlag; split <;> rfl
  have hshared : ∀ l : CreateLocals,
      (createSelectSharedContext context l).memory = l.memory := by
    intro l; unfold createSelectSharedContext; split <;> rfl
  have hhost : ∀ l : CreateLocals,
      (createSelectHostMemory properties checked l).memory = l.memory := by
    intro l; unfold createSelectHostMemory
    split
    · split
      · split <;> rfl
      · rfl
    · rfl
  have hcompressed : ∀ l : CreateLocals, (createSelectCompressed l).memory = l.memory := by
    intro l; unfold createSelectCompressed; split <;> rfl
  have huse : ∀ l : CreateLocals, l.memory = none →
      (createSelectUseHostPtr env context properties hostPtr l).memory =
        if hasFlag properties.flags CL_MEM_USE_HOST_PTR = true then
          context.getSVMAlloc hostPtr
        else none := by
    intro l hl
    unfold createSelectUseHostPtr
    split
    · simp only []
      cases context.getSVMAlloc hostPtr with
      | none =>
        simp only []
        split <;> exact hl
      | some memory => rfl
    · exact hl
  unfold createSelectPath
  rw [hdebug, hshared, huse]
  rw [hhost, hcompressed]
  rfl

/-- Lines 200-218 when the first request fails and the flags permit read-only
memory: the retry. -/
theorem createObtainMemory_retry (memoryManager : MemoryManager)
    (properties : MemoryProperties) (size hostPtr : Nat) (l : CreateLocals)
    (hl : l.memory = none)
    (hfirst : memoryManager.allocateGraphicsMemoryInPreferredPool 0
      (createFirstRequest properties size hostPtr l) = none)
    (huse : hasFlag properties.flags CL_MEM_USE_HOST_PTR = true)
    (hperm : isReadOnlyMemoryPermittedByFlags properties.flags = true) :
    createObtainMemory memoryManager properties size hostPtr l =
      ({ l with
          allocationType := AllocationType.BUFFER_HOST_MEMORY
          zeroCopyAllowed := false
          copyMemoryFromHostPtr := true
          memory :=
            memoryManager.allocateGraphicsMemoryInPreferredPool 1
              (createRetryRequest properties size) },
        [createFirstRequest properties size hostPtr l, createRetryRequest properties size],
        false) := by
  unfold createObtainMemory
  simp [hl, hfirst, huse, hperm]

/-- Lines 200-218 when the first request fails and the retry is not taken. -/
theorem createObtainMemory_no_retry (memoryManager : MemoryManager)
    (properties : MemoryProperties) (size hostPtr : Nat) (l : CreateLocals)
    (hl : l.memory = none)
    (hfirst : memoryManager.allocateGraphicsMemoryInPreferredPool 0
      (createFirstRequest properties size hostPtr l) = none)
    (hperm : isReadOnlyMemoryPermittedByFlags properties.flags = false) :
    createObtainMemory memoryManager properties size hostPtr l =
      ({ l with memory := none }, [createFirstRequest properties size hostPtr l], false) := by
  unfold createObtainMemory
  simp [hl, hfirst, hperm]

/-- Adjusting to the pool never turns zero copy on and never drops a copy that is
due. -/
theorem createAdjustToPool_keeps (hostPtr : Nat) (memory : GraphicsAllocation)
    (l : CreateLocals) :
    (l.zeroCopyAllowed = false →
      (createAdjustToPool hostPtr memory l).zeroCopyAllowed = false) ∧
    (l.copyMemoryFromHostPtr = true →
      (createAdjustToPool hostPtr memory l).copyMemoryFromHostPtr = true) := by
  unfold createAdjustToPool
  constructor
  · intro hz
    split
    · rfl
    · split <;> exact hz
  · intro hcopy
    split
    · simp only []
      split
      · rfl
      · exact hcopy
    · split <;> exact hcopy

/-- C19 (amended): in `Buffer::create`, for every `CL_MEM_USE_HOST_PTR` request
that has no SVM allocation and whose first allocation attempt returns no
memory: when the flags permit read-only memory (`CL_MEM_READ_ONLY` together
with `CL_MEM_HOST_NO_ACCESS` or `CL_MEM_HOST_READ_ONLY`) the allocation is
retried on the non-zero-copy path, with a second request of type
`BUFFER_HOST_MEMORY`, driver-allocated memory and no host pointer; a failed
retry gives `CL_OUT_OF_HOST_MEMORY`, otherwise `createBufferHw` is called with
`zeroCopy = false` and the contents of a buffer that is returned were copied
from `hostPtr`.  When the flags do not permit read-only memory there is no
second request and the function returns `nullptr` with
`CL_OUT_OF_HOST_MEMORY`. -/
theorem create_retries_use_host_ptr (env : Environment) (context : Context)
    (properties : MemoryProperties) (size hostPtr : Nat) (memoryManager : MemoryManager)
    (first : AllocationRequest)
    (h : context.memoryManager = some memoryManager)
    (hc : (checkMemory properties.flags size hostPtr memoryManager).errcodeRet = CL_SUCCESS)
    (huse : hasFlag properties.flags CL_MEM_USE_HOST_PTR = true)
    (hsvm : context.getSVMAlloc hostPtr = none)
    (hrequest : createFirstRequest properties size hostPtr
      (createSelectPath env context memoryManager properties hostPtr
        (checkMemory properties.flags size hostPtr memoryManager)) = first)
    (hfirst : memoryManager.allocateGraphicsMemoryInPreferredPool 0 first = none) :
    ∃ outcome, create env context properties size hostPtr = some outcome ∧
      (isReadOnlyMemoryPermittedByFlags properties.flags = true →
        outcome.allocationRequests =
          [first,
            { allocProperties :=
                { flags_intel := properties.flags_intel
                  allocateMemory := true
                  size := size
                  allocationType := AllocationType.BUFFER_HOST_MEMORY }
              devices := properties
              hostPtr := nullptr }] ∧
        (∀ args ∈ outcome.createBufferHwCalls, args.zeroCopy = false) ∧
        (memoryManager.allocateGraphicsMemoryInPreferredPool 1
            (createRetryRequest properties size) = none →
          outcome.buffer = none ∧ outcome.errcodeRet = CL_OUT_OF_HOST_MEMORY ∧
          outcome.createBufferHwCalls = []) ∧
        (∀ memory, memoryManager.allocateGraphicsMemoryInPreferredPool 1
            (createRetryRequest properties size) = some memory →
          outcome.createBufferHwCalls.length = 1 ∧
          (∀ b, outcome.buffer = some b →
            b.isZeroCopy = false ∧
            (outcome.copy = some (HostPtrCopy.enqueueWriteBuffer true 0 size hostPtr) ∨
              outcome.copy = some (HostPtrCopy.memcpy_s memory.cpuPtr size hostPtr size))))) ∧
      (isReadOnlyMemoryPermittedByFlags properties.flags = false →
        outcome.allocationRequests = [first] ∧
        outcome.buffer = none ∧ outcome.errcodeRet = CL_OUT_OF_HOST_MEMORY ∧
        outcome.createBufferHwCalls = []) := by
  subst hrequest
  have hl : (createSelectPath env context memoryManager properties hostPtr
      (checkMemory properties.flags size hostPtr memoryManager)).memory = none := by
    rw [createSelectPath_memory, if_pos huse, hsvm]
  cases hperm : isReadOnlyMemoryPermittedByFlags properties.flags with
  | false =>
    have hobt := createObtainMemory_no_retry memoryManager properties size hostPtr _ hl hfirst
      hperm
    have hm : (createObtainMemory memoryManager properties size hostPtr
        (createSelectPath env context memoryManager properties hostPtr
          (checkMemory properties.flags size hostPtr memoryManager))).1.memory = none := by
      rw [hobt]
    refine ⟨_, create_of_no_memory env context properties size hostPtr memoryManager h hc hm,
      ?_, ?_⟩
    · intro hcontra
      exact absurd hcontra (by simp)
    · intro _
      refine ⟨?_, rfl, rfl, rfl⟩
      show (createObtainMemory memoryManager properties size hostPtr _).2.1 = _
      rw [hobt]
  | true =>
    have hobt := createObtainMemory_retry memoryManager properties size hostPtr _ hl hfirst
      huse hperm
    cases hretry : memoryManager.allocateGraphicsMemoryInPreferredPool 1
        (createRetryRequest properties size) with
    | none =>
      have hm : (createObtainMemory memoryManager properties size hostPtr
          (createSelectPath env context memoryManager properties hostPtr
            (checkMemory properties.flags size hostPtr memoryManager))).1.memory = none := by
        rw [hobt]
        exact hretry
      refine ⟨_, create_of_no_memory env context properties size hostPtr memoryManager h hc hm,
        ?_, ?_⟩
      · intro _
        refine ⟨?_, ?_, ?_, ?_⟩
        · show (createObtainMemory memoryManager properties size hostPtr _).2.1 = _
          rw [hobt]
          rfl
        · intro args hargs
          simp at hargs
        · intro _
          exact ⟨rfl, rfl, rfl⟩
        · intro memory hmem
          exact Option.noConfusion hmem
      · intro hcontra
        exact absurd hcontra (by simp)
    | some memory =>
      have hm : (createObtainMemory memoryManager properties size hostPtr
          (createSelectPath env context memoryManager properties hostPtr
            (checkMemory properties.flags size hostPtr memoryManager))).1.memory
          = some memory := by
        rw [hobt]
        exact hretry
      have hzero : (createObtainMemory memoryManager properties size hostPtr
          (createSelectPath env context memoryManager properties hostPtr
            (checkMemory properties.flags size hostPtr memoryManager))).1.zeroCopyAllowed
          = false := by
        rw [hobt]
      have hcopy : (createObtainMemory memoryManager properties size hostPtr
          (createSelectPath env context memoryManager properties hostPtr
            (checkMemory properties.flags size hostPtr memoryManager))).1.copyMemoryFromHostPtr
          = true := by
        rw [hobt]
      have hzero2 := (createAdjustToPool_keeps hostPtr memory _).1 hzero
      have hcopy2 := (createAdjustToPool_keeps hostPtr memory _).2 hcopy
      refine ⟨_, create_of_memory env context properties size hostPtr memoryManager memory h hc
        hm, ?_, ?_⟩
      · intro _
        refine ⟨?_, ?_, ?_, ?_⟩
        · unfold createFinish
          simp only []
          split
          · show (createObtainMemory memoryManager properties size hostPtr _).2.1 = _
            rw [hobt]; rfl
          · split
            · show (createObtainMemory memoryManager properties size hostPtr _).2.1 = _
              rw [hobt]; rfl
            · show (createObtainMemory memoryManager properties size hostPtr _).2.1 = _
              rw [hobt]; rfl
        · intro args hargs
          have hcalls : (createFinish env context properties size hostPtr memory
              (createObtainMemory memoryManager properties size hostPtr
                (createSelectPath env context memoryManager properties hostPtr
                  (checkMemory properties.flags size hostPtr memoryManager)))
              (createPerformanceHints env context memoryManager properties hostPtr
                (checkMemory properties.flags size hostPtr memoryManager))).createBufferHwCalls
              = [createBufferHwArgs context properties size hostPtr
                  (createTagMemory properties.flags memory (createAdjustToPool hostPtr memory
                    (createObtainMemory memoryManager properties size hostPtr
                      (createSelectPath env context memoryManager properties hostPtr
                        (checkMemory properties.flags size hostPtr memoryManager))).1))
                  (createAdjustToPool hostPtr memory
                    (createObtainMemory memoryManager properties size hostPtr
                      (createSelectPath env context memoryManager properties hostPtr
                        (checkMemory properties.flags size hostPtr memoryManager))).1)] := by
            unfold createFinish
            simp only []
            split
            · rfl
            · split <;> rfl
          rw [hcalls] at hargs
          simp only [List.mem_singleton] at hargs
          rw [hargs]
          exact hzero2
        · intro hnone
          exact Option.noConfusion hnone
        · intro memory2 hmem
          injection hmem with hmem
          subst hmem
          refine ⟨?_, ?_⟩
          · unfold createFinish
            simp only []
            split
            · rfl
            · split <;> rfl
          · intro b hb
            have hobject : env.funcCreate
                (createBufferHwArgs context properties size hostPtr
                  (createTagMemory properties.flags memory (createAdjustToPool hostPtr memory
                    (createObtainMemory memoryManager properties size hostPtr
                      (createSelectPath env context memoryManager properties hostPtr
                        (checkMemory properties.flags size hostPtr memoryManager))).1))
                  (createAdjustToPool hostPtr memory
                    (createObtainMemory memoryManager properties size hostPtr
                      (createSelectPath env context memoryManager properties hostPtr
                        (checkMemory properties.flags size hostPtr memoryManager))).1))
                = true := by
              by_contra hno
              unfold createFinish createBufferHw at hb
              simp only [hno] at hb
              simp at hb
            obtain ⟨hcopyf, _, _, _, hzc⟩ :=
              createFinish_of_object env context properties size hostPtr memory _
                (createPerformanceHints env context memoryManager properties hostPtr
                  (checkMemory properties.flags size hostPtr memoryManager)) hobject
            refine ⟨(hzc b hb).trans hzero2, ?_⟩
            rw [hcopyf]
            unfold createCopy
            rw [if_pos hcopy2]
            split
            · exact Or.inl rfl
            · exact Or.inr rfl
      · intro hcontra
        exact absurd hcontra (by simp)

/-- Witness of C19: a read-only `CL_MEM_USE_HOST_PTR` buffer whose host never
accesses it, on a memory manager that has no memory left: two requests are
made, the second for driver-allocated `BUFFER_HOST_MEMORY`. -/
theorem create_retries_use_host_ptr_witness :
    ∃ outcome,
      create exampleEnvironment (exampleContext (exampleMemoryManager none) 0)
        { flags := CL_MEM_USE_HOST_PTR ||| CL_MEM_READ_ONLY ||| CL_MEM_HOST_NO_ACCESS,
          flags_intel := 0 } 64 4096 = some outcome ∧
      outcome.allocationRequests.length = 2 ∧
      outcome.buffer = none ∧ outcome.errcodeRet = CL_OUT_OF_HOST_MEMORY := by
  obtain ⟨outcome, hcreate, hperm, _⟩ :=
    create_retries_use_host_ptr exampleEnvironment
      (exampleContext (exampleMemoryManager none) 0)
      { flags := CL_MEM_USE_HOST_PTR ||| CL_MEM_READ_ONLY ||| CL_MEM_HOST_NO_ACCESS,
        flags_intel := 0 } 64 4096 (exampleMemoryManager none) _
      rfl (by decide) (by decide) rfl rfl rfl
  obtain ⟨hreq, _, hnone, _⟩ := hperm (by decide)
  obtain ⟨hbuf, herr, _⟩ := hnone rfl
  exact ⟨outcome, hcreate, by rw [hreq]; rfl, hbuf, herr⟩

/-- Counterexample to C19 as stated: a read-write `CL_MEM_USE_HOST_PTR` request
with an aligned host pointer on a memory manager that has no memory left.
The first attempt returns no memory, the flags do not permit read-only
memory, and `Buffer::create` makes no second request: it returns `nullptr`
with `CL_OUT_OF_HOST_MEMORY` after one request. -/
theorem create_no_retry_counterexample :
    hasFlag (CL_MEM_READ_WRITE ||| CL_MEM_USE_HOST_PTR) CL_MEM_USE_HOST_PTR = true ∧
    Option.map CreateOutcome.allocationRequests
      (create exampleEnvironment (exampleContext (exampleMemoryManager none) 0)
        { flags := CL_MEM_READ_WRITE ||| CL_MEM_USE_HOST_PTR, flags_intel := 0 } 64 4096)
      = some
        [{ allocProperties :=
            { flags_intel := 0
              allocateMemory := false
              size := 64
              allocationType := AllocationType.BUFFER_HOST_MEMORY }
           devices := { flags := CL_MEM_READ_WRITE ||| CL_MEM_USE_HOST_PTR, flags_intel := 0 }
           hostPtr := 4096 }] ∧
    Option.map CreateOutcome.errcodeRet
      (create exampleEnvironment (exampleContext (exampleMemoryManager none) 0)
        { flags := CL_MEM_READ_WRITE ||| CL_MEM_USE_HOST_PTR, flags_intel := 0 } 64 4096)
      = some CL_OUT_OF_HOST_MEMORY ∧
    Option.map (fun outcome => outcome.buffer.isSome)
      (create exampleEnvironment (exampleContext (exampleMemoryManager none) 0)
        { flags := CL_MEM_READ_WRITE ||| CL_MEM_USE_HOST_PTR, flags_intel := 0 } 64 4096)
      = some false := by
  refine ⟨by decide, by decide, by decide, by decide⟩


/-! ### Sub-buffers -/

/-- C20: for every parent buffer (with its factory function and context set, and
the factory function returning an object) and every region,
`Buffer::createSubBuffer` returns a buffer that shares the graphics allocation
of the parent, has `associatedMemObject` = parent (so `isSubBuffer()` is
true), `offset = region.origin`, the size of the region, `memoryStorage` =
parent storage + origin and `hostPtr` = parent host pointer + origin (null
when the parent has none), both as 64-bit address arithmetic, hence the exact
sums when they stay below 2^64; it sets `errcodeRet = CL_SUCCESS` and raises
the internal reference count of the parent by exactly one. -/
theorem createSubBuffer_shares_parent (env : Environment) (self : ObjectRef) (this : Buffer)
    (flags : Nat) (region : BufferRegion) (context : Context)
    (hfunction : this.createFunction = true)
    (hobject : env.funcCreate (createSubBufferArgs this flags region) = true)
    (hcontext : this.context = some context) :
    ∃ outcome, createSubBuffer env self this flags region = some outcome ∧
      outcome.buffer.graphicsAllocation = this.graphicsAllocation ∧
      outcome.buffer.associatedMemObject = some self ∧
      outcome.buffer.isSubBuffer = true ∧
      outcome.buffer.offset = region.origin ∧
      outcome.buffer.size = region.size ∧
      outcome.buffer.memoryStorage = ptrOffset this.memoryStorage region.origin ∧
      (this.memoryStorage + region.origin < 2 ^ 64 →
        outcome.buffer.memoryStorage = this.memoryStorage + region.origin) ∧
      (this.hostPtr ≠ nullptr →
        outcome.buffer.hostPtr = ptrOffset this.hostPtr region.origin ∧
        (this.hostPtr + region.origin < 2 ^ 64 →
          outcome.buffer.hostPtr = this.hostPtr + region.origin)) ∧
      (this.hostPtr = nullptr → outcome.buffer.hostPtr = nullptr) ∧
      outcome.errcodeRet = CL_SUCCESS ∧
      outcome.parent.refInternal = this.refInternal + 1 ∧
      outcome.parent.graphicsAllocation = this.graphicsAllocation := by
  have hfunction2 : ¬ this.createFunction = false := by simp [hfunction]
  have hobject2 : ¬ env.funcCreate (createSubBufferArgs this flags region) = false := by
    simp [hobject]
  unfold createSubBuffer
  rw [if_neg hfunction2, if_neg hobject2]
  simp only [hcontext]
  refine ⟨_, rfl, rfl, rfl, rfl, rfl, rfl, rfl, ?_, ?_, ?_, rfl, rfl, rfl⟩
  · intro hlt
    show ptrOffset this.memoryStorage region.origin = _
    unfold ptrOffset
    exact Nat.mod_eq_of_lt hlt
  · intro hhost
    have hptr : (createSubBufferArgs this flags region).hostPtr
        = ptrOffset this.hostPtr region.origin := by
      unfold createSubBufferArgs
      simp only []
      rw [if_pos hhost]
    refine ⟨hptr, ?_⟩
    intro hlt
    show (createSubBufferArgs this flags region).hostPtr = _
    rw [hptr]
    unfold ptrOffset
    exact Nat.mod_eq_of_lt hlt
  · intro hhost
    show (createSubBufferArgs this flags region).hostPtr = _
    unfold createSubBufferArgs
    simp only []
    rw [if_neg (by simp [hhost])]

/-- Witness of C20: the region of 256 bytes at origin 1024 of the example parent
buffer, which object 7 refers to. -/
theorem createSubBuffer_shares_parent_witness :
    ∃ outcome,
      createSubBuffer exampleEnvironment 7 exampleParentBuffer CL_MEM_READ_WRITE
        { origin := 1024, size := 256 } = some outcome ∧
      outcome.buffer.associatedMemObject = some 7 ∧
      outcome.buffer.isSubBuffer = true ∧
      outcome.buffer.offset = 1024 ∧
      outcome.buffer.memoryStorage = 16777216 + 1024 ∧
      outcome.buffer.hostPtr = 8192 + 1024 ∧
      outcome.errcodeRet = CL_SUCCESS ∧
      outcome.parent.refInternal = exampleParentBuffer.refInternal + 1 := by
  obtain ⟨outcome, hcreate, _, hassoc, hsub, hoffset, _, _, hstorage, hhost, _, herr, hrefs, _⟩ :=
    createSubBuffer_shares_parent exampleEnvironment 7 exampleParentBuffer CL_MEM_READ_WRITE
      { origin := 1024, size := 256 }
      (exampleContext (exampleMemoryManager (some exampleSystemAllocation)) 0) rfl rfl rfl
  exact ⟨outcome, hcreate, hassoc, hsub, hoffset, hstorage (by decide),
    (hhost (by decide)).2 (by decide), herr, hrefs⟩


/-! ### Sub-buffer offsets -/

/-- The loop of `isValidSubBufferOffset` only answers true for an offset whose two
lowest bits are clear. -/
theorem isValidSubBufferOffsetFrom_true (numDevices offset : Nat) (remaining i : Nat)
    (h : isValidSubBufferOffsetFrom numDevices offset remaining i = true) :
    offset &&& 3 = 0 := by
  induction remaining generalizing i with
  | zero => simp [isValidSubBufferOffsetFrom] at h
  | succ remaining ih =>
    unfold isValidSubBufferOffsetFrom at h
    split at h
    · simp only [] at h
      split at h
      · assumption
      · exact ih _ h
    · simp at h

/-- The loop of `isValidSubBufferOffset` answers true in its first iteration for an
offset whose two lowest bits are clear. -/
theorem isValidSubBufferOffsetFrom_of_aligned (numDevices offset : Nat) (remaining i : Nat)
    (hi : i < numDevices) (h : offset &&& 3 = 0) :
    isValidSubBufferOffsetFrom numDevices offset (remaining + 1) i = true := by
  unfold isValidSubBufferOffsetFrom
  rw [if_pos hi]
  simp only []
  rw [if_pos h]

/-- The two lowest bits of an offset are clear exactly when it is a multiple of 4. -/
theorem and_three_eq_zero_iff (offset : Nat) : offset &&& 3 = 0 ↔ offset % 4 = 0 := by
  have h := Nat.and_pow_two_sub_one_eq_mod offset 2
  norm_num at h
  rw [h]

/-- C21: for every buffer whose context has at least one device and for every
offset, `Buffer::isValidSubBufferOffset(offset)` returns, and it returns true
if and only if the offset is 4-byte aligned (`offset mod 4 == 0`). -/
theorem isValidSubBufferOffset_iff_aligned (this : Buffer) (context : Context) (offset : Nat)
    (hcontext : this.context = some context) (hdevices : 1 ≤ context.numDevices) :
    ∃ result, isValidSubBufferOffset this offset = some result ∧
      (result = true ↔ offset % 4 = 0) := by
  unfold isValidSubBufferOffset
  simp only [hcontext]
  refine ⟨_, rfl, ?_⟩
  rw [← and_three_eq_zero_iff]
  constructor
  · exact isValidSubBufferOffsetFrom_true _ _ _ _
  · intro h
    obtain ⟨n, hn⟩ : ∃ n, context.numDevices = n + 1 := ⟨context.numDevices - 1, by omega⟩
    rw [hn]
    exact isValidSubBufferOffsetFrom_of_aligned _ _ _ _ (by omega) h

/-- Witness of C21: in the one-device context of the example parent buffer the
offset 1024 is valid and the offset 1026 is not. -/
theorem isValidSubBufferOffset_iff_aligned_witness :
    (∃ result, isValidSubBufferOffset exampleParentBuffer 1024 = some result ∧
      (result = true ↔ 1024 % 4 = 0)) ∧
    isValidSubBufferOffset exampleParentBuffer 1024 = some true ∧
    isValidSubBufferOffset exampleParentBuffer 1026 = some false :=
  ⟨isValidSubBufferOffset_iff_aligned exampleParentBuffer
      (exampleContext (exampleMemoryManager (some exampleSystemAllocation)) 0) 1024 rfl
      (by decide),
    by decide, by decide⟩


/-! ### `checkMemory` -/

/-- Rounding a 64-bit value up to the cache line size changes it exactly when it
is no multiple of 64. -/
theorem alignUp_cacheLineSize_ne_iff (x : Nat) (hx : x < 2 ^ 64) :
    alignUp x cacheLineSize ≠ x ↔ x % 64 ≠ 0 := by
  unfold alignUp cacheLineSize
  norm_num at hx ⊢
  omega

/-- `Buffer::checkMemory` by cases: on the host pointer, the two host pointer
flags, whether the host pointer manager holds a driver-allocated fragment, and
whether the alignment test of lines 311-313 fails. -/
theorem checkMemory_cases (flags size hostPtr : Nat) (memoryManager : MemoryManager)
    (useHostPtr copyHostPtr driverAllocation misaligned : Bool)
    (huse : hasFlag flags CL_MEM_USE_HOST_PTR = useHostPtr)
    (hcopy : hasFlag flags CL_MEM_COPY_HOST_PTR = copyHostPtr)
    (hfragment : (match memoryManager.getFragment hostPtr with
        | some fragment => fragment.driverAllocation
        | none => false) = driverAllocation)
    (hmisaligned : decide (alignUp hostPtr cacheLineSize ≠ hostPtr ∨
        alignUp size cacheLineSize ≠ size ∨
        (match memoryManager.alignedMallocRestrictions with
          | some restrictions => restrictions
          | none => 0) > hostPtr) = misaligned) :
    checkMemory flags size hostPtr memoryManager =
      if hostPtr ≠ nullptr then
        if (useHostPtr || copyHostPtr) = false then
          { errcodeRet := CL_INVALID_HOST_PTR, alignementSatisfied := true,
            copyMemoryFromHostPtr := false }
        else if (useHostPtr && driverAllocation) = true then
          { errcodeRet := CL_INVALID_HOST_PTR, alignementSatisfied := true,
            copyMemoryFromHostPtr := false }
        else
          { errcodeRet := CL_SUCCESS
            alignementSatisfied := !(useHostPtr && misaligned)
            copyMemoryFromHostPtr := copyHostPtr || (useHostPtr && misaligned) }
      else
        { errcodeRet := if (useHostPtr || copyHostPtr) = true then CL_INVALID_HOST_PTR
            else CL_SUCCESS
          alignementSatisfied := true
          copyMemoryFromHostPtr := false } := by
  have hor : hasFlag flags (CL_MEM_USE_HOST_PTR ||| CL_MEM_COPY_HOST_PTR)
      = (useHostPtr || copyHostPtr) := by
    rw [Bool.eq_iff_iff, hasFlag_lor, huse, hcopy]
    simp
  unfold checkMemory
  simp only [hor, huse, hcopy, hfragment]
  by_cases hp : hostPtr = nullptr
  · cases useHostPtr <;> cases copyHostPtr <;> simp [hp]
  · have hm : (alignUp hostPtr cacheLineSize ≠ hostPtr ∨
        alignUp size cacheLineSize ≠ size ∨
        (match memoryManager.alignedMallocRestrictions with
          | some restrictions => restrictions
          | none => 0) > hostPtr) ↔ misaligned = true := by
      rw [← hmisaligned]
      simp
    cases useHostPtr <;> cases copyHostPtr <;> cases driverAllocation <;> cases misaligned <;>
      simp [hp, hm]

/-- C24: for every flags, size and host pointer (64-bit values),
`Buffer::checkMemory` leaves `errcodeRet = CL_SUCCESS` if and only if
`hostPtr != nullptr` equals "the flags contain `CL_MEM_USE_HOST_PTR` or
`CL_MEM_COPY_HOST_PTR`" and it is not the case that `CL_MEM_USE_HOST_PTR` is set
while the host pointer manager holds a driver-allocated fragment for `hostPtr`;
in every other case `errcodeRet` is `CL_INVALID_HOST_PTR`.  On success
`alignementSatisfied` is false exactly when `CL_MEM_USE_HOST_PTR` is set and
the host pointer is not 64-byte aligned, or the size is no multiple of 64, or
the host pointer lies below `minAddress` (0 without restrictions), and
`copyMemoryFromHostPtr` is true exactly when `CL_MEM_COPY_HOST_PTR` is set or
`alignementSatisfied` is false. -/
theorem checkMemory_status_and_outputs (flags size hostPtr : Nat)
    (memoryManager : MemoryManager) (hsize : size < 2 ^ 64) (hhostPtr : hostPtr < 2 ^ 64) :
    ((checkMemory flags size hostPtr memoryManager).errcodeRet = CL_SUCCESS ↔
      ((hostPtr ≠ nullptr ↔
          (hasFlag flags CL_MEM_USE_HOST_PTR = true ∨
            hasFlag flags CL_MEM_COPY_HOST_PTR = true)) ∧
        ¬ (hasFlag flags CL_MEM_USE_HOST_PTR = true ∧
          ∃ fragment, memoryManager.getFragment hostPtr = some fragment ∧
            fragment.driverAllocation = true))) ∧
    ((checkMemory flags size hostPtr memoryManager).errcodeRet ≠ CL_SUCCESS →
      (checkMemory flags size hostPtr memoryManager).errcodeRet = CL_INVALID_HOST_PTR) ∧
    ((checkMemory flags size hostPtr memoryManager).errcodeRet = CL_SUCCESS →
      ((checkMemory flags size hostPtr memoryManager).alignementSatisfied = false ↔
        hasFlag flags CL_MEM_USE_HOST_PTR = true ∧
          (hostPtr % 64 ≠ 0 ∨ size % 64 ≠ 0 ∨
            hostPtr < memoryManager.alignedMallocRestrictions.getD 0)) ∧
      ((checkMemory flags size hostPtr memoryManager).copyMemoryFromHostPtr = true ↔
        hasFlag flags CL_MEM_COPY_HOST_PTR = true ∨
          (checkMemory flags size hostPtr memoryManager).alignementSatisfied = false)) := by
  have hfragment : (match memoryManager.getFragment hostPtr with
        | some fragment => fragment.driverAllocation
        | none => false) = true
      ↔ ∃ fragment, memoryManager.getFragment hostPtr = some fragment ∧
          fragment.driverAllocation = true := by
    cases memoryManager.getFragment hostPtr <;> simp
  have hmin : (match memoryManager.alignedMallocRestrictions with
        | some restrictions => restrictions
        | none => 0) = memoryManager.alignedMallocRestrictions.getD 0 := by
    cases memoryManager.alignedMallocRestrictions <;> rfl
  have hmisaligned : decide (alignUp hostPtr cacheLineSize ≠ hostPtr ∨
        alignUp size cacheLineSize ≠ size ∨
        (match memoryManager.alignedMallocRestrictions with
          | some restrictions => restrictions
          | none => 0) > hostPtr) = true
      ↔ (hostPtr % 64 ≠ 0 ∨ size % 64 ≠ 0 ∨
          hostPtr < memoryManager.alignedMallocRestrictions.getD 0) := by
    rw [decide_eq_true_iff, alignUp_cacheLineSize_ne_iff hostPtr hhostPtr,
      alignUp_cacheLineSize_ne_iff size hsize, hmin]
  rw [checkMemory_cases flags size hostPtr memoryManager _ _ _ _ rfl rfl rfl rfl]
  rw [← hfragment, ← hmisaligned]
  generalize hasFlag flags CL_MEM_USE_HOST_PTR = useHostPtr
  generalize hasFlag flags CL_MEM_COPY_HOST_PTR = copyHostPtr
  generalize (match memoryManager.getFragment hostPtr with
        | some fragment => fragment.driverAllocation
        | none => false) = driverAllocation
  generalize decide (alignUp hostPtr cacheLineSize ≠ hostPtr ∨
        alignUp size cacheLineSize ≠ size ∨
        (match memoryManager.alignedMallocRestrictions with
          | some restrictions => restrictions
          | none => 0) > hostPtr) = misaligned
  by_cases hp : hostPtr = nullptr
  · cases useHostPtr <;> cases copyHostPtr <;>
      simp [hp, CL_SUCCESS, CL_INVALID_HOST_PTR]
  · cases useHostPtr <;> cases copyHostPtr <;> cases driverAllocation <;> cases misaligned <;>
      simp [hp, CL_SUCCESS, CL_INVALID_HOST_PTR]

/-- Witness of C24: a `CL_MEM_USE_HOST_PTR` request of 100 bytes at the aligned
host pointer 4096.  The status is `CL_SUCCESS`, the alignment is not satisfied
(100 is no multiple of 64) and the contents are to be copied. -/
theorem checkMemory_status_and_outputs_witness :
    (checkMemory (CL_MEM_READ_WRITE ||| CL_MEM_USE_HOST_PTR) 100 4096
      (exampleMemoryManager none)).errcodeRet = CL_SUCCESS ∧
    (checkMemory (CL_MEM_READ_WRITE ||| CL_MEM_USE_HOST_PTR) 100 4096
      (exampleMemoryManager none)).alignementSatisfied = false ∧
    (checkMemory (CL_MEM_READ_WRITE ||| CL_MEM_USE_HOST_PTR) 100 4096
      (exampleMemoryManager none)).copyMemoryFromHostPtr = true := by
  obtain ⟨hstatus, _, houtputs⟩ :=
    checkMemory_status_and_outputs (CL_MEM_READ_WRITE ||| CL_MEM_USE_HOST_PTR) 100 4096
      (exampleMemoryManager none) (by norm_num) (by norm_num)
  have hsuccess : (checkMemory (CL_MEM_READ_WRITE ||| CL_MEM_USE_HOST_PTR) 100 4096
      (exampleMemoryManager none)).errcodeRet = CL_SUCCESS := by decide
  have haligned := (houtputs hsuccess).1.mpr ⟨by decide, Or.inr (Or.inl (by decide))⟩
  exact ⟨hsuccess, haligned, (houtputs hsuccess).2.mpr (Or.inr haligned)⟩


/-! ### Zero copy -/

/-- `Buffer::create` returns whenever the context has a memory manager, and what
holds for the three ways it can end holds for its outcome: `checkMemory`
failed or no memory was obtained (no object, no `createBufferHw` call), or
lines 225-273 ran on the memory obtained. -/
theorem create_cases (env : Environment) (context : Context) (properties : MemoryProperties)
    (size hostPtr : Nat) (memoryManager : MemoryManager) (P : CreateOutcome → Prop)
    (h : context.memoryManager = some memoryManager)
    (hearly : ∀ outcome : CreateOutcome, outcome.buffer = none →
      outcome.createBufferHwCalls = [] → outcome.memory = none →
      (outcome.allocationRequests = [] ∨
        outcome.allocationRequests = (createObtainMemory memoryManager properties size hostPtr
          (createSelectPath env context memoryManager properties hostPtr
            (checkMemory properties.flags size hostPtr memoryManager))).2.1) → P outcome)
    (hfinish : (checkMemory properties.flags size hostPtr memoryManager).errcodeRet = CL_SUCCESS →
      ∀ memory, (createObtainMemory memoryManager properties size hostPtr
        (createSelectPath env context memoryManager properties hostPtr
          (checkMemory properties.flags size hostPtr memoryManager))).1.memory = some memory →
      P (createFinish env context properties size hostPtr memory
        (createObtainMemory memoryManager properties size hostPtr
          (createSelectPath env context memoryManager properties hostPtr
            (checkMemory properties.flags size hostPtr memoryManager)))
        (createPerformanceHints env context memoryManager properties hostPtr
          (checkMemory properties.flags size hostPtr memoryManager)))) :
    ∃ outcome, create env context properties size hostPtr = some outcome ∧ P outcome := by
  by_cases hc : (checkMemory properties.flags size hostPtr memoryManager).errcodeRet = CL_SUCCESS
  · cases hm : (createObtainMemory memoryManager properties size hostPtr
        (createSelectPath env context memoryManager properties hostPtr
          (checkMemory properties.flags size hostPtr memoryManager))).1.memory with
    | none =>
      exact ⟨_, create_of_no_memory env context properties size hostPtr memoryManager h hc hm,
        hearly _ rfl rfl rfl (Or.inr rfl)⟩
    | some memory =>
      exact ⟨_, create_of_memory env context properties size hostPtr memoryManager memory h hc hm,
        hfinish hc memory hm⟩
  · exact ⟨_, create_of_checkMemory_failed env context properties size hostPtr memoryManager h hc,
      hearly _ rfl rfl rfl (Or.inl rfl)⟩

/-- The last part of `Buffer::create`: the one `createBufferHw` call, the
allocation as tagged, and the object returned, if any. -/
theorem createFinish_fields (env : Environment) (context : Context)
    (properties : MemoryProperties) (size hostPtr : Nat) (memory : GraphicsAllocation)
    (obtained : CreateLocals × List AllocationRequest × Bool) (hints : List PerformanceHint) :
    (createFinish env context properties size hostPtr memory obtained hints).createBufferHwCalls
      = [createBufferHwArgs context properties size hostPtr
          (createTagMemory properties.flags memory (createAdjustToPool hostPtr memory obtained.1))
          (createAdjustToPool hostPtr memory obtained.1)] ∧
    (createFinish env context properties size hostPtr memory obtained hints).memory
      = some (createTagMemory properties.flags memory
          (createAdjustToPool hostPtr memory obtained.1)) ∧
    (createFinish env context properties size hostPtr memory obtained hints).allocationRequests
      = obtained.2.1 ∧
    (∀ b, (createFinish env context properties size hostPtr memory obtained hints).buffer
        = some b →
      b.isZeroCopy = (createAdjustToPool hostPtr memory obtained.1).zeroCopyAllowed ∧
      b.graphicsAllocation = some (createTagMemory properties.flags memory
        (createAdjustToPool hostPtr memory obtained.1)) ∧
      (createFinish env context properties size hostPtr memory obtained hints).copy
        = createCopy size hostPtr
            (createTagMemory properties.flags memory
              (createAdjustToPool hostPtr memory obtained.1))
            (createAdjustToPool hostPtr memory obtained.1)) := by
  unfold createFinish
  simp only []
  cases hobject : createBufferHw env (createBufferHwArgs context properties size hostPtr
      (createTagMemory properties.flags memory (createAdjustToPool hostPtr memory obtained.1))
      (createAdjustToPool hostPtr memory obtained.1)) with
  | none =>
    refine ⟨rfl, rfl, rfl, ?_⟩
    intro b hb
    simp at hb
  | some created =>
    have hcreated : created.isZeroCopy
          = (createAdjustToPool hostPtr memory obtained.1).zeroCopyAllowed ∧
        created.graphicsAllocation = some (createTagMemory properties.flags memory
          (createAdjustToPool hostPtr memory obtained.1)) := by
      unfold createBufferHw at hobject
      split at hobject
      · simp only [Option.some.injEq] at hobject
        rw [← hobject]
        exact ⟨rfl, rfl⟩
      · simp at hobject
    simp only []
    split
    · refine ⟨rfl, rfl, rfl, ?_⟩
      intro b hb
      simp at hb
    · refine ⟨rfl, rfl, rfl, ?_⟩
      intro b hb
      simp only [Option.some.injEq] at hb
      rw [← hb]
      exact ⟨hcreated.1, hcreated.2, rfl⟩

/-- Obtaining memory never turns zero copy on. -/
theorem createObtainMemory_zeroCopyAllowed (memoryManager : MemoryManager)
    (properties : MemoryProperties) (size hostPtr : Nat) (l : CreateLocals)
    (h : l.zeroCopyAllowed = false) :
    (createObtainMemory memoryManager properties size hostPtr l).1.zeroCopyAllowed = false := by
  unfold createObtainMemory
  simp only []
  split
  · rfl
  · split <;> exact h

/-- Adjusting to the memory pool never turns zero copy on, and turns it off
outside system memory. -/
theorem createAdjustToPool_zeroCopyAllowed (hostPtr : Nat) (memory : GraphicsAllocation)
    (l : CreateLocals) (h : (createAdjustToPool hostPtr memory l).zeroCopyAllowed = true) :
    l.zeroCopyAllowed = true ∧ memory.memoryPool.isSystemMemoryPool = true := by
  unfold createAdjustToPool at h
  split at h
  · simp at h
  · rename_i hpool
    refine ⟨?_, by simpa using hpool⟩
    split at h <;> exact h

/-- With `DisableZeroCopyForBuffers` set, lines 120-194 leave `zeroCopyAllowed`
false. -/
theorem createSelectPath_disableZeroCopyForBuffers (env : Environment) (context : Context)
    (memoryManager : MemoryManager) (properties : MemoryProperties) (hostPtr : Nat)
    (checked : CheckMemoryResult) (hflag : env.debugFlags.DisableZeroCopyForBuffers = true) :
    (createSelectPath env context memoryManager properties hostPtr checked).zeroCopyAllowed
      = false := by
  unfold createSelectPath createSelectDebugFlag
  rw [if_pos hflag]

/-- C22: when the debug flag `DisableZeroCopyForBuffers` is set, `Buffer::create`
passes `zeroCopy = false` to `createBufferHw` whenever it calls it, and a
buffer it returns is not zero copy: for every combination of flags, host
pointer, SVM status, shared context and memory pool. -/
theorem create_disableZeroCopyForBuffers (env : Environment) (context : Context)
    (properties : MemoryProperties) (size hostPtr : Nat) (memoryManager : MemoryManager)
    (h : context.memoryManager = some memoryManager)
    (hflag : env.debugFlags.DisableZeroCopyForBuffers = true) :
    ∃ outcome, create env context properties size hostPtr = some outcome ∧
      (∀ args ∈ outcome.createBufferHwCalls, args.zeroCopy = false) ∧
      (∀ b, outcome.buffer = some b → b.isZeroCopy = false) := by
  apply create_cases env context properties size hostPtr memoryManager _ h
  · intro outcome hbuffer hcalls _ _
    rw [hbuffer, hcalls]
    simp
  · intro _ memory _
    have hzero : (createAdjustToPool hostPtr memory
        (createObtainMemory memoryManager properties size hostPtr
          (createSelectPath env context memoryManager properties hostPtr
            (checkMemory properties.flags size hostPtr memoryManager))).1).zeroCopyAllowed
        = false := by
      cases hz : (createAdjustToPool hostPtr memory
        (createObtainMemory memoryManager properties size hostPtr
          (createSelectPath env context memoryManager properties hostPtr
            (checkMemory properties.flags size hostPtr memoryManager))).1).zeroCopyAllowed with
      | false => rfl
      | true =>
        have hl := (createAdjustToPool_zeroCopyAllowed _ _ _ hz).1
        rw [createObtainMemory_zeroCopyAllowed _ _ _ _ _
          (createSelectPath_disableZeroCopyForBuffers env context memoryManager properties
            hostPtr _ hflag)] at hl
        exact absurd hl (by simp)
    obtain ⟨hcalls, _, _, hbuffer⟩ := createFinish_fields env context properties size hostPtr
      memory (createObtainMemory memoryManager properties size hostPtr
          (createSelectPath env context memoryManager properties hostPtr
            (checkMemory properties.flags size hostPtr memoryManager)))
      (createPerformanceHints env context memoryManager properties hostPtr
          (checkMemory properties.flags size hostPtr memoryManager))
    refine ⟨?_, ?_⟩
    · intro args hargs
      rw [hcalls, List.mem_singleton] at hargs
      rw [hargs]
      exact hzero
    · intro b hb
      rw [(hbuffer b hb).1]
      exact hzero


/-- Witness of C22: with `DisableZeroCopyForBuffers` set, a plain read-write buffer
of 64 bytes is created, and not as zero copy. -/
theorem create_disableZeroCopyForBuffers_witness :
    ∃ outcome,
      create (exampleDebugEnvironment false true)
        (exampleContext (exampleMemoryManager (some exampleSystemAllocation)) 0)
        { flags := CL_MEM_READ_WRITE, flags_intel := 0 } 64 nullptr = some outcome ∧
      (∀ args ∈ outcome.createBufferHwCalls, args.zeroCopy = false) ∧
      (∀ b, outcome.buffer = some b → b.isZeroCopy = false) ∧
      outcome.createBufferHwCalls.length = 1 ∧ outcome.buffer.isSome = true := by
  obtain ⟨outcome, hcreate, hargs, hbuffer⟩ :=
    create_disableZeroCopyForBuffers (exampleDebugEnvironment false true)
      (exampleContext (exampleMemoryManager (some exampleSystemAllocation)) 0)
      { flags := CL_MEM_READ_WRITE, flags_intel := 0 } 64 nullptr
      (exampleMemoryManager (some exampleSystemAllocation)) rfl rfl
  have hcalls : Option.map (fun o : CreateOutcome => o.createBufferHwCalls.length)
      (create (exampleDebugEnvironment false true)
        (exampleContext (exampleMemoryManager (some exampleSystemAllocation)) 0)
        { flags := CL_MEM_READ_WRITE, flags_intel := 0 } 64 nullptr) = some 1 := by decide
  have hsome : Option.map (fun o : CreateOutcome => o.buffer.isSome)
      (create (exampleDebugEnvironment false true)
        (exampleContext (exampleMemoryManager (some exampleSystemAllocation)) 0)
        { flags := CL_MEM_READ_WRITE, flags_intel := 0 } 64 nullptr) = some true := by decide
  rw [hcreate] at hcalls hsome
  simp only [Option.map_some', Option.some.injEq] at hcalls hsome
  exact ⟨outcome, hcreate, hargs, hbuffer, hcalls, hsome⟩

/-- With `DisableZeroCopyForUseHostPtr` set, a `CL_MEM_USE_HOST_PTR` request whose
host pointer is no SVM allocation, in a context that is not shared, leaves
lines 120-194 with `zeroCopyAllowed` false, `allocateMemory` true and no
memory. -/
theorem createSelectPath_disableZeroCopyForUseHostPtr (env : Environment) (context : Context)
    (memoryManager : MemoryManager) (properties : MemoryProperties) (hostPtr : Nat)
    (checked : CheckMemoryResult)
    (hflag : env.debugFlags.DisableZeroCopyForUseHostPtr = true)
    (huse : hasFlag properties.flags CL_MEM_USE_HOST_PTR = true)
    (hsvm : context.getSVMAlloc hostPtr = none)
    (hshared : context.isSharedContext = false) :
    (createSelectPath env context memoryManager properties hostPtr checked).zeroCopyAllowed
      = false ∧
    (createSelectPath env context memoryManager properties hostPtr checked).allocateMemory
      = true ∧
    (createSelectPath env context memoryManager properties hostPtr checked).memory = none := by
  have hstep : ∀ l : CreateLocals,
      createSelectSharedContext context (createSelectUseHostPtr env context properties hostPtr l)
        = { l with zeroCopyAllowed := false, allocateMemory := true } := by
    intro l
    unfold createSelectSharedContext createSelectUseHostPtr
    rw [if_pos huse]
    simp only [hsvm, if_pos hflag]
    rw [if_neg (by simp [hshared])]
  refine ⟨?_, ?_, ?_⟩
  · unfold createSelectPath createSelectDebugFlag
    rw [hstep]
    split <;> rfl
  · unfold createSelectPath createSelectDebugFlag
    rw [hstep]
    split <;> rfl
  · rw [createSelectPath_memory, if_pos huse, hsvm]

/-- Lines 200-218 ask for newly allocated memory in every request when
`allocateMemory` is set. -/
theorem createObtainMemory_allocateMemory (memoryManager : MemoryManager)
    (properties : MemoryProperties) (size hostPtr : Nat) (l : CreateLocals)
    (h : l.allocateMemory = true) :
    ∀ request ∈ (createObtainMemory memoryManager properties size hostPtr l).2.1,
      request.allocProperties.allocateMemory = true := by
  intro request hrequest
  unfold createObtainMemory at hrequest
  simp only [] at hrequest
  cases hl : l.memory with
  | none =>
    simp only [hl] at hrequest
    split at hrequest
    · simp only [List.singleton_append, List.mem_cons, List.mem_singleton,
        List.not_mem_nil, or_false] at hrequest
      rcases hrequest with hr | hr
      · rw [hr]; exact h
      · rw [hr]; rfl
    · simp only [List.mem_singleton] at hrequest
      rw [hrequest]; exact h
  | some memory =>
    simp only [hl] at hrequest
    split at hrequest <;> simp at hrequest
    rw [hrequest]; rfl

/-- Without an SVM allocation, the memory lines 200-218 obtain is the answer of
the memory manager to one of the requests made. -/
theorem createObtainMemory_memory_of_request (memoryManager : MemoryManager)
    (properties : MemoryProperties) (size hostPtr : Nat) (l : CreateLocals)
    (memory : GraphicsAllocation) (hl : l.memory = none)
    (hm : (createObtainMemory memoryManager properties size hostPtr l).1.memory = some memory) :
    ∃ index request,
      request ∈ (createObtainMemory memoryManager properties size hostPtr l).2.1 ∧
      memoryManager.allocateGraphicsMemoryInPreferredPool index request = some memory := by
  unfold createObtainMemory at hm ⊢
  simp only [hl] at hm ⊢
  by_cases hretry : hasFlag properties.flags CL_MEM_USE_HOST_PTR = true ∧
      (memoryManager.allocateGraphicsMemoryInPreferredPool 0
        (createFirstRequest properties size hostPtr l)).isNone = true ∧
      isReadOnlyMemoryPermittedByFlags properties.flags = true
  · rw [if_pos hretry] at hm ⊢
    exact ⟨1, createRetryRequest properties size, by simp, hm⟩
  · rw [if_neg hretry] at hm ⊢
    exact ⟨0, createFirstRequest properties size hostPtr l, by simp, hm⟩


/-- C23 (amended): when the debug flag `DisableZeroCopyForUseHostPtr` is set, every
buffer `Buffer::create` creates with `CL_MEM_USE_HOST_PTR` from a host pointer
that is no SVM allocation, in a context that is not shared, is non-zero-copy
(`zeroCopy = false` is passed to `createBufferHw`) and is backed by newly
allocated memory rather than the host pointer: every allocation request asks
the memory manager to allocate memory, and the allocation of the buffer is the
answer to one of these requests. -/
theorem create_disableZeroCopyForUseHostPtr (env : Environment) (context : Context)
    (properties : MemoryProperties) (size hostPtr : Nat) (memoryManager : MemoryManager)
    (h : context.memoryManager = some memoryManager)
    (hflag : env.debugFlags.DisableZeroCopyForUseHostPtr = true)
    (huse : hasFlag properties.flags CL_MEM_USE_HOST_PTR = true)
    (hsvm : context.getSVMAlloc hostPtr = none)
    (hshared : context.isSharedContext = false) :
    ∃ outcome, create env context properties size hostPtr = some outcome ∧
      (∀ args ∈ outcome.createBufferHwCalls, args.zeroCopy = false) ∧
      (∀ request ∈ outcome.allocationRequests,
        request.allocProperties.allocateMemory = true) ∧
      (∀ b, outcome.buffer = some b →
        b.isZeroCopy = false ∧
        ∃ index request memory l,
          request ∈ outcome.allocationRequests ∧
          request.allocProperties.allocateMemory = true ∧
          memoryManager.allocateGraphicsMemoryInPreferredPool index request = some memory ∧
          b.graphicsAllocation = some (createTagMemory properties.flags memory l)) := by
  obtain ⟨hzero, hallocate, hnone⟩ :=
    createSelectPath_disableZeroCopyForUseHostPtr env context memoryManager properties hostPtr
      (checkMemory properties.flags size hostPtr memoryManager) hflag huse hsvm hshared
  have hrequests := createObtainMemory_allocateMemory memoryManager properties size hostPtr
    _ hallocate
  apply create_cases env context properties size hostPtr memoryManager _ h
  · intro outcome hbuffer hcalls _ hreq
    rw [hbuffer, hcalls]
    refine ⟨by simp, ?_, by simp⟩
    rcases hreq with hreq | hreq
    · rw [hreq]; simp
    · rw [hreq]; exact hrequests
  · intro _ memory hm
    have hz : (createAdjustToPool hostPtr memory
        (createObtainMemory memoryManager properties size hostPtr
          (createSelectPath env context memoryManager properties hostPtr
            (checkMemory properties.flags size hostPtr memoryManager))).1).zeroCopyAllowed
        = false :=
      (createAdjustToPool_keeps hostPtr memory _).1
        (createObtainMemory_zeroCopyAllowed _ _ _ _ _ hzero)
    obtain ⟨index, request, hmem, hanswer⟩ :=
      createObtainMemory_memory_of_request memoryManager properties size hostPtr _ memory
        hnone hm
    obtain ⟨hcalls, _, hreq, hbuffer⟩ := createFinish_fields env context properties size hostPtr
      memory (createObtainMemory memoryManager properties size hostPtr
          (createSelectPath env context memoryManager properties hostPtr
            (checkMemory properties.flags size hostPtr memoryManager)))
      (createPerformanceHints env context memoryManager properties hostPtr
          (checkMemory properties.flags size hostPtr memoryManager))
    refine ⟨?_, ?_, ?_⟩
    · intro args hargs
      rw [hcalls, List.mem_singleton] at hargs
      rw [hargs]
      exact hz
    · rw [hreq]
      exact hrequests
    · intro b hb
      refine ⟨by rw [(hbuffer b hb).1]; exact hz, index, request, memory, _, ?_, ?_, hanswer,
        (hbuffer b hb).2.1⟩
      · rw [hreq]; exact hmem
      · exact hrequests request hmem

/-- Witness of C23: with `DisableZeroCopyForUseHostPtr` set, a read-write
`CL_MEM_USE_HOST_PTR` buffer of 64 bytes at the aligned host pointer 4096 is
created from one request for newly allocated memory, and not as zero copy. -/
theorem create_disableZeroCopyForUseHostPtr_witness :
    ∃ outcome,
      create (exampleDebugEnvironment true false)
        (exampleContext (exampleMemoryManager (some exampleSystemAllocation)) 0)
        { flags := CL_MEM_READ_WRITE ||| CL_MEM_USE_HOST_PTR, flags_intel := 0 } 64 4096
        = some outcome ∧
      (∀ args ∈ outcome.createBufferHwCalls, args.zeroCopy = false) ∧
      (∀ request ∈ outcome.allocationRequests,
        request.allocProperties.allocateMemory = true) ∧
      (∀ b, outcome.buffer = some b → b.isZeroCopy = false) ∧
      outcome.allocationRequests.length = 1 ∧ outcome.buffer.isSome = true := by
  obtain ⟨outcome, hcreate, hargs, hrequests, hbuffer⟩ :=
    create_disableZeroCopyForUseHostPtr (exampleDebugEnvironment true false)
      (exampleContext (exampleMemoryManager (some exampleSystemAllocation)) 0)
      { flags := CL_MEM_READ_WRITE ||| CL_MEM_USE_HOST_PTR, flags_intel := 0 } 64 4096
      (exampleMemoryManager (some exampleSystemAllocation)) rfl rfl (by decide) rfl rfl
  have hlength : Option.map (fun o : CreateOutcome => o.allocationRequests.length)
      (create (exampleDebugEnvironment true false)
        (exampleContext (exampleMemoryManager (some exampleSystemAllocation)) 0)
        { flags := CL_MEM_READ_WRITE ||| CL_MEM_USE_HOST_PTR, flags_intel := 0 } 64 4096)
      = some 1 := by decide
  have hsome : Option.map (fun o : CreateOutcome => o.buffer.isSome)
      (create (exampleDebugEnvironment true false)
        (exampleContext (exampleMemoryManager (some exampleSystemAllocation)) 0)
        { flags := CL_MEM_READ_WRITE ||| CL_MEM_USE_HOST_PTR, flags_intel := 0 } 64 4096)
      = some true := by decide
  rw [hcreate] at hlength hsome
  simp only [Option.map_some', Option.some.injEq] at hlength hsome
  exact ⟨outcome, hcreate, hargs, hrequests, fun b hb => (hbuffer b hb).1, hlength, hsome⟩

/-- Counterexample to C23 as stated: `DisableZeroCopyForUseHostPtr` is set and a
read-write `CL_MEM_USE_HOST_PTR` buffer of 64 bytes is created at the host
pointer 4096.  When the host pointer belongs to an SVM allocation, the buffer
is created as zero copy on that allocation and no memory is requested; in a
shared context the buffer is created as zero copy and the one request does
not ask for newly allocated memory. -/
theorem create_disableZeroCopyForUseHostPtr_counterexample :
    (exampleDebugEnvironment true false).debugFlags.DisableZeroCopyForUseHostPtr = true ∧
    hasFlag (CL_MEM_READ_WRITE ||| CL_MEM_USE_HOST_PTR) CL_MEM_USE_HOST_PTR = true ∧
    Option.map
      (fun o : CreateOutcome =>
        (o.createBufferHwCalls.map (fun args => args.zeroCopy),
          o.buffer.map (fun b => b.isZeroCopy),
          o.allocationRequests.map (fun request => request.allocProperties.allocateMemory),
          o.errcodeRet))
      (create (exampleDebugEnvironment true false) exampleSvmContext
        { flags := CL_MEM_READ_WRITE ||| CL_MEM_USE_HOST_PTR, flags_intel := 0 } 64 4096)
      = some ([true], some true, [], CL_SUCCESS) ∧
    Option.map
      (fun o : CreateOutcome =>
        (o.createBufferHwCalls.map (fun args => args.zeroCopy),
          o.buffer.map (fun b => b.isZeroCopy),
          o.allocationRequests.map (fun request => request.allocProperties.allocateMemory),
          o.errcodeRet))
      (create (exampleDebugEnvironment true false) exampleSharedContext
        { flags := CL_MEM_READ_WRITE ||| CL_MEM_USE_HOST_PTR, flags_intel := 0 } 64 4096)
      = some ([true], some true, [false], CL_SUCCESS) := by
  refine ⟨rfl, by decide, by decide, by decide⟩


/-- Lines 225-232 for an allocation outside system memory: no zero copy, and a
copy from a non-null host pointer. -/
theorem createAdjustToPool_not_system (hostPtr : Nat) (memory : GraphicsAllocation)
    (l : CreateLocals) (hpool : memory.memoryPool.isSystemMemoryPool = false) :
    (createAdjustToPool hostPtr memory l).zeroCopyAllowed = false ∧
    (hostPtr ≠ nullptr → (createAdjustToPool hostPtr memory l).copyMemoryFromHostPtr = true) := by
  unfold createAdjustToPool
  rw [if_pos hpool]
  refine ⟨rfl, ?_⟩
  intro hp
  simp only []
  rw [if_pos hp]

/-- Lines 225-232 leave the type `BUFFER` only outside system memory. -/
theorem createAdjustToPool_allocationType (hostPtr : Nat) (memory : GraphicsAllocation)
    (l : CreateLocals)
    (htype : (createAdjustToPool hostPtr memory l).allocationType = AllocationType.BUFFER) :
    memory.memoryPool.isSystemMemoryPool = false := by
  cases hpool : memory.memoryPool.isSystemMemoryPool with
  | false => rfl
  | true =>
    unfold createAdjustToPool at htype
    rw [if_neg (by simp [hpool])] at htype
    split at htype
    · simp at htype
    · rename_i hne
      exact absurd htype hne

/-- C25: invariant of `Buffer::create`.  Every `createBufferHw` call gets an
allocation with `zeroCopy = true` only when the allocation is in a system
memory pool, and the type finally set on that allocation is `BUFFER` only when
it is not in a system memory pool.  Every buffer returned as zero copy is
backed by an allocation in a system memory pool; a buffer returned on an
allocation outside system memory is not zero copy and, with a non-null host
pointer, its contents were copied from the host pointer (by a blocking write
of `size` bytes on the special queue). -/
theorem create_zero_copy_in_system_memory (env : Environment) (context : Context)
    (properties : MemoryProperties) (size hostPtr : Nat) (memoryManager : MemoryManager)
    (h : context.memoryManager = some memoryManager) :
    ∃ outcome, create env context properties size hostPtr = some outcome ∧
      (∀ args ∈ outcome.createBufferHwCalls, ∃ memory,
        args.gfxAllocation = some memory ∧ outcome.memory = some memory ∧
        (args.zeroCopy = true → memory.memoryPool.isSystemMemoryPool = true) ∧
        (memory.memoryPool.isSystemMemoryPool = false → args.zeroCopy = false) ∧
        (memory.allocationType = AllocationType.BUFFER →
          memory.memoryPool.isSystemMemoryPool = false)) ∧
      (∀ b, outcome.buffer = some b → ∃ memory,
        b.graphicsAllocation = some memory ∧
        (b.isZeroCopy = true → memory.memoryPool.isSystemMemoryPool = true) ∧
        (memory.memoryPool.isSystemMemoryPool = false →
          b.isZeroCopy = false ∧
          (hostPtr ≠ nullptr →
            outcome.copy = some (HostPtrCopy.enqueueWriteBuffer true 0 size hostPtr))) ∧
        (memory.allocationType = AllocationType.BUFFER →
          memory.memoryPool.isSystemMemoryPool = false)) := by
  apply create_cases env context properties size hostPtr memoryManager _ h
  · intro outcome hbuffer hcalls _ _
    rw [hbuffer, hcalls]
    simp
  · intro _ memory _
    obtain ⟨hcalls, hmemory, _, hbuffer⟩ := createFinish_fields env context properties size
      hostPtr memory (createObtainMemory memoryManager properties size hostPtr
          (createSelectPath env context memoryManager properties hostPtr
            (checkMemory properties.flags size hostPtr memoryManager)))
      (createPerformanceHints env context memoryManager properties hostPtr
          (checkMemory properties.flags size hostPtr memoryManager))
    generalize (createObtainMemory memoryManager properties size hostPtr
          (createSelectPath env context memoryManager properties hostPtr
            (checkMemory properties.flags size hostPtr memoryManager))) = obtained
      at hcalls hmemory hbuffer ⊢
    generalize (createFinish env context properties size hostPtr memory obtained
      (createPerformanceHints env context memoryManager properties hostPtr
          (checkMemory properties.flags size hostPtr memoryManager))) = outcome
      at hcalls hmemory hbuffer ⊢
    have hpoolTagged : (createTagMemory properties.flags memory
        (createAdjustToPool hostPtr memory obtained.1)).memoryPool = memory.memoryPool := rfl
    have htypeTagged : (createTagMemory properties.flags memory
        (createAdjustToPool hostPtr memory obtained.1)).allocationType
        = (createAdjustToPool hostPtr memory obtained.1).allocationType := rfl
    refine ⟨?_, ?_⟩
    · intro args hargs
      rw [hcalls, List.mem_singleton] at hargs
      refine ⟨_, by rw [hargs]; rfl, hmemory, ?_, ?_, ?_⟩
      · intro hz
        rw [hargs] at hz
        rw [hpoolTagged]
        exact (createAdjustToPool_zeroCopyAllowed hostPtr memory obtained.1 hz).2
      · intro hpool
        rw [hpoolTagged] at hpool
        rw [hargs]
        exact (createAdjustToPool_not_system hostPtr memory obtained.1 hpool).1
      · intro htype
        rw [htypeTagged] at htype
        rw [hpoolTagged]
        exact createAdjustToPool_allocationType hostPtr memory obtained.1 htype
    · intro b hb
      obtain ⟨hzero, hgfx, hcopy⟩ := hbuffer b hb
      refine ⟨_, hgfx, ?_, ?_, ?_⟩
      · intro hz
        rw [hzero] at hz
        rw [hpoolTagged]
        exact (createAdjustToPool_zeroCopyAllowed hostPtr memory obtained.1 hz).2
      · intro hpool
        rw [hpoolTagged] at hpool
        obtain ⟨hz, hc⟩ := createAdjustToPool_not_system hostPtr memory obtained.1 hpool
        refine ⟨by rw [hzero]; exact hz, ?_⟩
        intro hp
        rw [hcopy]
        unfold createCopy
        rw [if_pos (hc hp), copyNeedsQueue_createTagMemory]
        have hneeds : copyNeedsQueue memory = true := by
          unfold copyNeedsQueue
          rw [hpool]
          simp
        rw [if_pos hneeds]
      · intro htype
        rw [htypeTagged] at htype
        rw [hpoolTagged]
        exact createAdjustToPool_allocationType hostPtr memory obtained.1 htype

/-- Witness of C25: a `CL_MEM_COPY_HOST_PTR` buffer of 64 bytes that the memory
manager places in local memory is created, and the same request placed in
system memory is created as zero copy. -/
theorem create_zero_copy_in_system_memory_witness :
    (∃ outcome,
      create exampleEnvironment
        (exampleContext (exampleMemoryManager (some exampleLocalAllocation)) 0)
        { flags := CL_MEM_READ_WRITE ||| CL_MEM_COPY_HOST_PTR, flags_intel := 0 } 64 4096
        = some outcome ∧
      (∀ b, outcome.buffer = some b → ∃ memory,
        b.graphicsAllocation = some memory ∧
        (b.isZeroCopy = true → memory.memoryPool.isSystemMemoryPool = true) ∧
        (memory.memoryPool.isSystemMemoryPool = false →
          b.isZeroCopy = false ∧
          ((4096 : Nat) ≠ nullptr →
            outcome.copy = some (HostPtrCopy.enqueueWriteBuffer true 0 64 4096))) ∧
        (memory.allocationType = AllocationType.BUFFER →
          memory.memoryPool.isSystemMemoryPool = false))) ∧
    Option.map
      (fun o : CreateOutcome =>
        (o.buffer.map (fun b => b.isZeroCopy),
          o.memory.map (fun memory => (memory.memoryPool, memory.allocationType)), o.copy))
      (create exampleEnvironment
        (exampleContext (exampleMemoryManager (some exampleLocalAllocation)) 0)
        { flags := CL_MEM_READ_WRITE ||| CL_MEM_COPY_HOST_PTR, flags_intel := 0 } 64 4096)
      = some (some false, some (MemoryPool.LocalMemory, AllocationType.BUFFER),
          some (HostPtrCopy.enqueueWriteBuffer true 0 64 4096)) ∧
    Option.map
      (fun o : CreateOutcome =>
        (o.buffer.map (fun b => b.isZeroCopy),
          o.memory.map (fun memory => (memory.memoryPool, memory.allocationType))))
      (create exampleEnvironment
        (exampleContext (exampleMemoryManager (some exampleSystemAllocation)) 0)
        { flags := CL_MEM_READ_WRITE ||| CL_MEM_COPY_HOST_PTR, flags_intel := 0 } 64 4096)
      = some (some true, some (MemoryPool.SystemMemory, AllocationType.BUFFER_HOST_MEMORY)) := by
  obtain ⟨outcome, hcreate, _, hbuffer⟩ :=
    create_zero_copy_in_system_memory exampleEnvironment
      (exampleContext (exampleMemoryManager (some exampleLocalAllocation)) 0)
      { flags := CL_MEM_READ_WRITE ||| CL_MEM_COPY_HOST_PTR, flags_intel := 0 } 64 4096
      (exampleMemoryManager (some exampleLocalAllocation)) rfl
  exact ⟨⟨outcome, hcreate, hbuffer⟩, by decide, by decide⟩

end Buffer

/-! ### `size_t` arithmetic -/

/-- A `size_t` sum is below `2 ^ 64`. -/
theorem sizeAdd_lt (a b : Nat) : sizeAdd a b < 2 ^ 64 :=
  Nat.mod_lt _ (by norm_num)

/-- In the integers modulo `2 ^ 64`, `2 ^ 64` is zero. -/
theorem two_pow_cast_zmod : ((2 ^ 64 : Nat) : ZMod (2 ^ 64)) = 0 :=
  ZMod.natCast_self (2 ^ 64)

/-- A `size_t` sum is the sum modulo `2 ^ 64`. -/
theorem sizeAdd_cast (a b : Nat) : ((sizeAdd a b : Nat) : ZMod (2 ^ 64)) = a + b := by
  unfold sizeAdd
  rw [ZMod.natCast_mod, Nat.cast_add]

/-- A `size_t` product is the product modulo `2 ^ 64`. -/
theorem sizeMul_cast (a b : Nat) : ((sizeMul a b : Nat) : ZMod (2 ^ 64)) = a * b := by
  unfold sizeMul
  rw [ZMod.natCast_mod, Nat.cast_mul]

/-- A `size_t` difference is the difference modulo `2 ^ 64`. -/
theorem sizeSub_cast (a b : Nat) : ((sizeSub a b : Nat) : ZMod (2 ^ 64)) = a - b := by
  unfold sizeSub
  have hle : b % 2 ^ 64 ≤ 2 ^ 64 := (Nat.mod_lt _ (by norm_num)).le
  rw [ZMod.natCast_mod, Nat.cast_add, Nat.cast_sub hle, two_pow_cast_zmod, ZMod.natCast_mod]
  ring

/-- Two `size_t` values that agree modulo `2 ^ 64` are equal. -/
theorem size_eq_of_cast (a b : Nat) (ha : a < 2 ^ 64) (hb : b < 2 ^ 64)
    (h : (a : ZMod (2 ^ 64)) = b) : a = b := by
  rw [ZMod.natCast_eq_natCast_iff'] at h
  rw [Nat.mod_eq_of_lt ha, Nat.mod_eq_of_lt hb] at h
  exact h

namespace Buffer

/-- `calculateHostPtrSize` computes the extent of the rectangle in `size_t`
arithmetic. -/
theorem calculateHostPtrSize_eq_rectExtentWrapped (origin region : Nat → Nat)
    (rowPitch slicePitch : Nat) :
    calculateHostPtrSize origin region rowPitch slicePitch
      = rectExtentWrapped origin region rowPitch slicePitch := by
  apply size_eq_of_cast
  · exact sizeAdd_lt _ _
  · exact sizeAdd_lt _ _
  · unfold calculateHostPtrSize rectExtentWrapped
    simp only [sizeAdd_cast, sizeMul_cast, sizeSub_cast]
    push_cast
    ring


/-! ### Rectangular regions -/

/-- With non-zero row pitches both `%` of `bufferRectPitchSet` have a result, and
the value returned is the conjunction of the three checks. -/
theorem bufferRectPitchCheck_of_ne_zero (this : Buffer) (bufferOrigin region : Nat → Nat)
    (pitches : RectPitches) (hbuffer : pitches.bufferRowPitch ≠ 0)
    (hhost : pitches.hostRowPitch ≠ 0) :
    bufferRectPitchCheck this bufferOrigin region pitches =
      some (decide
        (¬ (pitches.bufferRowPitch < region 0 ∨ pitches.hostRowPitch < region 0) ∧
          ¬ ((pitches.bufferSlicePitch < sizeMul (region 1) pitches.bufferRowPitch ∨
              pitches.bufferSlicePitch % pitches.bufferRowPitch ≠ 0) ∨
            (pitches.hostSlicePitch < sizeMul (region 1) pitches.hostRowPitch ∨
              pitches.hostSlicePitch % pitches.hostRowPitch ≠ 0)) ∧
          ¬ (rectExtentWrapped bufferOrigin region pitches.bufferRowPitch
              pitches.bufferSlicePitch > this.size))) := by
  unfold bufferRectPitchCheck sizeMod rectExtentWrapped
  simp only [if_neg hbuffer, if_neg hhost]
  by_cases h1 : pitches.bufferRowPitch < region 0 ∨ pitches.hostRowPitch < region 0
  · simp [h1]
  · rw [if_neg h1]
    by_cases h2 : pitches.bufferSlicePitch < sizeMul (region 1) pitches.bufferRowPitch
    · simp [h2]
    · rw [if_neg h2]
      by_cases h3 : pitches.bufferSlicePitch % pitches.bufferRowPitch ≠ 0
      · simp [h3]
      · rw [if_neg h3]
        by_cases h4 : pitches.hostSlicePitch < sizeMul (region 1) pitches.hostRowPitch
        · simp [h4]
        · rw [if_neg h4]
          by_cases h5 : pitches.hostSlicePitch % pitches.hostRowPitch ≠ 0
          · simp [h5]
          · rw [if_neg h5]
            simp only [h1, h2, h3, h4, h5, not_false_eq_true, or_self, true_and]
            split <;> simp [*]

/-- For a region at least one byte wide, the row pitches as set are not 0. -/
theorem bufferRectPitchDefaults_rowPitch_ne_zero (region : Nat → Nat) (pitches : RectPitches)
    (hregion : 1 ≤ region 0) :
    (bufferRectPitchDefaults region pitches).bufferRowPitch ≠ 0 ∧
    (bufferRectPitchDefaults region pitches).hostRowPitch ≠ 0 := by
  unfold bufferRectPitchDefaults
  simp only []
  constructor
  · split
    · omega
    · assumption
  · split
    · omega
    · assumption


/-- `bufferRectPitchSet` for a region at least one byte wide: the call returns,
with the pitches as set and the conjunction of the three checks. -/
theorem bufferRectPitchSet_of_region (this : Buffer) (bufferOrigin region : Nat → Nat)
    (pitches : RectPitches) (hregion : 1 ≤ region 0) :
    bufferRectPitchSet this bufferOrigin region pitches =
      some
        (decide
          (¬ ((bufferRectPitchDefaults region pitches).bufferRowPitch < region 0 ∨
              (bufferRectPitchDefaults region pitches).hostRowPitch < region 0) ∧
            ¬ (((bufferRectPitchDefaults region pitches).bufferSlicePitch
                  < sizeMul (region 1) (bufferRectPitchDefaults region pitches).bufferRowPitch ∨
                (bufferRectPitchDefaults region pitches).bufferSlicePitch
                  % (bufferRectPitchDefaults region pitches).bufferRowPitch ≠ 0) ∨
              ((bufferRectPitchDefaults region pitches).hostSlicePitch
                  < sizeMul (region 1) (bufferRectPitchDefaults region pitches).hostRowPitch ∨
                (bufferRectPitchDefaults region pitches).hostSlicePitch
                  % (bufferRectPitchDefaults region pitches).hostRowPitch ≠ 0)) ∧
            ¬ (rectExtentWrapped bufferOrigin region
                (bufferRectPitchDefaults region pitches).bufferRowPitch
                (bufferRectPitchDefaults region pitches).bufferSlicePitch > this.size)),
          bufferRectPitchDefaults region pitches) := by
  obtain ⟨hbuffer, hhost⟩ := bufferRectPitchDefaults_rowPitch_ne_zero region pitches hregion
  unfold bufferRectPitchSet
  rw [bufferRectPitchCheck_of_ne_zero this bufferOrigin region _ hbuffer hhost]

/-- C27: for every call of `Buffer::bufferRectPitchSet` with `region[0] >= 1`, both
modulo operations (`bufferSlicePitch % bufferRowPitch` and `hostSlicePitch %
hostRowPitch`) have a non-zero divisor, so the call returns a value, whatever
pitches the caller passes; a pitch of 0 is replaced by the tightly packed
default, `region[0]` for a row pitch and `region[1] * rowPitch` for a slice
pitch, and the other pitches are left as passed. -/
theorem bufferRectPitchSet_modulo_divisors_ne_zero (this : Buffer)
    (bufferOrigin region : Nat → Nat) (pitches : RectPitches) (hregion : 1 ≤ region 0) :
    ∃ result set, bufferRectPitchSet this bufferOrigin region pitches = some (result, set) ∧
      set.bufferRowPitch ≠ 0 ∧ set.hostRowPitch ≠ 0 ∧
      sizeMod set.bufferSlicePitch set.bufferRowPitch
        = some (set.bufferSlicePitch % set.bufferRowPitch) ∧
      sizeMod set.hostSlicePitch set.hostRowPitch
        = some (set.hostSlicePitch % set.hostRowPitch) ∧
      set.bufferRowPitch
        = (if pitches.bufferRowPitch = 0 then region 0 else pitches.bufferRowPitch) ∧
      set.bufferSlicePitch
        = (if pitches.bufferSlicePitch = 0 then sizeMul (region 1) set.bufferRowPitch
          else pitches.bufferSlicePitch) ∧
      set.hostRowPitch
        = (if pitches.hostRowPitch = 0 then region 0 else pitches.hostRowPitch) ∧
      set.hostSlicePitch
        = (if pitches.hostSlicePitch = 0 then sizeMul (region 1) set.hostRowPitch
          else pitches.hostSlicePitch) := by
  obtain ⟨hbuffer, hhost⟩ := bufferRectPitchDefaults_rowPitch_ne_zero region pitches hregion
  refine ⟨_, _, bufferRectPitchSet_of_region this bufferOrigin region pitches hregion,
    hbuffer, hhost, ?_, ?_, rfl, rfl, rfl, rfl⟩
  · unfold sizeMod
    rw [if_neg hbuffer]
  · unfold sizeMod
    rw [if_neg hhost]

/-- Witness of C27: a region of 16 by 4 by 1 bytes with all pitches 0 in the example
parent buffer; the pitches become 16 and 64 and the rectangle is accepted. -/
theorem bufferRectPitchSet_modulo_divisors_ne_zero_witness :
    (∃ result set,
      bufferRectPitchSet exampleParentBuffer (sizeArray 0 0 0) (sizeArray 16 4 1)
        examplePitchesUnset = some (result, set) ∧
      set.bufferRowPitch ≠ 0 ∧ set.hostRowPitch ≠ 0) ∧
    bufferRectPitchSet exampleParentBuffer (sizeArray 0 0 0) (sizeArray 16 4 1)
        examplePitchesUnset
      = some (true,
          { bufferRowPitch := 16, bufferSlicePitch := 64, hostRowPitch := 16,
            hostSlicePitch := 64 }) := by
  obtain ⟨result, set, hcall, hbuffer, hhost, _⟩ :=
    bufferRectPitchSet_modulo_divisors_ne_zero exampleParentBuffer (sizeArray 0 0 0)
      (sizeArray 16 4 1) examplePitchesUnset (by decide)
  exact ⟨⟨result, set, hcall, hbuffer, hhost⟩, by decide⟩

/-- Without the condition on `region[0]` the divisor can be 0: a region that is 0
bytes wide with all pitches 0 takes `bufferSlicePitch % bufferRowPitch` with
both 0. -/
theorem bufferRectPitchSet_empty_region_divides_by_zero :
    bufferRectPitchSet exampleParentBuffer (sizeArray 0 0 0) (sizeArray 0 1 1)
      examplePitchesUnset = none := by
  decide

/-- C26: `Buffer::bufferRectPitchSet` accepts a rectangle that does not lie inside
the buffer.  On a buffer of 4096 bytes, for `bufferOrigin = {2^64 - 1, 0, 0}`,
`region = {2, 1, 1}` and all pitches 0, the call sets every pitch to 2 and
returns true: the sum `bufferOrigin[0] + region[0]` wraps to 1, which is not
greater than the size.  The exact value of the extent is `2^64 + 1`, which is
greater than the size. -/
theorem bufferRectPitchSet_accepts_wrapped_extent :
    exampleParentBuffer.size = 4096 ∧
    bufferRectPitchSet exampleParentBuffer (sizeArray (2 ^ 64 - 1) 0 0) (sizeArray 2 1 1)
        examplePitchesUnset
      = some (true,
          { bufferRowPitch := 2, bufferSlicePitch := 2, hostRowPitch := 2,
            hostSlicePitch := 2 }) ∧
    rectExtentExact (sizeArray (2 ^ 64 - 1) 0 0) (sizeArray 2 1 1) 2 2 = 2 ^ 64 + 1 ∧
    ¬ (rectExtentExact (sizeArray (2 ^ 64 - 1) 0 0) (sizeArray 2 1 1) 2 2
        ≤ (exampleParentBuffer.size : Int)) := by
  refine ⟨rfl, by decide, by decide, by decide⟩


/-- When the exact extent of a rectangle is a `size_t` value and the differences
in it do not go below 0, the extent in `size_t` arithmetic is the exact one. -/
theorem rectExtentWrapped_eq_exact (bufferOrigin region : Nat → Nat) (rowPitch slicePitch : Nat)
    (h1 : 1 ≤ bufferOrigin 1 + region 1) (h2 : 1 ≤ bufferOrigin 2 + region 2)
    (hexact : rectExtentExact bufferOrigin region rowPitch slicePitch < 2 ^ 64) :
    (rectExtentWrapped bufferOrigin region rowPitch slicePitch : Int)
      = rectExtentExact bufferOrigin region rowPitch slicePitch := by
  have hnat : rectExtentExact bufferOrigin region rowPitch slicePitch
      = (((bufferOrigin 2 + region 2 - 1) * slicePitch
          + (bufferOrigin 1 + region 1 - 1) * rowPitch + bufferOrigin 0 + region 0 : Nat) : Int) := by
    unfold rectExtentExact
    push_cast [Nat.cast_sub h1, Nat.cast_sub h2]
    ring
  rw [hnat] at hexact ⊢
  have hlt : (bufferOrigin 2 + region 2 - 1) * slicePitch
      + (bufferOrigin 1 + region 1 - 1) * rowPitch + bufferOrigin 0 + region 0 < 2 ^ 64 := by
    exact_mod_cast hexact
  congr 1
  apply size_eq_of_cast _ _ (sizeAdd_lt _ _) hlt
  simp only [sizeAdd_cast, sizeMul_cast, sizeSub_cast]
  push_cast [Nat.cast_sub h1, Nat.cast_sub h2]
  ring

/-- The bounds check of `bufferRectPitchSet` is sound as long as nothing wraps:
for a region at least one byte wide whose exact extent is a `size_t` value,
an accepted rectangle lies inside the buffer. -/
theorem bufferRectPitchSet_sound_without_wrap (this : Buffer) (bufferOrigin region : Nat → Nat)
    (pitches set : RectPitches) (hregion : 1 ≤ region 0)
    (h1 : 1 ≤ bufferOrigin 1 + region 1) (h2 : 1 ≤ bufferOrigin 2 + region 2)
    (hcall : bufferRectPitchSet this bufferOrigin region pitches = some (true, set))
    (hexact : rectExtentExact bufferOrigin region set.bufferRowPitch set.bufferSlicePitch
      < 2 ^ 64) :
    rectExtentExact bufferOrigin region set.bufferRowPitch set.bufferSlicePitch
      ≤ (this.size : Int) := by
  rw [bufferRectPitchSet_of_region this bufferOrigin region pitches hregion] at hcall
  simp only [Option.some.injEq, Prod.mk.injEq, decide_eq_true_eq] at hcall
  obtain ⟨⟨_, _, hextent⟩, hset⟩ := hcall
  rw [hset] at hextent
  rw [← rectExtentWrapped_eq_exact bufferOrigin region _ _ h1 h2 hexact]
  have hle : rectExtentWrapped bufferOrigin region set.bufferRowPitch set.bufferSlicePitch
      ≤ this.size := by omega
  exact_mod_cast hle


/-- C28: for every origin, region, row pitch and slice pitch,
`Buffer::calculateHostPtrSize(origin, region, rowPitch, slicePitch)` equals
`(origin[2] + region[2] - 1) * slicePitch + (origin[1] + region[1] - 1) *
rowPitch + origin[0] + region[0]` in 64-bit wrapping arithmetic, the extent
that `bufferRectPitchSet` compares against the buffer size.  So for a region
at least one byte wide `bufferRectPitchSet` returns, an accepted rectangle has
`calculateHostPtrSize` with the buffer pitches as set at most `getSize()`, and
a rectangle that passes the pitch checks is rejected exactly when
`calculateHostPtrSize` with the buffer pitches is greater than `getSize()`. -/
theorem calculateHostPtrSize_is_rect_extent (origin region : Nat → Nat)
    (rowPitch slicePitch : Nat) :
    calculateHostPtrSize origin region rowPitch slicePitch
      = rectExtentWrapped origin region rowPitch slicePitch ∧
    (∀ (this : Buffer) (pitches : RectPitches), 1 ≤ region 0 →
      ∃ result set, bufferRectPitchSet this origin region pitches = some (result, set) ∧
        (result = true →
          calculateHostPtrSize origin region set.bufferRowPitch set.bufferSlicePitch
            ≤ this.size) ∧
        (¬ (set.bufferRowPitch < region 0 ∨ set.hostRowPitch < region 0) →
          ¬ ((set.bufferSlicePitch < sizeMul (region 1) set.bufferRowPitch ∨
              set.bufferSlicePitch % set.bufferRowPitch ≠ 0) ∨
            (set.hostSlicePitch < sizeMul (region 1) set.hostRowPitch ∨
              set.hostSlicePitch % set.hostRowPitch ≠ 0)) →
          (result = false ↔
            calculateHostPtrSize origin region set.bufferRowPitch set.bufferSlicePitch
              > this.size))) := by
  refine ⟨calculateHostPtrSize_eq_rectExtentWrapped origin region rowPitch slicePitch, ?_⟩
  intro this pitches hregion
  refine ⟨_, _, bufferRectPitchSet_of_region this origin region pitches hregion, ?_, ?_⟩
  · intro hresult
    rw [decide_eq_true_eq] at hresult
    rw [calculateHostPtrSize_eq_rectExtentWrapped]
    omega
  · intro hrow hslice
    rw [calculateHostPtrSize_eq_rectExtentWrapped, decide_eq_false_iff_not]
    constructor
    · intro hnot
      by_contra hle
      exact hnot ⟨hrow, hslice, hle⟩
    · intro hgt hall
      exact hall.2.2 hgt

/-- Witness of C28: in the example parent buffer of 4096 bytes with all pitches 0,
the region of 16 by 4 by 1 bytes at the origin has the extent 64 and is
accepted, and the region of 16 bytes at origin 4090 has the extent 4106 and is
rejected. -/
theorem calculateHostPtrSize_is_rect_extent_witness :
    calculateHostPtrSize (sizeArray 0 0 0) (sizeArray 16 4 1) 16 64 = 64 ∧
    bufferRectPitchSet exampleParentBuffer (sizeArray 0 0 0) (sizeArray 16 4 1)
        examplePitchesUnset
      = some (true,
          { bufferRowPitch := 16, bufferSlicePitch := 64, hostRowPitch := 16,
            hostSlicePitch := 64 }) ∧
    calculateHostPtrSize (sizeArray 4090 0 0) (sizeArray 16 1 1) 16 16 = 4106 ∧
    bufferRectPitchSet exampleParentBuffer (sizeArray 4090 0 0) (sizeArray 16 1 1)
        examplePitchesUnset
      = some (false,
          { bufferRowPitch := 16, bufferSlicePitch := 16, hostRowPitch := 16,
            hostSlicePitch := 16 }) ∧
    (∃ result set,
      bufferRectPitchSet exampleParentBuffer (sizeArray 4090 0 0) (sizeArray 16 1 1)
        examplePitchesUnset = some (result, set) ∧
      (result = true →
        calculateHostPtrSize (sizeArray 4090 0 0) (sizeArray 16 1 1) set.bufferRowPitch
          set.bufferSlicePitch ≤ exampleParentBuffer.size)) := by
  obtain ⟨_, hcheck⟩ :=
    calculateHostPtrSize_is_rect_extent (sizeArray 4090 0 0) (sizeArray 16 1 1) 16 16
  obtain ⟨result, set, hcall, haccepted, _⟩ :=
    hcheck exampleParentBuffer examplePitchesUnset (by decide)
  exact ⟨by decide, by decide, by decide, by decide, result, set, hcall, haccepted⟩

end Buffer

/-! ### Timestamp packet containers -/

namespace TimestampPacketContainer

/-- The loop of `resolveDependencies`: the nodes whose tag cannot be released (and
none when all dependencies are cleared) are appended to `pendingNodes` in
order, `returnTag` is called on the others in order, and nothing else
changes. -/
theorem resolveDependenciesLoop_eq (clearAllDependencies : Bool) (nodes pendingNodes : List Node)
    (state : TimestampPacketState) :
    resolveDependenciesLoop clearAllDependencies nodes pendingNodes state =
      (pendingNodes ++
          nodes.filter (fun node => !(state.canBeReleased node || clearAllDependencies)),
        { state with
          returnTagCalls := state.returnTagCalls ++
            nodes.filter (fun node => state.canBeReleased node || clearAllDependencies) }) := by
  induction nodes generalizing pendingNodes state with
  | nil => simp [resolveDependenciesLoop]
  | cons node rest ih =>
    unfold resolveDependenciesLoop
    by_cases hrelease : (state.canBeReleased node || clearAllDependencies) = true
    · have hpending : ¬ ((fun other => !(state.canBeReleased other || clearAllDependencies))
          node = true) := by
        simp only [hrelease]
        simp
      rw [if_pos hrelease, ih,
        @List.filter_cons_of_neg _
          (fun other => !(state.canBeReleased other || clearAllDependencies)) node rest hpending,
        @List.filter_cons_of_pos _ (fun other => state.canBeReleased other || clearAllDependencies)
          node rest hrelease]
      simp [returnTag]
    · have hpending : (fun other => !(state.canBeReleased other || clearAllDependencies))
          node = true := by
        simpa using hrelease
      rw [if_neg hrelease, ih,
        @List.filter_cons_of_pos _
          (fun other => !(state.canBeReleased other || clearAllDependencies)) node rest hpending,
        @List.filter_cons_of_neg _ (fun other => state.canBeReleased other || clearAllDependencies)
          node rest hrelease]
      simp

/-- C29: for every node list and flag `clearAllDependencies`, after
`TimestampPacketContainer::resolveDependencies` the container holds exactly
the nodes whose tag cannot be released, in their original relative order,
when the flag is false, and is empty when the flag is true; `returnTag` is
called exactly once for each removed node occurrence, in order, and never for
a retained node; the other containers are left as they were. -/
theorem resolveDependencies_keeps_pending (this : ContainerRef) (clearAllDependencies : Bool)
    (state : TimestampPacketState) :
    (clearAllDependencies = false →
      (resolveDependencies this clearAllDependencies state).timestampPacketNodes this
        = (state.timestampPacketNodes this).filter (fun node => !state.canBeReleased node)) ∧
    (clearAllDependencies = true →
      (resolveDependencies this clearAllDependencies state).timestampPacketNodes this = []) ∧
    (∃ returned : List Node,
      (resolveDependencies this clearAllDependencies state).returnTagCalls
        = state.returnTagCalls ++ returned ∧
      returned = (state.timestampPacketNodes this).filter
        (fun node => state.canBeReleased node || clearAllDependencies) ∧
      (∀ node, returned.count node
          + ((resolveDependencies this clearAllDependencies state).timestampPacketNodes
              this).count node
        = (state.timestampPacketNodes this).count node) ∧
      (∀ node,
        node ∈ (resolveDependencies this clearAllDependencies state).timestampPacketNodes this →
        node ∉ returned)) ∧
    (∀ other, other ≠ this →
      (resolveDependencies this clearAllDependencies state).timestampPacketNodes other
        = state.timestampPacketNodes other) := by
  have hnodes : (resolveDependencies this clearAllDependencies state).timestampPacketNodes this
      = (state.timestampPacketNodes this).filter
          (fun node => !(state.canBeReleased node || clearAllDependencies)) := by
    unfold resolveDependencies setNodes
    simp [resolveDependenciesLoop_eq]
  have hcalls : (resolveDependencies this clearAllDependencies state).returnTagCalls
      = state.returnTagCalls ++ (state.timestampPacketNodes this).filter
          (fun node => state.canBeReleased node || clearAllDependencies) := by
    unfold resolveDependencies setNodes
    simp [resolveDependenciesLoop_eq]
  refine ⟨?_, ?_, ⟨_, hcalls, rfl, ?_, ?_⟩, ?_⟩
  · intro hclear
    rw [hnodes, hclear]
    simp
  · intro hclear
    rw [hnodes, hclear]
    simp
  · intro node
    rw [hnodes, ← List.count_append]
    exact (List.filter_append_perm
      (fun other => state.canBeReleased other || clearAllDependencies)
      (state.timestampPacketNodes this)).count_eq node
  · intro node hmem
    rw [hnodes] at hmem
    intro hreturned
    have h1 := (List.mem_filter.mp hmem).2
    have h2 := (List.mem_filter.mp hreturned).2
    rw [h2] at h1
    simp at h1
  · intro other hother
    unfold resolveDependencies setNodes
    simp [resolveDependenciesLoop_eq, hother]


/-- Witness of C29: container 1 of the example holds the nodes 10, 11, 12, 11, of
which only node 11 can be released.  Without clearing, the nodes 10 and 12
stay and `returnTag` is called for both occurrences of node 11; with clearing,
the container is emptied and `returnTag` is called on all four. -/
theorem resolveDependencies_keeps_pending_witness :
    (resolveDependencies 1 false exampleTimestampPacketState).timestampPacketNodes 1
      = [10, 12] ∧
    (resolveDependencies 1 false exampleTimestampPacketState).returnTagCalls = [11, 11] ∧
    (resolveDependencies 1 true exampleTimestampPacketState).timestampPacketNodes 1 = [] ∧
    (resolveDependencies 1 true exampleTimestampPacketState).returnTagCalls
      = [10, 11, 12, 11] ∧
    (resolveDependencies 1 false exampleTimestampPacketState).timestampPacketNodes 2
      = [20, 11] := by
  obtain ⟨hkeep, _, _, hother⟩ :=
    resolveDependencies_keeps_pending 1 false exampleTimestampPacketState
  obtain ⟨_, hclear, _, _⟩ :=
    resolveDependencies_keeps_pending 1 true exampleTimestampPacketState
  refine ⟨?_, by decide, hclear rfl, by decide, ?_⟩
  · rw [hkeep rfl]
    decide
  · rw [hother 2 (by decide)]
    decide

/-- Nothing but the node list of `this` is changed by an assignment to it. -/
theorem setNodes_fields (this : ContainerRef) (nodes : List Node)
    (state : TimestampPacketState) :
    (setNodes this nodes state).timestampPacketNodes this = nodes ∧
    (∀ other, other ≠ this →
      (setNodes this nodes state).timestampPacketNodes other
        = state.timestampPacketNodes other) ∧
    (setNodes this nodes state).refCount = state.refCount ∧
    (setNodes this nodes state).incRefCountCalls = state.incRefCountCalls ∧
    (setNodes this nodes state).returnTagCalls = state.returnTagCalls := by
  unfold setNodes
  refine ⟨by simp, ?_, rfl, rfl, rfl⟩
  intro other hother
  simp [hother]

/-- The loop of `assignAndIncrementNodesRefCounts`: every node gains one reference
per occurrence in the list, the calls are recorded in order, and the node
lists and the `returnTag` calls are left alone. -/
theorem incrementNodesRefCounts_fields (nodes : List Node) (state : TimestampPacketState) :
    (∀ node, (incrementNodesRefCounts nodes state).refCount node
      = state.refCount node + nodes.count node) ∧
    (incrementNodesRefCounts nodes state).incRefCountCalls
      = state.incRefCountCalls ++ nodes ∧
    (incrementNodesRefCounts nodes state).timestampPacketNodes = state.timestampPacketNodes ∧
    (incrementNodesRefCounts nodes state).returnTagCalls = state.returnTagCalls := by
  induction nodes generalizing state with
  | nil => simp [incrementNodesRefCounts]
  | cons head rest ih =>
    unfold incrementNodesRefCounts
    obtain ⟨hcount, hcalls, hnodes, hreturn⟩ := ih (incRefCount head state)
    refine ⟨?_, ?_, ?_, ?_⟩
    · intro node
      rw [hcount node, List.count_cons]
      unfold incRefCount
      simp only []
      by_cases hnode : node = head
      · subst hnode
        simp
        omega
      · have hne : ¬ (head == node) = true := by
          simp only [beq_iff_eq]
          exact fun heq => hnode heq.symm
        rw [if_neg hnode, if_neg hne]
        omega
    · rw [hcalls]
      unfold incRefCount
      simp
    · rw [hnodes]
      rfl
    · rw [hreturn]
      rfl

/-- C30: for every pair of distinct containers,
`TimestampPacketContainer::assignAndIncrementNodesRefCounts(input)` leaves the
node list of this container equal to its previous list followed by all nodes
of the input in the order of the input, increments the reference count of
each input node exactly once per occurrence (`incRefCount` is called on the
nodes of the input, in order), changes the reference count of no other node
and leaves the list of the input container, and of every other container,
unchanged. -/
theorem assignAndIncrementNodesRefCounts_appends (this inputTimestampPacketContainer : ContainerRef)
    (state : TimestampPacketState) (hdistinct : this ≠ inputTimestampPacketContainer) :
    ∃ next,
      assignAndIncrementNodesRefCounts this inputTimestampPacketContainer state = some next ∧
      next.timestampPacketNodes this
        = state.timestampPacketNodes this
          ++ state.timestampPacketNodes inputTimestampPacketContainer ∧
      next.timestampPacketNodes inputTimestampPacketContainer
        = state.timestampPacketNodes inputTimestampPacketContainer ∧
      (∀ other, other ≠ this →
        next.timestampPacketNodes other = state.timestampPacketNodes other) ∧
      (∀ node, next.refCount node
        = state.refCount node
          + (state.timestampPacketNodes inputTimestampPacketContainer).count node) ∧
      (∀ node, node ∉ state.timestampPacketNodes inputTimestampPacketContainer →
        next.refCount node = state.refCount node) ∧
      next.incRefCountCalls
        = state.incRefCountCalls ++ state.timestampPacketNodes inputTimestampPacketContainer ∧
      next.returnTagCalls = state.returnTagCalls := by
  obtain ⟨hthis, hothers, hrefs, hinc, hret⟩ :=
    setNodes_fields this
      (state.timestampPacketNodes this
        ++ state.timestampPacketNodes inputTimestampPacketContainer) state
  obtain ⟨hcount, hcalls, hnodes, hreturn⟩ :=
    incrementNodesRefCounts_fields (state.timestampPacketNodes inputTimestampPacketContainer)
      (setNodes this
        (state.timestampPacketNodes this
          ++ state.timestampPacketNodes inputTimestampPacketContainer) state)
  unfold assignAndIncrementNodesRefCounts peekNodes
  rw [if_neg hdistinct]
  refine ⟨_, rfl, ?_, ?_, ?_, ?_, ?_, ?_, ?_⟩
  · rw [hnodes, hthis]
  · rw [hnodes, hothers _ (Ne.symm hdistinct)]
  · intro other hother
    rw [hnodes, hothers other hother]
  · intro node
    rw [hcount node, hrefs]
  · intro node hnode
    rw [hcount node, hrefs, List.count_eq_zero_of_not_mem hnode]
    rfl
  · rw [hcalls, hinc]
  · rw [hreturn, hret]

/-- Witness of C30: container 2 of the example (nodes 20, 11) is assigned to
container 1 (nodes 10, 11, 12, 11).  Container 1 then holds its nodes followed
by 20 and 11, container 2 is unchanged, the nodes 20 and 11 have gained one
reference each and node 10 none. -/
theorem assignAndIncrementNodesRefCounts_appends_witness :
    ∃ next,
      assignAndIncrementNodesRefCounts 1 2 exampleTimestampPacketState = some next ∧
      next.timestampPacketNodes 1 = [10, 11, 12, 11, 20, 11] ∧
      next.timestampPacketNodes 2 = [20, 11] ∧
      next.refCount 20 = 2 ∧ next.refCount 11 = 2 ∧ next.refCount 10 = 1 ∧
      next.incRefCountCalls = [20, 11] := by
  obtain ⟨next, hcall, hthis, hinput, _, hcount, hother, hcalls, _⟩ :=
    assignAndIncrementNodesRefCounts_appends 1 2 exampleTimestampPacketState (by decide)
  refine ⟨next, hcall, ?_, ?_, ?_, ?_, ?_, ?_⟩
  · rw [hthis]; decide
  · rw [hinput]; decide
  · rw [hcount 20]; decide
  · rw [hcount 11]; decide
  · rw [hother 10 (by decide)]; decide
  · rw [hcalls]; decide

/-- A container assigned to itself is outside what the function defines. -/
theorem assignAndIncrementNodesRefCounts_self (this : ContainerRef)
    (state : TimestampPacketState) :
    assignAndIncrementNodesRefCounts this this state = none := by
  unfold assignAndIncrementNodesRefCounts
  rw [if_pos rfl]

end TimestampPacketContainer

end OCLRT
